import Mathlib

/-!
Corona: the D3D12 graphics manager (`RHI/D3d/D3d12GraphicsManager.cpp`).

A shallow embedding of the Direct3D 12 backend of the Corona engine.

Conventions of the embedding

* The manager is a record; every member function is a pure function from the
  record (and the answers of the graphics API to the calls it makes) to the
  status it returns and the new record.
* The graphics API is external.  What a call of the API answers (an `HRESULT`,
  the completed value of the fence, the content of a fresh memory block) is an
  explicit argument of the function that makes the call.
* COM objects are identified by natural-number handles; `0` plays the role of a
  null or indeterminate pointer.
* The command list is the sequence of calls recorded on it since its last
  successful `Reset`.
* Sizes, pitches and counters are natural numbers.  The source computes them in
  unsigned machine words; the two agree as long as no word overflows (a D3D12
  texture is at most 16384 x 16384 texels, the fence counter has 64 bits).
  The draw-batch offsets, which the source itself discusses as 32-bit
  quantities, are computed modulo `2^32`.
-/

namespace Corona

/-! ## Status codes -/

/-- A Windows `HRESULT`: a signed 32-bit status, negative on failure. -/
abbrev HRESULT := Int

/-- The success status `S_OK`. -/
def S_OK : HRESULT := 0

/-- The failure status `E_FAIL`. -/
def E_FAIL : HRESULT := -2147467259

/-- The `FAILED` test of the Windows headers: the status is negative. -/
def FAILED (hr : HRESULT) : Bool := decide (hr < 0)

/-- The `SUCCEEDED` test of the Windows headers: the status is not negative. -/
def SUCCEEDED (hr : HRESULT) : Bool := decide (0 ≤ hr)

/-! ## Compile-time constants -/

/-- Modelled from the spec: the compile-time constants of the backend are declared in
`D3d12GraphicsManager.h`, which is not part of the sources; they are taken as parameters.
`sizeofVertexBasicAttribs` and `sizeofDebugVertex` stand for the two `sizeof` expressions. -/
structure Constants where
  kFrameCount : Nat
  kMaxSceneObjectCount : Nat
  kMaxTextureCount : Nat
  kSizePerFrameConstantBuffer : Nat
  kSizePerBatchConstantBuffer : Nat
  sizeofVertexBasicAttribs : Nat
  sizeofDebugVertex : Nat
deriving DecidableEq, Repr

/-- Modelled from the spec: the per-frame stride of the constant buffer, one per-frame block
followed by `kMaxSceneObjectCount` per-batch blocks (the declaration is in the missing header). -/
def Constants.kSizeConstantBufferPerFrame (k : Constants) : Nat :=
  k.kSizePerFrameConstantBuffer + k.kMaxSceneObjectCount * k.kSizePerBatchConstantBuffer

/-- Modelled from the spec: the first descriptor index of the texture region of the CBV/SRV heap,
right after the `kFrameCount * 2 * kMaxSceneObjectCount` constant-buffer descriptors (the
declaration is in the missing header). -/
def Constants.kTextureDescStartIndex (k : Constants) : Nat :=
  k.kFrameCount * (2 * k.kMaxSceneObjectCount)

/-! ## Scene objects seen by the backend -/

/-- One byte of image data. -/
abbrev Byte := Nat

/-- Modelled from the spec: the `Image` record behind `SceneObjectTexture::GetTextureImage`
(declared outside the sources), with the fields the backend reads and writes. -/
structure Image where
  Width : Nat
  Height : Nat
  bitcount : Nat
  pitch : Nat
  data_size : Nat
  data : List Byte
deriving DecidableEq, Repr

/-- A scene texture: its name (`GetName`) and its image (`GetTextureImage`). -/
structure SceneObjectTexture where
  name : String
  image : Image
deriving DecidableEq, Repr

/-- Vertex attributes are not inspected by the backend; a vertex is a token. -/
structure VertexBasicAttribs where
  id : Nat
deriving DecidableEq, Repr

/-- A material as the backend reads it: the result of `lock()` on each of its five texture
weak references (`none` when the reference has expired), and its `Textures` list of
possibly null texture pointers. -/
structure SceneObjectMaterial where
  ColorMap : Option SceneObjectTexture
  PhysicsDescriptorMap : Option SceneObjectTexture
  NormalMap : Option SceneObjectTexture
  AOMap : Option SceneObjectTexture
  EmissiveMap : Option SceneObjectTexture
  Textures : List (Option SceneObjectTexture)
deriving DecidableEq, Repr

/-- A mesh primitive: its vertex and index arrays and the counts its accessors report. -/
structure SceneObjectPrimitive where
  vertexData : List VertexBasicAttribs
  indexData : List Nat
  indexCount : Nat
  vertexCount : Nat
deriving DecidableEq, Repr

/-- A mesh: its primitives (`GetMesh`) and its material index (`GetMaterial`). -/
structure SceneObjectMesh where
  primitives : List SceneObjectPrimitive
  material : Nat
deriving DecidableEq, Repr

/-- A 4x4 matrix, as rows of entries. -/
abbrev Matrix4X4f := List (List Int)

/-- A geometry node: its mesh (asserted non-null by the source) and world transform. -/
structure SceneGeometryNode where
  pMesh : SceneObjectMesh
  matrix : Matrix4X4f
deriving DecidableEq, Repr

/-- The scene snapshot, each container in its iteration order: the materials by name
(possibly null pointers), the geometry nodes by name (the result of `lock()` on each weak
reference) and the linear material list (again the result of `lock()`). -/
structure Scene where
  Materials : List (String × Option SceneObjectMaterial)
  GeometryNodes : List (String × Option SceneGeometryNode)
  LinearMaterials : List (Option SceneObjectMaterial)
deriving DecidableEq, Repr

/-- A point or vector of three coordinates.  The source computes with `float`; the
embedding computes with exact rationals. -/
structure Point where
  x : Rat
  y : Rat
  z : Rat
deriving DecidableEq, Repr

/-- A colour, three components. -/
abbrev Vector3f := Point

/-- A vertex of the debug line list: position and colour. -/
structure DebugVertex where
  pos : Point
  color : Vector3f
deriving DecidableEq, Repr

/-! ## The graphics API -/

/-- A handle of a GPU resource. -/
abbrev Resource := Nat

/-- The heap types used by the backend. -/
inductive HeapType
  | DEFAULT
  | UPLOAD
deriving DecidableEq, Repr

/-- The resource states used by the backend. -/
inductive ResourceState
  | COPY_DEST
  | GENERIC_READ
  | VERTEX_AND_CONSTANT_BUFFER
  | INDEX_BUFFER
  | PIXEL_SHADER_RESOURCE
  | RENDER_TARGET
  | RESOLVE_SOURCE
  | RESOLVE_DEST
  | PRESENT
  | DEPTH_WRITE
deriving DecidableEq, Repr

/-- What `CreateCommittedResource` is asked to create. -/
structure CommittedResource where
  heap : HeapType
  Width : Nat
  Height : Nat
  SampleCount : Nat
  InitialState : ResourceState
deriving DecidableEq, Repr

/-- The types of descriptor heap. -/
inductive DescriptorHeapType
  | RTV
  | DSV
  | CBV_SRV_UAV
  | SAMPLER
deriving DecidableEq, Repr

/-- What `CreateDescriptorHeap` is asked to create. -/
structure DescriptorHeapDesc where
  NumDescriptors : Nat
  kind : DescriptorHeapType
  shaderVisible : Bool
deriving DecidableEq, Repr

/-- The device: the committed resources created so far (a handle is one more than the
position of its resource in this list) and the descriptor heaps created so far. -/
structure Device where
  resources : List CommittedResource
  descriptorHeaps : List DescriptorHeapDesc
deriving DecidableEq, Repr

/-- The call `m_pDev->CreateCommittedResource` answering `hr`: on failure nothing is created
and the out-pointer is left alone (modelled as the null handle). -/
def Device.CreateCommittedResource (dev : Device) (hr : HRESULT) (desc : CommittedResource) :
    HRESULT × Device × Resource :=
  if FAILED hr then (hr, dev, 0)
  else (hr, { dev with resources := dev.resources ++ [desc] }, dev.resources.length + 1)

/-- The call `m_pDev->CreateDescriptorHeap` answering `hr`. -/
def Device.CreateDescriptorHeap (dev : Device) (hr : HRESULT) (desc : DescriptorHeapDesc) :
    HRESULT × Device :=
  if FAILED hr then (hr, dev)
  else (hr, { dev with descriptorHeaps := dev.descriptorHeaps ++ [desc] })

/-- What an upload copies. -/
inductive Payload
  | bytes (data : List Byte)
  | indices (data : List Nat)
  | vertices (data : List VertexBasicAttribs)
  | debugVertices (data : List DebugVertex)
deriving DecidableEq, Repr

/-- A vertex buffer view. -/
structure VertexBufferView where
  BufferLocation : Resource
  StrideInBytes : Nat
  SizeInBytes : Nat
deriving DecidableEq, Repr

/-- An index buffer view. -/
structure IndexBufferView where
  BufferLocation : Resource
  SizeInBytes : Nat
deriving DecidableEq, Repr

/-- The two shader-visible descriptor heaps. -/
inductive HeapKind
  | CbvSrvUav
  | Sampler
deriving DecidableEq, Repr

/-- A call recorded on the command list. -/
inductive Cmd
  | UpdateSubresources (dst upload : Resource) (pData : Payload) (RowPitch SlicePitch : Nat)
  | ResourceBarrier (pResource : Resource) (StateBefore StateAfter : ResourceState)
  | OMSetRenderTargets (rtvIndex : Nat)
  | ClearRenderTargetView (rtvIndex : Nat) (color : List Nat)
  | ClearDepthStencilView (depth : Nat)
  | SetGraphicsRootSignature
  | SetDescriptorHeaps
  | SetGraphicsRootDescriptorTable (slot : Nat) (heap : HeapKind) (index : Int)
  | RSSetViewports
  | RSSetScissorRects
  | IASetPrimitiveTopology
  | IASetVertexBuffers (view : Option VertexBufferView)
  | IASetIndexBuffer (view : Option IndexBufferView)
  | DrawIndexedInstanced (IndexCountPerInstance InstanceCount StartIndexLocation : Nat)
      (BaseVertexLocation StartInstanceLocation : Nat)
  | SetPipelineState (name : String)
  | ResolveSubresource (dst src : Resource)
  | Close
  | Reset (pipeline : String)
deriving DecidableEq, Repr

/-- A descriptor written into a descriptor heap. -/
inductive Descriptor
  | RTV (res : Resource)
  | DSV (res : Resource)
  | CBV (res : Resource) (offset : Nat) (SizeInBytes : Nat)
  | SRV (res : Resource)
  | Sampler
deriving DecidableEq, Repr

/-- A descriptor heap: the descriptor writes made into it, oldest first, each with the
descriptor index it went to. -/
abbrev DescriptorHeap := List (Int × Descriptor)

/-! ## The texture registry -/

/-- The texture registry `m_TextureIndex`, a `std::map` from texture name to slot index, as
an association list with pairwise distinct keys.  The backend only uses `find`, `size`,
`operator[]` and `clear`, none of which observes the key order. -/
abbrev TextureIndex := List (String × Int)

/-- The call `m_TextureIndex.find(name)`; `none` stands for `end()`. -/
def TextureIndex.find (m : TextureIndex) (name : String) : Option Int :=
  match m with
  | [] => none
  | (k, v) :: rest => if k = name then some v else TextureIndex.find rest name

/-- The call `m_TextureIndex.size()`. -/
def TextureIndex.size (m : TextureIndex) : Nat := m.length

/-- The assignment `m_TextureIndex[name] = v`: overwrite the entry of `name`, or add one. -/
def TextureIndex.assign (m : TextureIndex) (name : String) (v : Int) : TextureIndex :=
  match m with
  | [] => [(name, v)]
  | (k, w) :: rest =>
    if k = name then (k, v) :: rest else (k, w) :: TextureIndex.assign rest name v

/-- The read `m_TextureIndex[name]`: the slot of `name`; a missing key is first inserted
with the value-initialised slot `0`. -/
def TextureIndex.subscript (m : TextureIndex) (name : String) : Int × TextureIndex :=
  match TextureIndex.find m name with
  | some v => (v, m)
  | none => (0, m ++ [(name, 0)])

/-! ## Draw batches -/

/-- A draw batch. -/
structure DrawBatchContext where
  IndexCount : Nat
  StartIndexLocation : Nat
  BaseVertexLocation : Nat
  material : Option SceneObjectMaterial
  node : SceneGeometryNode
deriving DecidableEq, Repr

/-! ## The manager -/

/-- What a `memcpy` into the mapped constant buffer carries: the frame context (a token), or
a `PerBatchConstants` record that is zero except for its `objectMatrix`. -/
inductive ConstantData
  | frame (context : Nat)
  | batch (objectMatrix : Matrix4X4f)
deriving DecidableEq, Repr

/-- A `memcpy` into the mapped constant buffer, at a byte offset from `m_pCbvDataBegin`. -/
structure ConstantWrite where
  offset : Nat
  content : ConstantData
deriving DecidableEq, Repr

/-- The COM pointer members of the manager that are not modelled as resource handles;
which of them are non-null is recorded in `m_nonNull`. -/
inductive ComMember
  | m_pDev
  | m_pSwapChain
  | m_pCommandQueue
  | m_pCommandAllocator
  | m_pCommandList
  | m_pRootSignature
  | m_pRtvHeap
  | m_pDsvHeap
  | m_pCbvHeap
  | m_pSamplerHeap
  | m_pFence
deriving DecidableEq, Repr

/-- An object on which `Release` has been called: the object of a pointer member, or a
resource given by its handle. -/
inductive ReleasedObject
  | member (c : ComMember)
  | resource (r : Resource)
deriving DecidableEq, Repr

/-- A call made on the command queue. -/
inductive QueueCall
  | ExecuteCommandLists (cmds : List Cmd)
  | Signal (value : Nat)
deriving DecidableEq, Repr

/-- The state of `D3d12GraphicsManager`, together with the state of the API objects it
owns (device, swap chain, descriptor heaps, command list, command queue). -/
structure D3d12GraphicsManager where
  m_pDev : Device
  /-- The calls recorded on `m_pCommandList` since its last reset. -/
  m_pCommandList : List Cmd
  /-- The calls made on `m_pCommandQueue`, oldest first. -/
  m_pCommandQueue : List QueueCall
  /-- What `m_pSwapChain->GetCurrentBackBufferIndex()` reports. -/
  m_pSwapChain : Nat
  m_pRtvHeap : DescriptorHeap
  m_pDsvHeap : DescriptorHeap
  m_pCbvHeap : DescriptorHeap
  m_pSamplerHeap : DescriptorHeap
  m_pRenderTargets : List Resource
  m_pMsaaRenderTarget : Resource
  m_pDepthStencilBuffer : Resource
  m_nFrameIndex : Nat
  m_nFenceValue : Nat
  /-- The fence values on which the calling thread has blocked, oldest first. -/
  m_hFenceEvent : List Nat
  m_TextureIndex : TextureIndex
  m_Buffers : List Resource
  m_Textures : List Resource
  m_VertexBufferView : List VertexBufferView
  m_IndexBufferView : List IndexBufferView
  m_DrawBatchContext : List DrawBatchContext
  /-- The writes made through the mapped pointer `m_pCbvDataBegin`, oldest first. -/
  m_pCbvDataBegin : List ConstantWrite
  m_DrawFrameContext : Nat
  m_DebugVertexBufferView : List VertexBufferView
  m_DebugIndexBufferView : List IndexBufferView
  m_DebugVertice : List DebugVertex
  m_DebugIndices : List Nat
  m_DebugBuffers : List Resource
  /-- The names of the pipeline states that have been created. -/
  m_pPipelineState : List String
  /-- The pointer members of `ComMember` that are non-null. -/
  m_nonNull : List ComMember
  /-- The `Release` calls made through `SafeRelease`, oldest first. -/
  m_Released : List ReleasedObject
deriving DecidableEq, Repr

/-- A manager with nothing created: no resources, empty heaps, lists and registry. -/
def D3d12GraphicsManager.empty : D3d12GraphicsManager where
  m_pDev := { resources := [], descriptorHeaps := [] }
  m_pCommandList := []
  m_pCommandQueue := []
  m_pSwapChain := 0
  m_pRtvHeap := []
  m_pDsvHeap := []
  m_pCbvHeap := []
  m_pSamplerHeap := []
  m_pRenderTargets := []
  m_pMsaaRenderTarget := 0
  m_pDepthStencilBuffer := 0
  m_nFrameIndex := 0
  m_nFenceValue := 0
  m_hFenceEvent := []
  m_TextureIndex := []
  m_Buffers := []
  m_Textures := []
  m_VertexBufferView := []
  m_IndexBufferView := []
  m_DrawBatchContext := []
  m_pCbvDataBegin := []
  m_DrawFrameContext := 0
  m_DebugVertexBufferView := []
  m_DebugIndexBufferView := []
  m_DebugVertice := []
  m_DebugIndices := []
  m_DebugBuffers := []
  m_pPipelineState := []
  m_nonNull := []
  m_Released := []

/-! ## Resource upload -/

/-- The answers of the API to one buffer creation: the status of the creation of the
GPU-local resource and of the creation of the upload resource. -/
structure BufferAnswers where
  gpu : HRESULT
  upload : HRESULT
deriving DecidableEq, Repr

/-- `D3d12GraphicsManager::CreateVertexBuffer`. -/
def CreateVertexBuffer (k : Constants) (m : D3d12GraphicsManager)
    (vertex_array : List VertexBasicAttribs) (a : BufferAnswers) :
    HRESULT × D3d12GraphicsManager :=
  let resourceDesc : CommittedResource :=
    { heap := HeapType.DEFAULT, Width := vertex_array.length * k.sizeofVertexBasicAttribs,
      Height := 1, SampleCount := 1, InitialState := ResourceState.COPY_DEST }
  let (hr, dev, pVertexBuffer) := m.m_pDev.CreateCommittedResource a.gpu resourceDesc
  if FAILED hr then (hr, { m with m_pDev := dev })
  else
    let (hr, dev, pVertexBufferUploadHeap) :=
      dev.CreateCommittedResource a.upload
        { resourceDesc with heap := HeapType.UPLOAD, InitialState := ResourceState.GENERIC_READ }
    if FAILED hr then (hr, { m with m_pDev := dev })
    else
      let vertexBufferView : VertexBufferView :=
        { BufferLocation := pVertexBuffer, StrideInBytes := k.sizeofVertexBasicAttribs,
          SizeInBytes := vertex_array.length * k.sizeofVertexBasicAttribs }
      (hr, { m with
        m_pDev := dev
        m_pCommandList := m.m_pCommandList ++
          [Cmd.UpdateSubresources pVertexBuffer pVertexBufferUploadHeap
             (Payload.vertices vertex_array) 0 0,
           Cmd.ResourceBarrier pVertexBuffer ResourceState.COPY_DEST
             ResourceState.VERTEX_AND_CONSTANT_BUFFER]
        m_VertexBufferView := m.m_VertexBufferView ++ [vertexBufferView]
        m_Buffers := m.m_Buffers ++ [pVertexBuffer, pVertexBufferUploadHeap] })

/-- `D3d12GraphicsManager::CreateIndexBuffer`. -/
def CreateIndexBuffer (m : D3d12GraphicsManager) (index_array : List Nat) (a : BufferAnswers) :
    HRESULT × D3d12GraphicsManager :=
  let resourceDesc : CommittedResource :=
    { heap := HeapType.DEFAULT, Width := index_array.length * 4,
      Height := 1, SampleCount := 1, InitialState := ResourceState.COPY_DEST }
  let (hr, dev, pIndexBuffer) := m.m_pDev.CreateCommittedResource a.gpu resourceDesc
  if FAILED hr then (hr, { m with m_pDev := dev })
  else
    let (hr, dev, pIndexBufferUploadHeap) :=
      dev.CreateCommittedResource a.upload
        { resourceDesc with heap := HeapType.UPLOAD, InitialState := ResourceState.GENERIC_READ }
    if FAILED hr then (hr, { m with m_pDev := dev })
    else
      let indexBufferView : IndexBufferView :=
        { BufferLocation := pIndexBuffer, SizeInBytes := index_array.length * 4 }
      (hr, { m with
        m_pDev := dev
        m_pCommandList := m.m_pCommandList ++
          [Cmd.UpdateSubresources pIndexBuffer pIndexBufferUploadHeap
             (Payload.indices index_array) 0 0,
           Cmd.ResourceBarrier pIndexBuffer ResourceState.COPY_DEST ResourceState.INDEX_BUFFER]
        m_IndexBufferView := m.m_IndexBufferView ++ [indexBufferView]
        m_Buffers := m.m_Buffers ++ [pIndexBuffer, pIndexBufferUploadHeap] })

/-- One step of the inner widening loop: `*(uint32_t*)buf = *(uint32_t*)src; buf[3] = 0;`
with `buf` at offset `o` of the new buffer and `src` at offset `s` of the source.  Four
source bytes are read; a read past the end of the source list yields `0`, a write past the
end of the new buffer is dropped. -/
def widenPixel (src : List Byte) (buf : List Byte) (o s : Nat) : List Byte :=
  let buf := buf.set o (src.getD s 0)
  let buf := buf.set (o + 1) (src.getD (s + 1) 0)
  let buf := buf.set (o + 2) (src.getD (s + 2) 0)
  let buf := buf.set (o + 3) (src.getD (s + 3) 0)
  buf.set (o + 3) 0

/-- The inner loop of the widening, over the columns of row `row`: `buf` starts at
`row * new_pitch`, `src` at `row * pitch`, and they advance by 4 and by 3 per pixel. -/
def widenRow (src : List Byte) (pitch new_pitch Width : Nat) (data : List Byte) (row : Nat) :
    List Byte :=
  (List.range Width).foldl
    (fun buf col => widenPixel src buf (row * new_pitch + 4 * col) (row * pitch + 3 * col)) data

/-- The 24-bit branch of `CreateTextureBuffer`: allocate `new_pitch * Height` bytes (their
initial content is `fresh`), widen every pixel, and store the new buffer, size and pitch
in the image. -/
def widenImage (image : Image) (fresh : Nat → Byte) : Image :=
  let new_pitch := image.pitch / 3 * 4
  let data_size := new_pitch * image.Height
  let data := (List.range data_size).map fresh
  let data := (List.range image.Height).foldl
    (widenRow image.data image.pitch new_pitch image.Width) data
  { image with data := data, data_size := data_size, pitch := new_pitch }

/-- The answers of the API to one texture creation: the status of the two resource
creations, the size `GetRequiredIntermediateSize` reports, and the initial content of the
block the memory manager allocates for a widened image. -/
structure TextureAnswers where
  gpu : HRESULT
  upload : HRESULT
  uploadBufferSize : Nat
  fresh : Nat → Byte

/-- `D3d12GraphicsManager::CreateTextureBuffer`.  The texture is passed by reference and
its image is modified in place, so the texture is returned with the status and the state. -/
def CreateTextureBuffer (k : Constants) (m : D3d12GraphicsManager)
    (texture : SceneObjectTexture) (a : TextureAnswers) :
    HRESULT × D3d12GraphicsManager × SceneObjectTexture :=
  let hr := S_OK
  match m.m_TextureIndex.find texture.name with
  | some _ => (hr, m, texture)
  | none =>
    let image := texture.image
    let (hr, dev, pTextureBuffer) := m.m_pDev.CreateCommittedResource a.gpu
      { heap := HeapType.DEFAULT, Width := image.Width, Height := image.Height,
        SampleCount := 1, InitialState := ResourceState.COPY_DEST }
    if FAILED hr then (hr, { m with m_pDev := dev }, texture)
    else
      let (hr, dev, pTextureUploadHeap) := dev.CreateCommittedResource a.upload
        { heap := HeapType.UPLOAD, Width := a.uploadBufferSize, Height := 1,
          SampleCount := 1, InitialState := ResourceState.GENERIC_READ }
      if FAILED hr then (hr, { m with m_pDev := dev }, texture)
      else
        let image := if image.bitcount = 24 then widenImage image a.fresh else image
        let texture_id : Int := (m.m_TextureIndex.size : Int)
        (hr, { m with
          m_pDev := dev
          m_pCommandList := m.m_pCommandList ++
            [Cmd.UpdateSubresources pTextureBuffer pTextureUploadHeap
               (Payload.bytes image.data) image.pitch (image.pitch * image.Height),
             Cmd.ResourceBarrier pTextureBuffer ResourceState.COPY_DEST
               ResourceState.GENERIC_READ]
          m_pCbvHeap := m.m_pCbvHeap ++
            [((k.kTextureDescStartIndex : Int) + texture_id, Descriptor.SRV pTextureBuffer)]
          m_TextureIndex := m.m_TextureIndex.assign texture.name texture_id
          m_Buffers := m.m_Buffers ++ [pTextureUploadHeap]
          m_Textures := m.m_Textures ++ [pTextureBuffer] },
         { texture with image := image })

/-- A sequence of `CreateTextureBuffer` calls, each with the answers of the API to it; the
textures are returned as the calls leave them. -/
def createTextureBuffers (k : Constants) (m : D3d12GraphicsManager) :
    List (SceneObjectTexture × TextureAnswers) → D3d12GraphicsManager
  | [] => m
  | (texture, a) :: rest => createTextureBuffers k (CreateTextureBuffer k m texture a).2.1 rest

/-! ## Draw batches of a scene -/

/-- Reduction of a natural number to a `uint32_t`. -/
def UINT32 (n : Nat) : Nat := n % 2 ^ 32

/-- The next answers of a script of API answers; an exhausted script answers `S_OK`. -/
def nextAnswers (script : List BufferAnswers) : BufferAnswers × List BufferAnswers :=
  (script.headD { gpu := S_OK, upload := S_OK }, script.tail)

/-- The loop of `InitializeBuffers` over the primitives of one mesh: create the vertex and
the index buffer of each primitive (their status is ignored) and add its counts to
`dbc.IndexCount` and `vertexCount`, both `uint32_t`. -/
def createPrimitiveBuffers (k : Constants) :
    D3d12GraphicsManager → Nat → Nat → List BufferAnswers → List SceneObjectPrimitive →
    D3d12GraphicsManager × Nat × Nat × List BufferAnswers
  | m, IndexCount, vertexCount, script, [] => (m, IndexCount, vertexCount, script)
  | m, IndexCount, vertexCount, script, pPrimitive :: rest =>
    let (a, script) := nextAnswers script
    let m := (CreateVertexBuffer k m pPrimitive.vertexData a).2
    let (a, script) := nextAnswers script
    let m := (CreateIndexBuffer m pPrimitive.indexData a).2
    createPrimitiveBuffers k m (UINT32 (IndexCount + UINT32 pPrimitive.indexCount))
      (UINT32 (vertexCount + UINT32 pPrimitive.vertexCount)) script rest

/-- The draw-batch loop of `InitializeBuffers` over `scene.GeometryNodes`, started with the
running `startIndex` and `startVertex` (both `uint32_t`): an expired node is skipped, a
live node gets one batch. -/
def buildDrawBatches (k : Constants) (scene : Scene) :
    D3d12GraphicsManager → Nat → Nat → List BufferAnswers →
    List (String × Option SceneGeometryNode) → D3d12GraphicsManager × List BufferAnswers
  | m, _, _, script, [] => (m, script)
  | m, startIndex, startVertex, script, (_, none) :: rest =>
    buildDrawBatches k scene m startIndex startVertex script rest
  | m, startIndex, startVertex, script, (_, some pGeometryNode) :: rest =>
    let pMesh := pGeometryNode.pMesh
    let (m, IndexCount, vertexCount, script) :=
      createPrimitiveBuffers k m 0 0 script pMesh.primitives
    let material_index := pMesh.material
    let material : Option SceneObjectMaterial :=
      if material_index < scene.LinearMaterials.length then
        (scene.LinearMaterials.getD material_index none)
      else none
    let dbc : DrawBatchContext :=
      { IndexCount := IndexCount
        StartIndexLocation := startIndex
        BaseVertexLocation := startVertex
        material := material
        node := pGeometryNode }
    buildDrawBatches k scene { m with m_DrawBatchContext := m.m_DrawBatchContext ++ [dbc] }
      (UINT32 (startIndex + IndexCount)) (UINT32 (startVertex + vertexCount)) script rest

/-- The draw-batch part of `InitializeBuffers`: `startIndex = 0`, `startVertex = 0`, then
the loop over the geometry nodes of the scene. -/
def initializeDrawBatches (k : Constants) (scene : Scene) (m : D3d12GraphicsManager)
    (script : List BufferAnswers) : D3d12GraphicsManager :=
  (buildDrawBatches k scene m 0 0 script scene.GeometryNodes).1

/-! ## The constant buffer -/

/-- The inner loop of `CreateConstantBuffer` over the batches `j` of frame `i`: two
descriptors per batch are written at the running handle `cbvHandle`, which advances. -/
def constantBufferBatchLoop (k : Constants) (pConstantUploadBuffer : Resource) (i : Nat) :
    DescriptorHeap × Int → List Nat → DescriptorHeap × Int
  | acc, [] => acc
  | (heap, cbvHandle), j :: rest =>
    let BufferLocation := i * k.kSizeConstantBufferPerFrame
    let heap := heap ++ [(cbvHandle,
      Descriptor.CBV pConstantUploadBuffer BufferLocation k.kSizePerFrameConstantBuffer)]
    let cbvHandle := cbvHandle + 1
    let BufferLocation :=
      BufferLocation + (k.kSizePerFrameConstantBuffer + j * k.kSizePerBatchConstantBuffer)
    let heap := heap ++ [(cbvHandle,
      Descriptor.CBV pConstantUploadBuffer BufferLocation k.kSizePerBatchConstantBuffer)]
    let cbvHandle := cbvHandle + 1
    constantBufferBatchLoop k pConstantUploadBuffer i (heap, cbvHandle) rest

/-- The outer loop of `CreateConstantBuffer` over the frames `i`. -/
def constantBufferFrameLoop (k : Constants) (pConstantUploadBuffer : Resource) :
    DescriptorHeap × Int → List Nat → DescriptorHeap × Int
  | acc, [] => acc
  | acc, i :: rest =>
    constantBufferFrameLoop k pConstantUploadBuffer
      (constantBufferBatchLoop k pConstantUploadBuffer i acc
        (List.range k.kMaxSceneObjectCount)) rest

/-- `D3d12GraphicsManager::CreateConstantBuffer`; `create` and `map` are the answers of
`CreateCommittedResource` and of `Map`. -/
def CreateConstantBuffer (k : Constants) (m : D3d12GraphicsManager) (create map : HRESULT) :
    HRESULT × D3d12GraphicsManager :=
  let (hr, dev, pConstantUploadBuffer) := m.m_pDev.CreateCommittedResource create
    { heap := HeapType.UPLOAD, Width := k.kSizeConstantBufferPerFrame * k.kFrameCount,
      Height := 1, SampleCount := 1, InitialState := ResourceState.GENERIC_READ }
  if FAILED hr then (hr, { m with m_pDev := dev })
  else
    let (heap, _) := constantBufferFrameLoop k pConstantUploadBuffer (m.m_pCbvHeap, 0)
      (List.range k.kFrameCount)
    let hr := map
    (hr, { m with
      m_pDev := dev
      m_pCbvHeap := heap
      m_pCbvDataBegin := if FAILED hr then m.m_pCbvDataBegin else []
      m_Buffers := m.m_Buffers ++ [pConstantUploadBuffer] })

/-- The byte offset from `m_pCbvDataBegin` at which `SetPerFrameShaderParameters` writes
when the frame index is `frameIndex`. -/
def perFrameOffset (k : Constants) (frameIndex : Nat) : Nat :=
  frameIndex * k.kSizeConstantBufferPerFrame

/-- The byte offset from `m_pCbvDataBegin` at which `SetPerBatchShaderParameters(index)`
writes when the frame index is `frameIndex`. -/
def perBatchOffset (k : Constants) (frameIndex index : Nat) : Nat :=
  frameIndex * k.kSizeConstantBufferPerFrame + k.kSizePerFrameConstantBuffer
    + index * k.kSizePerBatchConstantBuffer

/-- `D3d12GraphicsManager::SetPerFrameShaderParameters`. -/
def SetPerFrameShaderParameters (k : Constants) (m : D3d12GraphicsManager) :
    Bool × D3d12GraphicsManager :=
  (true, { m with m_pCbvDataBegin := m.m_pCbvDataBegin ++
    [{ offset := perFrameOffset k m.m_nFrameIndex,
       content := ConstantData.frame m.m_DrawFrameContext }] })

/-- Modelled from the spec: `Transpose` of the math library (outside the sources) on a 4x4
matrix: entry `(r, c)` of the result is entry `(c, r)` of the argument. -/
def Transpose (t : Matrix4X4f) : Matrix4X4f :=
  (List.range 4).map fun r => (List.range 4).map fun c => (t.getD c []).getD r 0

/-- `D3d12GraphicsManager::SetPerBatchShaderParameters`; an `index` outside the batch list
(undefined in the source) writes nothing. -/
def SetPerBatchShaderParameters (k : Constants) (m : D3d12GraphicsManager) (index : Nat) :
    Bool × D3d12GraphicsManager :=
  match m.m_DrawBatchContext[index]? with
  | none => (true, m)
  | some dbc =>
    let trans := Transpose dbc.node.matrix
    (true, { m with m_pCbvDataBegin := m.m_pCbvDataBegin ++
      [{ offset := perBatchOffset k m.m_nFrameIndex index,
         content := ConstantData.batch trans }] })

/-- The loop of `UpdateConstants` over the batches still to do, `i` being the running
index: `SetPerBatchShaderParameters(i++)`. -/
def updateBatchConstants (k : Constants) :
    D3d12GraphicsManager → Nat → List DrawBatchContext → D3d12GraphicsManager
  | m, _, [] => m
  | m, i, _ :: rest => updateBatchConstants k (SetPerBatchShaderParameters k m i).2 (i + 1) rest

/-- `D3d12GraphicsManager::UpdateConstants`.  `GraphicsManager::UpdateConstants` of the base
class, which computes the frame context, is declared outside the sources and is the
parameter `baseUpdateConstants`. -/
def UpdateConstants (k : Constants)
    (baseUpdateConstants : D3d12GraphicsManager → D3d12GraphicsManager)
    (m : D3d12GraphicsManager) : D3d12GraphicsManager :=
  let m := baseUpdateConstants m
  let m := (SetPerFrameShaderParameters k m).2
  updateBatchConstants k m 0 m.m_DrawBatchContext

/-! ## Frame synchronisation -/

/-- The answers of the API to one `WaitForPreviousFrame`: the status of the queue `Signal`,
the value `GetCompletedValue` reports, and the status of `SetEventOnCompletion`. -/
structure FenceAnswers where
  signal : HRESULT
  completed : Nat
  setEvent : HRESULT
deriving DecidableEq, Repr

/-- `D3d12GraphicsManager::WaitForPreviousFrame`.  A successful `Signal` is recorded on the
queue; blocking in `WaitForSingleObject` is recorded in `m_hFenceEvent`. -/
def WaitForPreviousFrame (m : D3d12GraphicsManager) (a : FenceAnswers) :
    HRESULT × D3d12GraphicsManager :=
  let fence := m.m_nFenceValue
  let hr := a.signal
  if FAILED hr then (hr, m)
  else
    let m := { m with
      m_pCommandQueue := m.m_pCommandQueue ++ [QueueCall.Signal fence]
      m_nFenceValue := m.m_nFenceValue + 1 }
    if a.completed < fence then
      let hr := a.setEvent
      if FAILED hr then (hr, m)
      else
        let m := { m with m_hFenceEvent := m.m_hFenceEvent ++ [fence] }
        (hr, { m with m_nFrameIndex := m.m_pSwapChain })
    else
      (hr, { m with m_nFrameIndex := m.m_pSwapChain })

/-- A sequence of `WaitForPreviousFrame` calls, each with the answers of the API to it. -/
def waitForPreviousFrames (m : D3d12GraphicsManager) : List FenceAnswers → D3d12GraphicsManager
  | [] => m
  | a :: rest => waitForPreviousFrames (WaitForPreviousFrame m a).2 rest

/-- The fence values of the `Signal` calls in a trace of queue calls, oldest first. -/
def signalledValues : List QueueCall → List Nat
  | [] => []
  | QueueCall.Signal v :: rest => v :: signalledValues rest
  | QueueCall.ExecuteCommandLists _ :: rest => signalledValues rest

/-! ## Command recording -/

/-- The answers of the API to one `PopulateCommandList`: the status of the allocator
`Reset`, of the command-list `Reset` and of `Close`. -/
structure RecordAnswers where
  allocatorReset : HRESULT
  listReset : HRESULT
  close : HRESULT
deriving DecidableEq, Repr

/-- The clear colour of the frame, in units of `10^-9`. -/
def clearColor : List Nat := [690196097, 768627524, 870588303, 1000000000]

/-- One of the five texture blocks of `PopulateCommandList`: when the weak reference
resolves, read the slot of the texture name with `m_TextureIndex[...]` and bind the
descriptor `kTextureDescStartIndex + texture_index` to root slot `slot`. -/
def bindTexture (k : Constants) (slot : Nat) (texture : Option SceneObjectTexture)
    (s : List Cmd × TextureIndex) : List Cmd × TextureIndex :=
  match texture with
  | none => s
  | some texture =>
    let (texture_index, registry) := TextureIndex.subscript s.2 texture.name
    (s.1 ++ [Cmd.SetGraphicsRootDescriptorTable slot HeapKind.CbvSrvUav
      ((k.kTextureDescStartIndex : Int) + texture_index)], registry)

/-- The body of the per-batch loop of `PopulateCommandList` for batch number `i`. -/
def recordBatch (k : Constants) (m : D3d12GraphicsManager) (i : Nat) (dbc : DrawBatchContext)
    (s : List Cmd × TextureIndex) : List Cmd × TextureIndex :=
  let nFrameResourceDescriptorOffset := m.m_nFrameIndex * (2 * k.kMaxSceneObjectCount)
  let s : List Cmd × TextureIndex := (s.1 ++
    [Cmd.SetGraphicsRootDescriptorTable 0 HeapKind.CbvSrvUav
       ((nFrameResourceDescriptorOffset + i * 2 : Nat) : Int),
     Cmd.IASetVertexBuffers m.m_VertexBufferView[i]?,
     Cmd.IASetIndexBuffer m.m_IndexBufferView[i]?], s.2)
  let s :=
    match dbc.material with
    | none => s
    | some material =>
      let s := bindTexture k 2 material.ColorMap s
      let s := bindTexture k 3 material.PhysicsDescriptorMap s
      let s := bindTexture k 4 material.NormalMap s
      let s := bindTexture k 5 material.AOMap s
      bindTexture k 6 material.EmissiveMap s
  (s.1 ++ [Cmd.DrawIndexedInstanced dbc.IndexCount 1 0 0 0], s.2)

/-- The per-batch loop of `PopulateCommandList`, from batch number `i` on. -/
def recordBatches (k : Constants) (m : D3d12GraphicsManager) :
    Nat → List DrawBatchContext → List Cmd × TextureIndex → List Cmd × TextureIndex
  | _, [], s => s
  | i, dbc :: rest, s => recordBatches k m (i + 1) rest (recordBatch k m i dbc s)

/-- The body of the debug loop of `PopulateCommandList` (debug builds) for `i`. -/
def recordDebugDraw (k : Constants) (m : D3d12GraphicsManager) (cmds : List Cmd) (i : Nat) :
    List Cmd :=
  let nFrameResourceDescriptorOffset := m.m_nFrameIndex * (2 * k.kMaxSceneObjectCount)
  cmds ++
    [Cmd.SetGraphicsRootDescriptorTable 0 HeapKind.CbvSrvUav
       ((nFrameResourceDescriptorOffset + i * 2 : Nat) : Int),
     Cmd.IASetVertexBuffers m.m_DebugVertexBufferView[0]?,
     Cmd.IASetIndexBuffer m.m_DebugIndexBufferView[0]?,
     Cmd.DrawIndexedInstanced 3 1 (i * 3) 0 0]

/-- The debug pass of `PopulateCommandList`, compiled in debug builds only. -/
def recordDebugPass (k : Constants) (m : D3d12GraphicsManager) (cmds : List Cmd) : List Cmd :=
  (List.range 3).foldl (recordDebugDraw k m)
    (cmds ++ [Cmd.SetPipelineState "debug", Cmd.SetGraphicsRootSignature])

/-- The back buffer `m_pRenderTargets[m_nFrameIndex]` (the null handle outside the array). -/
def currentBackBuffer (m : D3d12GraphicsManager) : Resource :=
  m.m_pRenderTargets.getD m.m_nFrameIndex 0

/-- The MSAA resolve block at the end of `PopulateCommandList`. -/
def recordResolve (m : D3d12GraphicsManager) (cmds : List Cmd) : List Cmd :=
  cmds ++
    [Cmd.ResourceBarrier m.m_pMsaaRenderTarget ResourceState.RENDER_TARGET
       ResourceState.RESOLVE_SOURCE,
     Cmd.ResourceBarrier (currentBackBuffer m) ResourceState.PRESENT
       ResourceState.RESOLVE_DEST,
     Cmd.ResolveSubresource (currentBackBuffer m) m.m_pMsaaRenderTarget,
     Cmd.ResourceBarrier m.m_pMsaaRenderTarget ResourceState.RESOLVE_SOURCE
       ResourceState.PIXEL_SHADER_RESOURCE,
     Cmd.ResourceBarrier (currentBackBuffer m) ResourceState.RESOLVE_DEST
       ResourceState.PRESENT]

/-- The calls `PopulateCommandList` records between the command-list `Reset` and the
per-batch loop. -/
def recordFrameSetup (k : Constants) (m : D3d12GraphicsManager) : List Cmd :=
  [Cmd.Reset "opaque",
   Cmd.ResourceBarrier m.m_pMsaaRenderTarget ResourceState.PIXEL_SHADER_RESOURCE
     ResourceState.RENDER_TARGET,
   Cmd.OMSetRenderTargets k.kFrameCount,
   Cmd.ClearRenderTargetView k.kFrameCount clearColor,
   Cmd.ClearDepthStencilView 1,
   Cmd.SetGraphicsRootSignature,
   Cmd.SetDescriptorHeaps,
   Cmd.SetGraphicsRootDescriptorTable 1 HeapKind.Sampler 0,
   Cmd.RSSetViewports,
   Cmd.RSSetScissorRects,
   Cmd.IASetPrimitiveTopology]

/-- `D3d12GraphicsManager::PopulateCommandList`; `debug` tells whether `_DEBUG` is defined. -/
def PopulateCommandList (k : Constants) (debug : Bool) (m : D3d12GraphicsManager)
    (a : RecordAnswers) : HRESULT × D3d12GraphicsManager :=
  let hr := a.allocatorReset
  if FAILED hr then (hr, m)
  else
    let hr := a.listReset
    if FAILED hr then (hr, m)
    else
      let cmds := recordFrameSetup k m
      let (cmds, registry) := recordBatches k m 0 m.m_DrawBatchContext (cmds, m.m_TextureIndex)
      let cmds := if debug then recordDebugPass k m cmds else cmds
      let cmds := recordResolve m cmds
      let hr := a.close
      (hr, { m with m_pCommandList := cmds ++ [Cmd.Close], m_TextureIndex := registry })

/-! ## Tracking resource states through a command list -/

/-- The tracked state of every resource. -/
abbrev StateMap := Resource → ResourceState

/-- The effect of one recorded call on the tracked states, `none` when the call is
inconsistent with them: a transition barrier must start from the tracked state of its
resource, a resolve needs its source in the resolve-source state and its destination in
the resolve-destination state. -/
def trackCmd (st : StateMap) : Cmd → Option StateMap
  | Cmd.ResourceBarrier r before after =>
    if st r = before then some (fun x => if x = r then after else st x) else none
  | Cmd.ResolveSubresource dst src =>
    if st src = ResourceState.RESOLVE_SOURCE ∧ st dst = ResourceState.RESOLVE_DEST then some st
    else none
  | _ => some st

/-- The tracked states after a command list, `none` as soon as one call is inconsistent. -/
def trackCmds (st : StateMap) : List Cmd → Option StateMap
  | [] => some st
  | c :: rest =>
    match trackCmd st c with
    | none => none
    | some st => trackCmds st rest

/-- Whether a recorded call is an indexed draw. -/
def Cmd.isDraw : Cmd → Bool
  | Cmd.DrawIndexedInstanced _ _ _ _ _ => true
  | _ => false

/-- Whether a recorded call is a resolve. -/
def Cmd.isResolve : Cmd → Bool
  | Cmd.ResolveSubresource _ _ => true
  | _ => false

/-- Whether a recorded call is a transition barrier. -/
def Cmd.isBarrier : Cmd → Bool
  | Cmd.ResourceBarrier _ _ _ => true
  | _ => false

/-! ## Adapter selection -/

/-- An adapter as `GetHardwareAdapter` sees it: whether its description carries
`DXGI_ADAPTER_FLAG_SOFTWARE`, and the status of the `D3D12CreateDevice` check at feature
level 11_0; `id` tells adapters apart. -/
structure Adapter where
  id : Nat
  software : Bool
  createDevice : HRESULT
deriving DecidableEq, Repr

/-- The loop of `GetHardwareAdapter` over the adapters that `EnumAdapters1` still has to
enumerate, with the current value of `pAdapter`.  When the enumeration is exhausted
`EnumAdapters1` fails with `DXGI_ERROR_NOT_FOUND`; a COM call that fails sets its
out-pointer to null, so `pAdapter` is null when the loop ends that way. -/
def hardwareAdapterLoop : List Adapter → Option Adapter → Option Adapter
  | [], _ => none
  | adapter :: rest, _ =>
    if adapter.software then hardwareAdapterLoop rest (some adapter)
    else if SUCCEEDED adapter.createDevice then some adapter
    else hardwareAdapterLoop rest (some adapter)

/-- `GetHardwareAdapter` over the enumeration `adapters`: the value stored in `*ppAdapter`
(`none` for `nullptr`). -/
def GetHardwareAdapter (adapters : List Adapter) : Option Adapter :=
  hardwareAdapterLoop adapters none

/-! ## Descriptor heaps and render targets -/

/-- The answers of the API to `CreateDescriptorHeaps`: the status of the creation of the
four heaps and of the command allocator. -/
structure HeapAnswers where
  rtv : HRESULT
  dsv : HRESULT
  cbvSrvUav : HRESULT
  sampler : HRESULT
  allocator : HRESULT
deriving DecidableEq, Repr

/-- `D3d12GraphicsManager::CreateDescriptorHeaps`. -/
def CreateDescriptorHeaps (k : Constants) (m : D3d12GraphicsManager) (a : HeapAnswers) :
    HRESULT × D3d12GraphicsManager :=
  let rtvHeapDesc : DescriptorHeapDesc :=
    { NumDescriptors := k.kFrameCount + 1, kind := DescriptorHeapType.RTV,
      shaderVisible := false }
  let (hr, dev) := m.m_pDev.CreateDescriptorHeap a.rtv rtvHeapDesc
  if FAILED hr then (hr, m)
  else
    let m := { m with m_pDev := dev, m_pRtvHeap := [],
                      m_nonNull := m.m_nonNull.insert ComMember.m_pRtvHeap }
    let dsvHeapDesc : DescriptorHeapDesc :=
      { NumDescriptors := 1, kind := DescriptorHeapType.DSV, shaderVisible := false }
    let (hr, dev) := m.m_pDev.CreateDescriptorHeap a.dsv dsvHeapDesc
    if FAILED hr then (hr, m)
    else
      let m := { m with m_pDev := dev, m_pDsvHeap := [],
                        m_nonNull := m.m_nonNull.insert ComMember.m_pDsvHeap }
      let cbvSrvUavHeapDesc : DescriptorHeapDesc :=
        { NumDescriptors := k.kFrameCount * (2 * k.kMaxSceneObjectCount) + k.kMaxTextureCount,
          kind := DescriptorHeapType.CBV_SRV_UAV, shaderVisible := true }
      let (hr, dev) := m.m_pDev.CreateDescriptorHeap a.cbvSrvUav cbvSrvUavHeapDesc
      if FAILED hr then (hr, m)
      else
        let m := { m with m_pDev := dev, m_pCbvHeap := [],
                          m_nonNull := m.m_nonNull.insert ComMember.m_pCbvHeap }
        let samplerHeapDesc : DescriptorHeapDesc :=
          { NumDescriptors := k.kMaxTextureCount, kind := DescriptorHeapType.SAMPLER,
            shaderVisible := true }
        let (hr, dev) := m.m_pDev.CreateDescriptorHeap a.sampler samplerHeapDesc
        if FAILED hr then (hr, m)
        else
          let m := { m with m_pDev := dev, m_pSamplerHeap := [],
                            m_nonNull := m.m_nonNull.insert ComMember.m_pSamplerHeap }
          let hr := a.allocator
          if FAILED hr then (hr, m)
          else (hr, { m with m_nonNull := m.m_nonNull.insert ComMember.m_pCommandAllocator })

/-- Assignment to element `i` of a C array of handles kept as a list: elements not yet in
the list are null. -/
def arraySet (array : List Resource) (i : Nat) (value : Resource) : List Resource :=
  (array ++ List.replicate (i + 1 - array.length) 0).set i value

/-- The answers of the API and of the application configuration to `CreateRenderTarget`:
the status of `GetBuffer(i)` and the buffer it hands out, the screen size, and the status
of the creation of the multisampled render target. -/
structure RenderTargetAnswers where
  getBuffer : Nat → HRESULT
  backBuffer : Nat → Resource
  screenWidth : Nat
  screenHeight : Nat
  msaa : HRESULT

/-- The loop of `CreateRenderTarget` over the back buffers `i` still to do, with the
running descriptor handle `rtvHandle` (as an index into the RTV heap) and the status
`hr`: a failed `GetBuffer` breaks out of the loop. -/
def renderTargetLoop (a : RenderTargetAnswers) :
    D3d12GraphicsManager → Int → HRESULT → List Nat → D3d12GraphicsManager × Int × HRESULT
  | m, rtvHandle, hr, [] => (m, rtvHandle, hr)
  | m, rtvHandle, _, i :: rest =>
    let hr := a.getBuffer i
    if FAILED hr then (m, rtvHandle, hr)
    else
      let m := { m with
        m_pRenderTargets := arraySet m.m_pRenderTargets i (a.backBuffer i)
        m_pRtvHeap := m.m_pRtvHeap ++ [(rtvHandle, Descriptor.RTV (a.backBuffer i))] }
      renderTargetLoop a m (rtvHandle + 1) hr rest

/-- `D3d12GraphicsManager::CreateRenderTarget`.  The local `hr` is not initialised in the
source; its initial value is never read and is taken as `S_OK`. -/
def CreateRenderTarget (k : Constants) (m : D3d12GraphicsManager) (a : RenderTargetAnswers) :
    HRESULT × D3d12GraphicsManager :=
  let (m, rtvHandle, _) := renderTargetLoop a m 0 S_OK (List.range k.kFrameCount)
  let (hr, dev, pMsaaRenderTarget) := m.m_pDev.CreateCommittedResource a.msaa
    { heap := HeapType.DEFAULT, Width := a.screenWidth, Height := a.screenHeight,
      SampleCount := 4, InitialState := ResourceState.RENDER_TARGET }
  if FAILED hr then (hr, { m with m_pDev := dev })
  else
    let texture_id : Int := (m.m_TextureIndex.size : Int)
    (hr, { m with
      m_pDev := dev
      m_pMsaaRenderTarget := pMsaaRenderTarget
      m_pCbvHeap := m.m_pCbvHeap ++
        [((k.kTextureDescStartIndex : Int) + texture_id, Descriptor.SRV pMsaaRenderTarget)]
      m_TextureIndex := m.m_TextureIndex.assign "MSAA" texture_id
      m_pRtvHeap := m.m_pRtvHeap ++ [(rtvHandle, Descriptor.RTV pMsaaRenderTarget)] })

/-! ## Pipeline states -/

/-- The answers of the API to `InitializeShaders`: the status of the creation of the
"opaque" pipeline state, of the command list and of the "debug" pipeline state. -/
structure ShaderAnswers where
  pipelineState : HRESULT
  commandList : HRESULT
  debugPipelineState : HRESULT
deriving DecidableEq, Repr

/-- The implicit conversion of an `HRESULT` to `bool`: true unless the status is zero. -/
def HRESULT.toBool (hr : HRESULT) : Bool := decide (hr ≠ 0)

/-- `D3d12GraphicsManager::InitializeShaders`, which returns `bool`. -/
def InitializeShaders (m : D3d12GraphicsManager) (a : ShaderAnswers) :
    Bool × D3d12GraphicsManager :=
  let hr := a.pipelineState
  if FAILED hr then (HRESULT.toBool hr, m)
  else
    let m := { m with m_pPipelineState := m.m_pPipelineState ++ ["opaque"] }
    let created : Option D3d12GraphicsManager :=
      if ComMember.m_pCommandList ∈ m.m_nonNull then some m
      else
        let hr := a.commandList
        if FAILED hr then none
        else some { m with m_pCommandList := [],
                           m_nonNull := m.m_nonNull.insert ComMember.m_pCommandList }
    match created with
    | none => (false, m)
    | some m =>
      let hr := a.debugPipelineState
      if FAILED hr then (HRESULT.toBool hr, m)
      else (HRESULT.toBool hr, { m with m_pPipelineState := m.m_pPipelineState ++ ["debug"] })

/-! ## Drawing a frame -/

/-- The answers of the swap chain to `Present`: its status and the back-buffer index the
swap chain reports afterwards. -/
structure PresentAnswers where
  present : HRESULT
  backBufferIndex : Nat
deriving DecidableEq, Repr

/-- `D3d12GraphicsManager::RenderBuffers`: execute the command list and present; the status
of `Present` is dropped. -/
def RenderBuffers (m : D3d12GraphicsManager) (a : PresentAnswers) : D3d12GraphicsManager :=
  { m with
    m_pCommandQueue := m.m_pCommandQueue ++ [QueueCall.ExecuteCommandLists m.m_pCommandList]
    m_pSwapChain := a.backBufferIndex }

/-- `D3d12GraphicsManager::Draw`, which returns nothing.  `GraphicsManager::Draw`, the
submit and present step of the base class, is declared outside the sources and is the
parameter `baseDraw`. -/
def Draw (k : Constants) (debug : Bool) (baseDraw : D3d12GraphicsManager → D3d12GraphicsManager)
    (m : D3d12GraphicsManager) (record : RecordAnswers) (fence : FenceAnswers) :
    D3d12GraphicsManager :=
  let m := (PopulateCommandList k debug m record).2
  let m := baseDraw m
  (WaitForPreviousFrame m fence).2

/-! ## Teardown -/

/-- `SafeRelease` on a pointer member: a non-null pointer is released and set to null. -/
def SafeRelease (member : ComMember) (m : D3d12GraphicsManager) : D3d12GraphicsManager :=
  if member ∈ m.m_nonNull then
    { m with m_nonNull := m.m_nonNull.erase member,
             m_Released := m.m_Released ++ [ReleasedObject.member member] }
  else m

/-- The `Release` that `SafeRelease` makes on a resource handle: none for a null handle. -/
def releaseOf (p : Resource) : List ReleasedObject :=
  if p = 0 then [] else [ReleasedObject.resource p]

/-- `D3d12GraphicsManager::ClearBuffers`: each loop releases through a copy of the pointer,
then the list is cleared. -/
def ClearBuffers (m : D3d12GraphicsManager) : D3d12GraphicsManager :=
  let m := SafeRelease ComMember.m_pFence m
  { m with
    m_Released := m.m_Released ++ (m.m_Buffers.map releaseOf).flatten
      ++ (m.m_Textures.map releaseOf).flatten
    m_Buffers := []
    m_Textures := []
    m_TextureIndex := []
    m_VertexBufferView := []
    m_IndexBufferView := []
    m_DrawBatchContext := [] }

/-- `D3d12GraphicsManager::ClearShaders`: the command list is released; the loop over the
pipeline states releases each through a copy of the pointer, which leaves the map as it
is (the pipeline states are not resources of the embedding and their release is not
recorded). -/
def ClearShaders (m : D3d12GraphicsManager) : D3d12GraphicsManager :=
  SafeRelease ComMember.m_pCommandList m

/-- The loop of `Finalize` over the back buffers: `SafeRelease(&m_pRenderTargets[i])`. -/
def releaseRenderTargets : D3d12GraphicsManager → List Nat → D3d12GraphicsManager
  | m, [] => m
  | m, i :: rest =>
    let p := m.m_pRenderTargets.getD i 0
    let m := if p = 0 then m
      else { m with m_Released := m.m_Released ++ [ReleasedObject.resource p],
                    m_pRenderTargets := arraySet m.m_pRenderTargets i 0 }
    releaseRenderTargets m rest

/-- `D3d12GraphicsManager::Finalize`.  `GraphicsManager::Finalize` of the base class is
declared outside the sources and is the parameter `baseFinalize`. -/
def Finalize (k : Constants) (baseFinalize : D3d12GraphicsManager → D3d12GraphicsManager)
    (m : D3d12GraphicsManager) (fence : FenceAnswers) : D3d12GraphicsManager :=
  let m := (WaitForPreviousFrame m fence).2
  let m := baseFinalize m
  let m := SafeRelease ComMember.m_pRtvHeap m
  let m := SafeRelease ComMember.m_pDsvHeap m
  let m := SafeRelease ComMember.m_pCbvHeap m
  let m := SafeRelease ComMember.m_pSamplerHeap m
  let m := SafeRelease ComMember.m_pRootSignature m
  let m := SafeRelease ComMember.m_pCommandQueue m
  let m := SafeRelease ComMember.m_pCommandAllocator m
  let m := { m with m_Released := m.m_Released ++ releaseOf m.m_pDepthStencilBuffer,
                    m_pDepthStencilBuffer := 0 }
  let m := releaseRenderTargets m (List.range k.kFrameCount)
  let m := SafeRelease ComMember.m_pSwapChain m
  SafeRelease ComMember.m_pDev m

/-! ## Debug line overlay (debug builds) -/

/-- Modelled from the spec: the sum of two points, component by component (`operator+` of
the math library, which is outside the sources). -/
def Point.add (a b : Point) : Point :=
  { x := a.x + b.x, y := a.y + b.y, z := a.z + b.z }

/-- Modelled from the spec: `MulByElement` of the math library (outside the sources), the
product of two points component by component. -/
def MulByElement (a b : Point) : Point :=
  { x := a.x * b.x, y := a.y * b.y, z := a.z * b.z }

/-- `D3d12GraphicsManager::DrawLine`: the two end points, the middle point `(from + to)`
multiplied component by component by one half, and three fresh indices. -/
def DrawLine (m : D3d12GraphicsManager) (start finish : Point) (color : Vector3f) :
    D3d12GraphicsManager :=
  let vertice := m.m_DebugVertice ++ [{ pos := start, color := color }]
  let vertice := vertice ++ [{ pos := finish, color := color }]
  let middle : Point := MulByElement (Point.add start finish) { x := 1 / 2, y := 1 / 2, z := 1 / 2 }
  let vertice := vertice ++ [{ pos := middle, color := color }]
  let indices := m.m_DebugIndices ++ [m.m_DebugIndices.length]
  let indices := indices ++ [indices.length]
  let indices := indices ++ [indices.length]
  { m with m_DebugVertice := vertice, m_DebugIndices := indices }

/-- The answers of the API to `InitializeDebugBuffers`: the status of the creation of the
vertex buffer, its upload buffer, the index buffer and its upload buffer. -/
structure DebugBufferAnswers where
  vertex : BufferAnswers
  index : BufferAnswers
deriving DecidableEq, Repr

/-- `D3d12GraphicsManager::InitializeDebugBuffers`, which returns nothing. -/
def InitializeDebugBuffers (k : Constants) (m : D3d12GraphicsManager)
    (a : DebugBufferAnswers) : D3d12GraphicsManager :=
  let resourceDesc : CommittedResource :=
    { heap := HeapType.DEFAULT, Width := m.m_DebugVertice.length * k.sizeofDebugVertex,
      Height := 1, SampleCount := 1, InitialState := ResourceState.COPY_DEST }
  let (hr, dev, pDebugVertexBuffer) := m.m_pDev.CreateCommittedResource a.vertex.gpu resourceDesc
  if FAILED hr then { m with m_pDev := dev }
  else
    let (hr, dev, pDebugVertexBufferUploadHeap) :=
      dev.CreateCommittedResource a.vertex.upload
        { resourceDesc with heap := HeapType.UPLOAD, InitialState := ResourceState.GENERIC_READ }
    if FAILED hr then { m with m_pDev := dev }
    else
      let m := { m with
        m_pDev := dev
        m_pCommandList := m.m_pCommandList ++
          [Cmd.UpdateSubresources pDebugVertexBuffer pDebugVertexBufferUploadHeap
             (Payload.debugVertices m.m_DebugVertice) 0 0,
           Cmd.ResourceBarrier pDebugVertexBuffer ResourceState.COPY_DEST
             ResourceState.VERTEX_AND_CONSTANT_BUFFER]
        m_DebugVertexBufferView := m.m_DebugVertexBufferView ++
          [({ BufferLocation := pDebugVertexBuffer, StrideInBytes := k.sizeofDebugVertex,
              SizeInBytes := m.m_DebugVertice.length * k.sizeofDebugVertex } :
            VertexBufferView)]
        m_DebugBuffers := m.m_DebugBuffers ++ [pDebugVertexBuffer, pDebugVertexBufferUploadHeap] }
      let resourceDesc : CommittedResource :=
        { heap := HeapType.DEFAULT, Width := m.m_DebugIndices.length * 4,
          Height := 1, SampleCount := 1, InitialState := ResourceState.COPY_DEST }
      let (hr, dev, pDebugIndexBuffer) :=
        m.m_pDev.CreateCommittedResource a.index.gpu resourceDesc
      if FAILED hr then { m with m_pDev := dev }
      else
        let (hr, dev, pDebugIndexBufferUploadHeap) :=
          dev.CreateCommittedResource a.index.upload
            { resourceDesc with heap := HeapType.UPLOAD,
                                InitialState := ResourceState.GENERIC_READ }
        if FAILED hr then { m with m_pDev := dev }
        else
          { m with
            m_pDev := dev
            m_pCommandList := m.m_pCommandList ++
              [Cmd.UpdateSubresources pDebugIndexBuffer pDebugIndexBufferUploadHeap
                 (Payload.indices m.m_DebugIndices) 0 0,
               Cmd.ResourceBarrier pDebugIndexBuffer ResourceState.COPY_DEST
                 ResourceState.INDEX_BUFFER]
            m_DebugIndexBufferView := m.m_DebugIndexBufferView ++
              [({ BufferLocation := pDebugIndexBuffer,
                  SizeInBytes := m.m_DebugIndices.length * 4 } : IndexBufferView)]
            m_DebugBuffers := m.m_DebugBuffers ++
              [pDebugIndexBuffer, pDebugIndexBufferUploadHeap] }

/-- The debug prelude of `InitializeBuffers` (debug builds): upload the accumulated debug
lines, then clear the accumulation buffers. -/
def initializeDebugLines (k : Constants) (m : D3d12GraphicsManager) (a : DebugBufferAnswers) :
    D3d12GraphicsManager :=
  let m := InitializeDebugBuffers k m a
  { m with m_DebugVertice := [], m_DebugIndices := [] }

/-- A run of `DrawLine` calls, each given by its two end points and its colour. -/
def drawLines (m : D3d12GraphicsManager) :
    List (Point × Point × Vector3f) → D3d12GraphicsManager
  | [] => m
  | (start, finish, color) :: rest => drawLines (DrawLine m start finish color) rest

/-! ## Initialisation of the device objects -/

/-- `D3d12GraphicsManager::CreateDepthStencil`: the multisampled depth-stencil buffer of
the size of the screen and its view at the start of the DSV heap; `create` is the answer
of `CreateCommittedResource`. -/
def CreateDepthStencil (m : D3d12GraphicsManager) (screenWidth screenHeight : Nat)
    (create : HRESULT) : HRESULT × D3d12GraphicsManager :=
  let (hr, dev, pDepthStencilBuffer) := m.m_pDev.CreateCommittedResource create
    { heap := HeapType.DEFAULT, Width := screenWidth, Height := screenHeight,
      SampleCount := 4, InitialState := ResourceState.DEPTH_WRITE }
  if FAILED hr then (hr, { m with m_pDev := dev })
  else
    (hr, { m with
      m_pDev := dev
      m_pDepthStencilBuffer := pDepthStencilBuffer
      m_pDsvHeap := m.m_pDsvHeap ++ [(0, Descriptor.DSV pDepthStencilBuffer)] })

/-- `D3d12GraphicsManager::CreateSamplerBuffer`: one sampler at the start of the sampler
heap; the function always returns `S_OK`. -/
def CreateSamplerBuffer (m : D3d12GraphicsManager) : HRESULT × D3d12GraphicsManager :=
  (S_OK, { m with m_pSamplerHeap := m.m_pSamplerHeap ++ [(0, Descriptor.Sampler)] })

/-- The answers of the API to `CreateRootSignature`: the status of the serialisation and
of the creation of the root signature. -/
structure RootSignatureAnswers where
  serialize : HRESULT
  create : HRESULT
deriving DecidableEq, Repr

/-- `D3d12GraphicsManager::CreateRootSignature`: the root signature is created when its
serialisation succeeds; the status is that of the last call made. -/
def CreateRootSignature (m : D3d12GraphicsManager) (a : RootSignatureAnswers) :
    HRESULT × D3d12GraphicsManager :=
  let hr := a.serialize
  if SUCCEEDED hr then
    let hr := a.create
    if FAILED hr then (hr, m)
    else (hr, { m with m_nonNull := m.m_nonNull.insert ComMember.m_pRootSignature })
  else (hr, m)

/-- The answers of the API to `CreateGraphicsResources`: the status of the creation of the
DXGI factory, the adapters the factory enumerates, the status of `D3D12CreateDevice` on the
adapter that `GetHardwareAdapter` hands back, the status of `EnumWarpAdapter` and of
`D3D12CreateDevice` on the WARP adapter, the status of the creation of the command queue
and of the swap chain, the back-buffer index the new swap chain reports, and the answers
to the three creation steps that follow. -/
structure GraphicsResourcesAnswers where
  factory : HRESULT
  adapters : List Adapter
  createDevice : Option Adapter → HRESULT
  warpAdapter : HRESULT
  warpDevice : HRESULT
  commandQueue : HRESULT
  swapChain : HRESULT
  backBufferIndex : Nat
  heaps : HeapAnswers
  renderTarget : RenderTargetAnswers
  rootSignature : RootSignatureAnswers

/-- `CreateGraphicsResources` from the point where `D3D12CreateDevice` has succeeded: the
new device (it has no resource and no descriptor heap yet), then the command queue, the
swap chain, the descriptor heaps, the render targets and the root signature. -/
def createDeviceObjects (k : Constants) (m : D3d12GraphicsManager)
    (a : GraphicsResourcesAnswers) : HRESULT × D3d12GraphicsManager :=
  let m := { m with
    m_pDev := { resources := [], descriptorHeaps := [] }
    m_nonNull := m.m_nonNull.insert ComMember.m_pDev }
  let hr := a.commandQueue
  if FAILED hr then (hr, m)
  else
    let m := { m with
      m_pCommandQueue := []
      m_nonNull := m.m_nonNull.insert ComMember.m_pCommandQueue }
    let hr := a.swapChain
    if FAILED hr then (hr, m)
    else
      let m := { m with
        m_pSwapChain := a.backBufferIndex
        m_nonNull := m.m_nonNull.insert ComMember.m_pSwapChain }
      let m := { m with m_nFrameIndex := m.m_pSwapChain }
      let (hr, m) := CreateDescriptorHeaps k m a.heaps
      if FAILED hr then (hr, m)
      else
        let (hr, m) := CreateRenderTarget k m a.renderTarget
        if FAILED hr then (hr, m)
        else
          let (hr, m) := CreateRootSignature m a.rootSignature
          if FAILED hr then (hr, m)
          else (hr, m)

/-- `D3d12GraphicsManager::CreateGraphicsResources`: the device is created on the adapter
of `GetHardwareAdapter`, or on the WARP adapter when that fails. -/
def CreateGraphicsResources (k : Constants) (m : D3d12GraphicsManager)
    (a : GraphicsResourcesAnswers) : HRESULT × D3d12GraphicsManager :=
  let hr := a.factory
  if FAILED hr then (hr, m)
  else
    let pHardwareAdapter := GetHardwareAdapter a.adapters
    if FAILED (a.createDevice pHardwareAdapter) then
      let hr := a.warpAdapter
      if FAILED hr then (hr, m)
      else
        let hr := a.warpDevice
        if FAILED hr then (hr, m)
        else createDeviceObjects k m a
    else createDeviceObjects k m a

/-- `D3d12GraphicsManager::Initialize`.  `GraphicsManager::Initialize` of the base class is
declared outside the sources and is the parameter `baseInitialize`; the view port and the
scissor rectangle, which only depend on the configuration, are not part of the state. -/
def Initialize (k : Constants)
    (baseInitialize : D3d12GraphicsManager → Int × D3d12GraphicsManager)
    (m : D3d12GraphicsManager) (a : GraphicsResourcesAnswers) : Int × D3d12GraphicsManager :=
  let (result, m) := baseInitialize m
  if result = 0 then CreateGraphicsResources k m a
  else (result, m)

/-! ## Initialisation of the buffers of a scene -/

/-- The next answers of a script of answers to texture creations; an exhausted script
answers `S_OK` and hands out zeroed memory. -/
def nextTextureAnswers (script : List TextureAnswers) : TextureAnswers × List TextureAnswers :=
  (script.headD { gpu := S_OK, upload := S_OK, uploadBufferSize := 0, fresh := fun _ => 0 },
   script.tail)

/-- The loop of `InitializeBuffers` over the textures of one material: a null pointer is
skipped, a failed `CreateTextureBuffer` ends the function with its status.  The status
returned is `S_OK` when no creation failed.  The change that a creation makes to the image
of the texture is a change of the scene and is not returned. -/
def createTexturesOfMaterial (k : Constants) :
    D3d12GraphicsManager → List TextureAnswers → List (Option SceneObjectTexture) →
    HRESULT × D3d12GraphicsManager × List TextureAnswers
  | m, script, [] => (S_OK, m, script)
  | m, script, none :: rest => createTexturesOfMaterial k m script rest
  | m, script, some pTex :: rest =>
    let (a, script) := nextTextureAnswers script
    let (hr, m, _) := CreateTextureBuffer k m pTex a
    if FAILED hr then (hr, m, script)
    else createTexturesOfMaterial k m script rest

/-- The loop of `InitializeBuffers` over `scene.Materials`: a null material is skipped. -/
def createTexturesOfScene (k : Constants) :
    D3d12GraphicsManager → List TextureAnswers → List (String × Option SceneObjectMaterial) →
    HRESULT × D3d12GraphicsManager × List TextureAnswers
  | m, script, [] => (S_OK, m, script)
  | m, script, (_, none) :: rest => createTexturesOfScene k m script rest
  | m, script, (_, some pMat) :: rest =>
    let (hr, m, script) := createTexturesOfMaterial k m script pMat.Textures
    if FAILED hr then (hr, m, script)
    else createTexturesOfScene k m script rest

/-- The answers of the API to `InitializeBuffers`: those to the debug buffers, the screen
size and the status of the creation of the depth-stencil buffer, the status of the
creation and of the mapping of the constant buffer, the scripts of the answers to the
texture creations and to the vertex and index buffer creations, the status of `Close` and
of `CreateFence`, the error status when `CreateEvent` returns a null handle (`none` when
it returns an event), and the answers to the fence wait and to the first recording. -/
structure InitializeBuffersAnswers where
  debugBuffers : DebugBufferAnswers
  screenWidth : Nat
  screenHeight : Nat
  depthStencil : HRESULT
  constantBuffer : HRESULT
  map : HRESULT
  textures : List TextureAnswers
  buffers : List BufferAnswers
  close : HRESULT
  createFence : HRESULT
  createEvent : Option HRESULT
  fence : FenceAnswers
  record : RecordAnswers

/-- The end of `InitializeBuffers`: `hr = PopulateCommandList(); return hr;`, the status
being converted to the `bool` the function returns. -/
def recordFirstFrame (k : Constants) (debug : Bool) (m : D3d12GraphicsManager)
    (a : InitializeBuffersAnswers) : Bool × D3d12GraphicsManager :=
  let (hr, m) := PopulateCommandList k debug m a.record
  (HRESULT.toBool hr, m)

/-- `D3d12GraphicsManager::InitializeBuffers` on the scene `scene`, which returns `bool`:
every `return hr` converts the status. -/
def InitializeBuffers (k : Constants) (debug : Bool) (scene : Scene)
    (m : D3d12GraphicsManager) (a : InitializeBuffersAnswers) : Bool × D3d12GraphicsManager :=
  let m := if debug then initializeDebugLines k m a.debugBuffers else m
  let (hr, m) := CreateDepthStencil m a.screenWidth a.screenHeight a.depthStencil
  if FAILED hr then (HRESULT.toBool hr, m)
  else
    let (hr, m) := CreateConstantBuffer k m a.constantBuffer a.map
    if FAILED hr then (HRESULT.toBool hr, m)
    else
      let (hr, m) := CreateSamplerBuffer m
      if FAILED hr then (HRESULT.toBool hr, m)
      else
        let (hr, m, _) := createTexturesOfScene k m a.textures scene.Materials
        if FAILED hr then (HRESULT.toBool hr, m)
        else
          let m := initializeDrawBatches k scene m a.buffers
          let hr := a.close
          if SUCCEEDED hr then
            let m := { m with m_pCommandList := m.m_pCommandList ++ [Cmd.Close] }
            let m := { m with
              m_pCommandQueue := m.m_pCommandQueue
                ++ [QueueCall.ExecuteCommandLists m.m_pCommandList] }
            let hr := a.createFence
            if FAILED hr then (HRESULT.toBool hr, m)
            else
              let m := { m with
                m_nonNull := m.m_nonNull.insert ComMember.m_pFence
                m_nFenceValue := 1 }
              match a.createEvent with
              | some hr =>
                if FAILED hr then (HRESULT.toBool hr, m)
                else recordFirstFrame k debug (WaitForPreviousFrame m a.fence).2 a
              | none => recordFirstFrame k debug (WaitForPreviousFrame m a.fence).2 a
          else recordFirstFrame k debug m a

/-! ## Auxiliary definitions of the statements -/

/-- The registry entries that a run of creations of fresh, distinct names appends to a
registry of `start` entries. -/
def appendedEntries (start : Nat) (calls : List (SceneObjectTexture × TextureAnswers)) :
    TextureIndex :=
  (calls.enumFrom start).map fun p => (p.2.1.name, (p.1 : Int))

/-- The total of the index counts of the primitives of a mesh, as a `uint32_t`. -/
def indexTotal (pMesh : SceneObjectMesh) : Nat :=
  UINT32 ((pMesh.primitives.map fun p => p.indexCount).sum)

/-- The total of the vertex counts of the primitives of a mesh, as a `uint32_t`. -/
def vertexTotal (pMesh : SceneObjectMesh) : Nat :=
  UINT32 ((pMesh.primitives.map fun p => p.vertexCount).sum)

/-- The material a batch gets: the one at the material index of the mesh in the linear
material list, when the index is in range and the weak reference resolves. -/
def batchMaterial (scene : Scene) (pMesh : SceneObjectMesh) : Option SceneObjectMaterial :=
  if pMesh.material < scene.LinearMaterials.length then
    scene.LinearMaterials.getD pMesh.material none
  else none

/-- The batches of a list of live nodes whose ranges start at `startIndex` and
`startVertex`: each batch starts where the previous one ends. -/
def chainedBatches (scene : Scene) : Nat → Nat → List SceneGeometryNode → List DrawBatchContext
  | _, _, [] => []
  | startIndex, startVertex, node :: rest =>
    { IndexCount := indexTotal node.pMesh
      StartIndexLocation := startIndex
      BaseVertexLocation := startVertex
      material := batchMaterial scene node.pMesh
      node := node } ::
    chainedBatches scene (UINT32 (startIndex + indexTotal node.pMesh))
      (UINT32 (startVertex + vertexTotal node.pMesh)) rest

/-- Two byte ranges, each given by its offset and length, do not overlap. -/
def rangesDisjoint (a b : Nat × Nat) : Prop :=
  a.1 + a.2 ≤ b.1 ∨ b.1 + b.2 ≤ a.1

/-- The per-frame block of frame `frameIndex` in the constant buffer. -/
def perFrameRange (k : Constants) (frameIndex : Nat) : Nat × Nat :=
  (perFrameOffset k frameIndex, k.kSizePerFrameConstantBuffer)

/-- The per-batch block of batch `index` of frame `frameIndex` in the constant buffer. -/
def perBatchRange (k : Constants) (frameIndex index : Nat) : Nat × Nat :=
  (perBatchOffset k frameIndex index, k.kSizePerBatchConstantBuffer)

/-- The five texture maps of a material, each with the root slot it is bound to. -/
def textureSlots (material : SceneObjectMaterial) : List (Nat × Option SceneObjectTexture) :=
  [(2, material.ColorMap), (3, material.PhysicsDescriptorMap), (4, material.NormalMap),
   (5, material.AOMap), (6, material.EmissiveMap)]

/-- Whether a recorded call binds a descriptor table to root slot `slot`. -/
def Cmd.bindsSlot (slot : Nat) : Cmd → Bool
  | Cmd.SetGraphicsRootDescriptorTable s _ _ => decide (s = slot)
  | _ => false

/-- Every name registered in `r` is registered in `r'` with the same slot. -/
def TextureIndex.Extends (r r' : TextureIndex) : Prop :=
  ∀ name v, TextureIndex.find r name = some v → TextureIndex.find r' name = some v

/-- The texture binds of a batch with the slots read off `registry`: none without a
material, else one per texture map that resolves, in the order of the root slots. -/
def textureBinds (k : Constants) (registry : TextureIndex)
    (material : Option SceneObjectMaterial) : List Cmd :=
  match material with
  | none => []
  | some material =>
    (textureSlots material).filterMap fun p =>
      p.2.map fun texture =>
        Cmd.SetGraphicsRootDescriptorTable p.1 HeapKind.CbvSrvUav
          ((k.kTextureDescStartIndex : Int) + (TextureIndex.find registry texture.name).getD 0)

/-- The calls of batch number `i` with the texture slots read off `registry`: the bind of
root slot 0, the binds of the vertex and index buffer views number `i`, the texture binds
and the indexed draw. -/
def batchCalls (k : Constants) (m : D3d12GraphicsManager) (registry : TextureIndex) (i : Nat)
    (dbc : DrawBatchContext) : List Cmd :=
  [Cmd.SetGraphicsRootDescriptorTable 0 HeapKind.CbvSrvUav
     ((m.m_nFrameIndex * (2 * k.kMaxSceneObjectCount) + i * 2 : Nat) : Int),
   Cmd.IASetVertexBuffers m.m_VertexBufferView[i]?,
   Cmd.IASetIndexBuffer m.m_IndexBufferView[i]?]
  ++ textureBinds k registry dbc.material
  ++ [Cmd.DrawIndexedInstanced dbc.IndexCount 1 0 0 0]

/-- The three vertices of a debug line: its two end points and the middle point
`(from + to)` multiplied component by component by one half, all in the colour of the
line. -/
def lineVertices (line : Point × Point × Vector3f) : List DebugVertex :=
  [{ pos := line.1, color := line.2.2 },
   { pos := line.2.1, color := line.2.2 },
   { pos := MulByElement (Point.add line.1 line.2.1) { x := 1 / 2, y := 1 / 2, z := 1 / 2 },
     color := line.2.2 }]

/-- Entry `(r, c)` of a matrix (zero outside the matrix). -/
def entry (t : Matrix4X4f) (r c : Nat) : Int :=
  (t.getD r []).getD c 0

/-- The per-batch writes of one update of the constants in frame `frameIndex`: for each
batch, in list order from batch number `i` on, the record whose `objectMatrix` is the
transpose of the world transform of the node of the batch, at the offset of the batch. -/
def batchWrites (k : Constants) (frameIndex : Nat) (i : Nat)
    (batches : List DrawBatchContext) : List ConstantWrite :=
  (batches.enumFrom i).map fun p =>
    { offset := frameIndex * k.kSizeConstantBufferPerFrame + k.kSizePerFrameConstantBuffer
        + p.1 * k.kSizePerBatchConstantBuffer,
      content := ConstantData.batch (Transpose p.2.node.matrix) }

/-- The descriptor at index `index` of a descriptor heap: the one of the last write made
at that index, `none` when nothing was written there. -/
def DescriptorHeap.lookup (heap : DescriptorHeap) (index : Int) : Option Descriptor :=
  heap.foldl (fun found write => if write.1 = index then some write.2 else found) none

/-- The byte offsets of the source that the widening loops read, for an image of the given
pitch, width and height: for every row and column the four bytes of `*(uint32_t*)src`,
`src` being at offset `row * pitch + 3 * col`. -/
def widenReads (pitch Width Height : Nat) : List Nat :=
  ((List.range Height).map fun row =>
    ((List.range Width).map fun col =>
      [row * pitch + 3 * col, row * pitch + 3 * col + 1, row * pitch + 3 * col + 2,
       row * pitch + 3 * col + 3]).flatten).flatten

/-- The byte offsets of the new buffer that the widening loops write, for the given new
pitch, width and height: for every row and column the four bytes of `*(uint32_t*)buf`
(`buf[3]` is one of them), `buf` being at offset `row * new_pitch + 4 * col`. -/
def widenWrites (new_pitch Width Height : Nat) : List Nat :=
  ((List.range Height).map fun row =>
    ((List.range Width).map fun col =>
      [row * new_pitch + 4 * col, row * new_pitch + 4 * col + 1,
       row * new_pitch + 4 * col + 2, row * new_pitch + 4 * col + 3]).flatten).flatten

/-- The state in which each committed resource of a device was created; a handle that is
not a committed resource of the device (a back buffer of the swap chain) is in the present
state. -/
def createdStates (dev : Device) : StateMap :=
  fun r => ((dev.resources[r - 1]?).map fun desc => desc.InitialState).getD ResourceState.PRESENT

/-- Sample constants: 2 frames, 4 scene objects, 8 textures, 256-byte constant blocks. -/
def sampleConstants : Constants where
  kFrameCount := 2
  kMaxSceneObjectCount := 4
  kMaxTextureCount := 8
  kSizePerFrameConstantBuffer := 256
  kSizePerBatchConstantBuffer := 256
  sizeofVertexBasicAttribs := 44
  sizeofDebugVertex := 24

/-- API answers of a texture creation in which everything succeeds. -/
def sampleTextureAnswers : TextureAnswers where
  gpu := S_OK
  upload := S_OK
  uploadBufferSize := 64
  fresh := fun _ => 255

/-- A 24-bit image of 3 x 1 pixels whose rows are padded to 12 bytes. -/
def samplePaddedImage : Image where
  Width := 3
  Height := 1
  bitcount := 24
  pitch := 12
  data_size := 12
  data := [1, 2, 3, 4, 5, 6, 7, 8, 9, 0, 0, 0]

/-- A 24-bit image of 2 x 2 pixels without row padding. -/
def sampleImage : Image where
  Width := 2
  Height := 2
  bitcount := 24
  pitch := 6
  data_size := 12
  data := [1, 2, 3, 4, 5, 6, 7, 8, 9, 10, 11, 12]

/-- A scene of two live geometry nodes, each with one primitive of 6 indices and 4
vertices, and an expired node in between. -/
def sampleScene : Scene where
  Materials := []
  GeometryNodes :=
    [("first", some { pMesh := { primitives := [{ vertexData := [⟨0⟩, ⟨1⟩, ⟨2⟩, ⟨3⟩],
                                                   indexData := [0, 1, 2, 2, 1, 3],
                                                   indexCount := 6, vertexCount := 4 }],
                                 material := 0 },
                      matrix := [] }),
     ("gone", none),
     ("second", some { pMesh := { primitives := [{ vertexData := [⟨4⟩, ⟨5⟩, ⟨6⟩, ⟨7⟩],
                                                    indexData := [0, 1, 2, 2, 1, 3],
                                                    indexCount := 6, vertexCount := 4 }],
                                  material := 0 },
                       matrix := [] })]
  LinearMaterials := []

/-- A manager with two back buffers (handles 1 and 2), a multisampled render target
(handle 3) and no draw batch, at frame index 1. -/
def sampleManager : D3d12GraphicsManager :=
  { D3d12GraphicsManager.empty with
    m_pRenderTargets := [1, 2]
    m_pMsaaRenderTarget := 3
    m_nFrameIndex := 1
    m_pSwapChain := 1 }

/-- API answers of a recording in which everything succeeds. -/
def sampleRecordAnswers : RecordAnswers where
  allocatorReset := S_OK
  listReset := S_OK
  close := S_OK

/-- Tracked states in which resource 3 is a pixel-shader resource and every other resource
is in the present state. -/
def sampleStates : StateMap :=
  fun r => if r = 3 then ResourceState.PIXEL_SHADER_RESOURCE else ResourceState.PRESENT

/-- A material whose colour and normal maps resolve (textures "color" and "normal") and
whose other three maps have expired. -/
def sampleMaterial : SceneObjectMaterial where
  ColorMap := some ⟨"color", sampleImage⟩
  PhysicsDescriptorMap := none
  NormalMap := some ⟨"normal", samplePaddedImage⟩
  AOMap := none
  EmissiveMap := none
  Textures := [some ⟨"color", sampleImage⟩, some ⟨"normal", samplePaddedImage⟩]

/-- A geometry node with one primitive of 6 indices and 4 vertices. -/
def sampleNode : SceneGeometryNode where
  pMesh := { primitives := [{ vertexData := [⟨0⟩, ⟨1⟩, ⟨2⟩, ⟨3⟩],
                              indexData := [0, 1, 2, 2, 1, 3],
                              indexCount := 6, vertexCount := 4 }],
             material := 0 }
  matrix := []

/-- The sample manager with two batches of 6 indices, the first with the sample material
and the second without material, their buffer views, and a registry in which "MSAA",
"color" and "normal" have slots 0, 1 and 2. -/
def sampleBatchManager : D3d12GraphicsManager :=
  { sampleManager with
    m_TextureIndex := [("MSAA", 0), ("color", 1), ("normal", 2)]
    m_DrawBatchContext :=
      [{ IndexCount := 6, StartIndexLocation := 0, BaseVertexLocation := 0,
         material := some sampleMaterial, node := sampleNode },
       { IndexCount := 6, StartIndexLocation := 6, BaseVertexLocation := 4,
         material := none, node := sampleNode }]
    m_VertexBufferView :=
      [{ BufferLocation := 4, StrideInBytes := 44, SizeInBytes := 176 },
       { BufferLocation := 8, StrideInBytes := 44, SizeInBytes := 176 }]
    m_IndexBufferView :=
      [{ BufferLocation := 6, SizeInBytes := 24 }, { BufferLocation := 10, SizeInBytes := 24 }] }

/-- API answers of a heap creation in which everything succeeds. -/
def sampleHeapAnswers : HeapAnswers where
  rtv := S_OK
  dsv := S_OK
  cbvSrvUav := S_OK
  sampler := S_OK
  allocator := S_OK

/-- The sample manager after a frame: its command list holds an earlier recording (here
just `Close`) and the fence counter is 1. -/
def sampleFrameManager : D3d12GraphicsManager :=
  { sampleManager with m_pCommandList := [Cmd.Close], m_nFenceValue := 1 }

/-- API answers of a recording whose allocator reset fails. -/
def sampleFailedRecordAnswers : RecordAnswers where
  allocatorReset := E_FAIL
  listReset := S_OK
  close := S_OK

/-- API answers of a fence wait in which everything succeeds and the GPU is done. -/
def sampleFenceAnswers : FenceAnswers where
  signal := S_OK
  completed := 1
  setEvent := S_OK

/-- The submit and present step with a successful `Present` that moves the swap chain to
back buffer 0. -/
def sampleBaseDraw (m : D3d12GraphicsManager) : D3d12GraphicsManager :=
  RenderBuffers m { present := S_OK, backBufferIndex := 0 }

/-- The sample manager with every pointer member non-null, a depth-stencil buffer
(handle 4) and the fence counter at 1. -/
def sampleLiveManager : D3d12GraphicsManager :=
  { sampleManager with
    m_pDepthStencilBuffer := 4
    m_nFenceValue := 1
    m_nonNull :=
      [ComMember.m_pDev, ComMember.m_pSwapChain, ComMember.m_pCommandQueue,
       ComMember.m_pCommandAllocator, ComMember.m_pCommandList, ComMember.m_pRootSignature,
       ComMember.m_pRtvHeap, ComMember.m_pDsvHeap, ComMember.m_pCbvHeap,
       ComMember.m_pSamplerHeap, ComMember.m_pFence] }

/-- A base-class `Finalize` that clears the buffers and the shaders. -/
def sampleBaseFinalize (m : D3d12GraphicsManager) : D3d12GraphicsManager :=
  ClearShaders (ClearBuffers m)

/-- The sample manager after four `DrawLine` calls and the debug prelude of
`InitializeBuffers`, all creations succeeding. -/
def sampleDebugManager : D3d12GraphicsManager :=
  initializeDebugLines sampleConstants
    (DrawLine
      (DrawLine
        (DrawLine
          (DrawLine sampleManager ⟨0, 0, 0⟩ ⟨1, 0, 0⟩ ⟨1, 0, 0⟩)
          ⟨0, 0, 0⟩ ⟨0, 1, 0⟩ ⟨0, 1, 0⟩)
        ⟨0, 0, 0⟩ ⟨0, 0, 1⟩ ⟨0, 0, 1⟩)
      ⟨1, 1, 1⟩ ⟨2, 2, 2⟩ ⟨1, 1, 1⟩)
    { vertex := { gpu := S_OK, upload := S_OK }, index := { gpu := S_OK, upload := S_OK } }

/-- Two debug lines: from the origin along the x axis in red, and from (1, 1, 1) to
(2, 3, 4) in white. -/
def sampleLines : List (Point × Point × Vector3f) :=
  [(⟨0, 0, 0⟩, ⟨1, 0, 0⟩, ⟨1, 0, 0⟩), (⟨1, 1, 1⟩, ⟨2, 3, 4⟩, ⟨1, 1, 1⟩)]

/-- A geometry node whose world transform has the entries 1 to 16, row by row. -/
def sampleMovedNode : SceneGeometryNode :=
  { sampleNode with matrix := [[1, 2, 3, 4], [5, 6, 7, 8], [9, 10, 11, 12], [13, 14, 15, 16]] }

/-- The sample manager (frame index 1) with one batch without material on the node
`sampleMovedNode`, and frame context 7. -/
def sampleConstantsManager : D3d12GraphicsManager :=
  { sampleManager with
    m_DrawFrameContext := 7
    m_DrawBatchContext :=
      [{ IndexCount := 6, StartIndexLocation := 0, BaseVertexLocation := 0,
         material := none, node := sampleNode },
       { IndexCount := 6, StartIndexLocation := 6, BaseVertexLocation := 4,
         material := none, node := sampleMovedNode }] }

/-- API answers of a texture creation whose upload resource cannot be created. -/
def sampleFailedTextureAnswers : TextureAnswers where
  gpu := S_OK
  upload := E_FAIL
  uploadBufferSize := 64
  fresh := fun _ => 255

/-- API answers of a `CreateGraphicsResources` in which everything succeeds: one hardware
adapter, a swap chain at back buffer 0 whose buffers have the handles 101 and 102, and a
screen of 960 x 540. -/
def sampleGraphicsAnswers : GraphicsResourcesAnswers where
  factory := S_OK
  adapters := [{ id := 0, software := false, createDevice := S_OK }]
  createDevice := fun _ => S_OK
  warpAdapter := S_OK
  warpDevice := S_OK
  commandQueue := S_OK
  swapChain := S_OK
  backBufferIndex := 0
  heaps := sampleHeapAnswers
  renderTarget :=
    { getBuffer := fun _ => S_OK, backBuffer := fun i => 101 + i,
      screenWidth := 960, screenHeight := 540, msaa := S_OK }
  rootSignature := { serialize := S_OK, create := S_OK }

/-- API answers of an `InitializeBuffers` in which everything succeeds. -/
def sampleBuffersAnswers : InitializeBuffersAnswers where
  debugBuffers :=
    { vertex := { gpu := S_OK, upload := S_OK }, index := { gpu := S_OK, upload := S_OK } }
  screenWidth := 960
  screenHeight := 540
  depthStencil := S_OK
  constantBuffer := S_OK
  map := S_OK
  textures := []
  buffers := []
  close := S_OK
  createFence := S_OK
  createEvent := none
  fence := sampleFenceAnswers
  record := sampleRecordAnswers

/-- A scene with the sample material (textures "color" and "normal") and one geometry
node that uses it. -/
def sampleTextureScene : Scene where
  Materials := [("material", some sampleMaterial)]
  GeometryNodes := [("node", some sampleNode)]
  LinearMaterials := [some sampleMaterial]

/-- The manager after a successful `Initialize`, the base class reporting success. -/
def sampleInitialized : D3d12GraphicsManager :=
  (Initialize sampleConstants (fun m => (0, m)) D3d12GraphicsManager.empty
    sampleGraphicsAnswers).2

/-- The manager after `Initialize` and a first `InitializeBuffers` on the sample scene. -/
def sampleLoaded : D3d12GraphicsManager :=
  (InitializeBuffers sampleConstants false sampleTextureScene sampleInitialized
    sampleBuffersAnswers).2

/-- The manager after `Initialize`, `InitializeBuffers`, `ClearBuffers` and a second
`InitializeBuffers` on the sample scene. -/
def sampleReloaded : D3d12GraphicsManager :=
  (InitializeBuffers sampleConstants false sampleTextureScene (ClearBuffers sampleLoaded)
    sampleBuffersAnswers).2

/-- The sample manager with the registry as `CreateRenderTarget` leaves it ("MSAA" at
slot 0) and one batch whose material is the sample material, the textures "color" and
"normal" of which are not registered. -/
def sampleUnregisteredManager : D3d12GraphicsManager :=
  { sampleManager with
    m_TextureIndex := [("MSAA", 0)]
    m_DrawBatchContext :=
      [{ IndexCount := 6, StartIndexLocation := 0, BaseVertexLocation := 0,
         material := some sampleMaterial, node := sampleNode }]
    m_VertexBufferView := [{ BufferLocation := 4, StrideInBytes := 44, SizeInBytes := 176 }]
    m_IndexBufferView := [{ BufferLocation := 6, SizeInBytes := 24 }] }

/-- A 24-bit image of 3 x 1 pixels without row padding: 9 bytes. -/
def sampleRowImage : Image where
  Width := 3
  Height := 1
  bitcount := 24
  pitch := 9
  data_size := 9
  data := [1, 2, 3, 4, 5, 6, 7, 8, 9]

/-- The first creation of the texture "row" of the image `sampleRowImage`. -/
def sampleFirstCreation : HRESULT × D3d12GraphicsManager × SceneObjectTexture :=
  CreateTextureBuffer sampleConstants D3d12GraphicsManager.empty ⟨"row", sampleRowImage⟩
    sampleTextureAnswers

/-- The second creation of the same texture, as the first creation left it, after
`ClearBuffers` has cleared the registry. -/
def sampleSecondCreation : HRESULT × D3d12GraphicsManager × SceneObjectTexture :=
  CreateTextureBuffer sampleConstants (ClearBuffers sampleFirstCreation.2.1)
    sampleFirstCreation.2.2 sampleTextureAnswers

/-- A scene of two geometry nodes: the mesh of the first has two primitives (of 4 and of 3
vertices), the mesh of the second has one primitive (of 5 vertices). -/
def sampleTwoPrimitiveScene : Scene where
  Materials := []
  GeometryNodes :=
    [("first", some { pMesh := { primitives := [{ vertexData := [⟨0⟩, ⟨1⟩, ⟨2⟩, ⟨3⟩],
                                                   indexData := [0, 1, 2, 2, 1, 3],
                                                   indexCount := 6, vertexCount := 4 },
                                                 { vertexData := [⟨4⟩, ⟨5⟩, ⟨6⟩],
                                                   indexData := [0, 1, 2],
                                                   indexCount := 3, vertexCount := 3 }],
                                 material := 0 },
                      matrix := [] }),
     ("second", some { pMesh := { primitives := [{ vertexData := [⟨7⟩, ⟨8⟩, ⟨9⟩, ⟨10⟩, ⟨11⟩],
                                                    indexData := [0, 1, 2, 2, 3, 4, 4, 0, 2],
                                                    indexCount := 9, vertexCount := 5 }],
                                  material := 0 },
                       matrix := [] })]
  LinearMaterials := []

/-- A scene of one geometry node whose mesh has no primitive. -/
def sampleEmptyMeshScene : Scene where
  Materials := []
  GeometryNodes := [("empty", some { pMesh := { primitives := [], material := 0 },
                                     matrix := [] })]
  LinearMaterials := []

/-- API answers of a recording whose `Close` fails. -/
def sampleFailedCloseAnswers : RecordAnswers where
  allocatorReset := S_OK
  listReset := S_OK
  close := E_FAIL

end Corona

/-! # Theorems -/

namespace Corona

/-! ## The texture registry -/

theorem TextureIndex.find_append_single (m : TextureIndex) (name other : String) (v : Int)
    (hne : name ≠ other) (hnone : TextureIndex.find m other = none) :
    TextureIndex.find (m ++ [(name, v)]) other = none := by
  induction m with
  | nil => simp [TextureIndex.find, hne]
  | cons e rest ih =>
    obtain ⟨key, w⟩ := e
    simp only [TextureIndex.find, List.cons_append] at hnone ⊢
    by_cases hk : key = other
    · simp [hk] at hnone
    · simp only [hk, if_false] at hnone ⊢
      exact ih hnone

theorem TextureIndex.assign_of_find_none (m : TextureIndex) (name : String) (v : Int)
    (hnone : TextureIndex.find m name = none) :
    TextureIndex.assign m name v = m ++ [(name, v)] := by
  induction m with
  | nil => rfl
  | cons e rest ih =>
    obtain ⟨key, w⟩ := e
    simp only [TextureIndex.find] at hnone
    by_cases hk : key = name
    · simp [hk] at hnone
    · simp only [hk, if_false] at hnone
      simp [TextureIndex.assign, hk, ih hnone]

/-- The registry after a successful `CreateTextureBuffer` of an unregistered name: the name
is appended with the former size of the registry as its slot. -/
theorem CreateTextureBuffer_registry_of_new (k : Constants) (m : D3d12GraphicsManager)
    (texture : SceneObjectTexture) (a : TextureAnswers)
    (hnone : TextureIndex.find m.m_TextureIndex texture.name = none)
    (hgpu : FAILED a.gpu = false) (hupload : FAILED a.upload = false) :
    (CreateTextureBuffer k m texture a).2.1.m_TextureIndex
      = m.m_TextureIndex ++ [(texture.name, (m.m_TextureIndex.length : Int))] := by
  simp [CreateTextureBuffer, hnone, Device.CreateCommittedResource, hgpu, hupload,
    TextureIndex.size, TextureIndex.assign_of_find_none]

theorem TextureIndex.find_appendedEntries_none (start : Nat)
    (calls : List (SceneObjectTexture × TextureAnswers)) (name : String)
    (hnot : ∀ c ∈ calls, c.1.name ≠ name) :
    TextureIndex.find (appendedEntries start calls) name = none := by
  induction calls generalizing start with
  | nil => rfl
  | cons c rest ih =>
    have hc : c.1.name ≠ name := hnot c (List.mem_cons_self _ _)
    have hrest : ∀ d ∈ rest, d.1.name ≠ name := fun d hd => hnot d (List.mem_cons_of_mem _ hd)
    simp only [appendedEntries, List.enumFrom_cons, List.map_cons, TextureIndex.find, hc,
      if_false]
    exact ih (start + 1) hrest

theorem TextureIndex.find_appendedEntries (start : Nat)
    (calls : List (SceneObjectTexture × TextureAnswers))
    (hdistinct : (calls.map fun c => c.1.name).Nodup) (i : Nat) (hi : i < calls.length) :
    TextureIndex.find (appendedEntries start calls) (calls.get ⟨i, hi⟩).1.name
      = some ((start + i : Nat) : Int) := by
  induction calls generalizing start i with
  | nil => simp at hi
  | cons c rest ih =>
    rw [List.map_cons, List.nodup_cons] at hdistinct
    cases i with
    | zero => simp [appendedEntries, List.enumFrom_cons, TextureIndex.find]
    | succ j =>
      have hj : j < rest.length := by simpa using hi
      have hne : c.1.name ≠ (rest.get ⟨j, hj⟩).1.name := by
        intro heq
        apply hdistinct.1
        rw [heq]
        exact List.mem_map_of_mem (fun c => c.1.name) (List.get_mem rest j hj)
      have := ih (start + 1) hdistinct.2 j hj
      simp only [appendedEntries, List.enumFrom_cons, List.map_cons, TextureIndex.find,
        List.get_cons_succ, hne, if_false] at this ⊢
      rw [this]
      congr 2
      omega

theorem appendedEntries_slots (start : Nat)
    (calls : List (SceneObjectTexture × TextureAnswers)) :
    (appendedEntries start calls).map Prod.snd
      = (List.range' start calls.length).map fun (i : Nat) => (i : Int) := by
  induction calls generalizing start with
  | nil => rfl
  | cons c rest ih =>
    have := ih (start + 1)
    simp only [appendedEntries, List.enumFrom_cons, List.map_cons, List.length_cons,
      List.range'_succ] at this ⊢
    rw [this]

theorem createTextureBuffers_registry_eq (k : Constants)
    (calls : List (SceneObjectTexture × TextureAnswers)) (m : D3d12GraphicsManager)
    (hdistinct : (calls.map fun c => c.1.name).Nodup)
    (hfresh : ∀ c ∈ calls, TextureIndex.find m.m_TextureIndex c.1.name = none)
    (hok : ∀ c ∈ calls, FAILED c.2.gpu = false ∧ FAILED c.2.upload = false) :
    (createTextureBuffers k m calls).m_TextureIndex
      = m.m_TextureIndex ++ appendedEntries m.m_TextureIndex.length calls := by
  induction calls generalizing m with
  | nil => simp [createTextureBuffers, appendedEntries]
  | cons c rest ih =>
    obtain ⟨texture, a⟩ := c
    rw [List.map_cons, List.nodup_cons] at hdistinct
    have hnone := hfresh (texture, a) (List.mem_cons_self _ _)
    have hsucc := hok (texture, a) (List.mem_cons_self _ _)
    have hreg := CreateTextureBuffer_registry_of_new k m texture a hnone hsucc.1 hsucc.2
    simp only [createTextureBuffers]
    rw [ih _ hdistinct.2 ?_ (fun d hd => hok d (List.mem_cons_of_mem _ hd))]
    · rw [hreg]
      simp [appendedEntries, List.enumFrom_cons]
    · intro d hd
      rw [hreg]
      apply TextureIndex.find_append_single
      · intro heq
        apply hdistinct.1
        rw [heq]
        exact List.mem_map_of_mem (fun c => c.1.name) hd
      · exact hfresh d (List.mem_cons_of_mem _ hd)

/-- C1: from an empty registry, a run of successful `CreateTextureBuffer` calls with
pairwise distinct texture names leaves a registry of exactly as many entries as calls, in
which the name of call number `i` (from 0) has slot `i`; the slots are 0, 1, ..., N-1. -/
theorem createTextureBuffers_slots (k : Constants) (m : D3d12GraphicsManager)
    (calls : List (SceneObjectTexture × TextureAnswers))
    (hempty : m.m_TextureIndex = [])
    (hdistinct : (calls.map fun c => c.1.name).Nodup)
    (hok : ∀ c ∈ calls, FAILED c.2.gpu = false ∧ FAILED c.2.upload = false) :
    (createTextureBuffers k m calls).m_TextureIndex.size = calls.length ∧
    (∀ (i : Nat) (hi : i < calls.length),
      TextureIndex.find (createTextureBuffers k m calls).m_TextureIndex
        (calls.get ⟨i, hi⟩).1.name = some (i : Int)) ∧
    (createTextureBuffers k m calls).m_TextureIndex.map Prod.snd
      = (List.range calls.length).map fun (i : Nat) => (i : Int) := by
  have hreg := createTextureBuffers_registry_eq k calls m hdistinct
    (fun c _ => by rw [hempty]; rfl) hok
  rw [hempty] at hreg
  simp only [List.nil_append, List.length_nil] at hreg
  rw [hreg]
  refine ⟨by simp [appendedEntries, TextureIndex.size], ?_, ?_⟩
  · intro i hi
    have := TextureIndex.find_appendedEntries 0 calls hdistinct i hi
    simpa using this
  · rw [List.range_eq_range']
    exact appendedEntries_slots 0 calls

/-- Witness of C1: two creations, of textures "a" and "b", from the empty manager. -/
theorem createTextureBuffers_slots_witness :
    (createTextureBuffers sampleConstants D3d12GraphicsManager.empty
        [(⟨"a", sampleImage⟩, sampleTextureAnswers),
         (⟨"b", samplePaddedImage⟩, sampleTextureAnswers)]).m_TextureIndex.size = 2 ∧
      (createTextureBuffers sampleConstants D3d12GraphicsManager.empty
        [(⟨"a", sampleImage⟩, sampleTextureAnswers),
         (⟨"b", samplePaddedImage⟩, sampleTextureAnswers)]).m_TextureIndex.map Prod.snd
        = [0, 1] := by
  have h := createTextureBuffers_slots sampleConstants D3d12GraphicsManager.empty
    [(⟨"a", sampleImage⟩, sampleTextureAnswers), (⟨"b", samplePaddedImage⟩, sampleTextureAnswers)]
    rfl (by simp) (by simp [sampleTextureAnswers, FAILED, S_OK])
  exact ⟨h.1, h.2.2⟩

/-! ## Re-creating a registered texture -/

/-- C2: when the name of the texture is already a key of the registry, `CreateTextureBuffer`
returns `S_OK` and changes nothing: the manager (registry, owned buffers and textures,
command list and everything else) and the texture (its image data, pitch and size) are
returned as they were. -/
theorem CreateTextureBuffer_registered (k : Constants) (m : D3d12GraphicsManager)
    (texture : SceneObjectTexture) (a : TextureAnswers)
    (hkey : (TextureIndex.find m.m_TextureIndex texture.name).isSome = true) :
    CreateTextureBuffer k m texture a = (S_OK, m, texture) := by
  cases hfind : TextureIndex.find m.m_TextureIndex texture.name with
  | none => rw [hfind] at hkey; cases hkey
  | some slot => simp [CreateTextureBuffer, hfind]

/-- Witness of C2: the texture "a" is created a second time. -/
theorem CreateTextureBuffer_registered_witness :
    CreateTextureBuffer sampleConstants
        { D3d12GraphicsManager.empty with m_TextureIndex := [("a", 0)] }
        ⟨"a", sampleImage⟩ sampleTextureAnswers
      = (S_OK, { D3d12GraphicsManager.empty with m_TextureIndex := [("a", 0)] },
          ⟨"a", sampleImage⟩) :=
  CreateTextureBuffer_registered sampleConstants
    { D3d12GraphicsManager.empty with m_TextureIndex := [("a", 0)] }
    ⟨"a", sampleImage⟩ sampleTextureAnswers (by simp [TextureIndex.find])

/-! ## Widening of 24-bit images -/

theorem widenPixel_length (src buf : List Byte) (o s : Nat) :
    (widenPixel src buf o s).length = buf.length := by
  simp [widenPixel]

/-- A widening step leaves every byte outside its four-byte window alone. -/
theorem widenPixel_frame (src buf : List Byte) (o s i : Nat) (hout : i < o ∨ o + 4 ≤ i) :
    (widenPixel src buf o s)[i]? = buf[i]? := by
  simp only [widenPixel]
  rw [List.getElem?_set_ne (by omega), List.getElem?_set_ne (by omega),
    List.getElem?_set_ne (by omega), List.getElem?_set_ne (by omega),
    List.getElem?_set_ne (by omega)]

/-- A widening step inside the buffer copies three source bytes. -/
theorem widenPixel_rgb (src buf : List Byte) (o s j : Nat) (hin : o + 3 < buf.length)
    (hj : j < 3) : (widenPixel src buf o s)[o + j]? = some (src.getD (s + j) 0) := by
  simp only [widenPixel]
  have h3 : j = 0 ∨ j = 1 ∨ j = 2 := by omega
  rcases h3 with rfl | rfl | rfl
  · simp only [Nat.add_zero]
    rw [List.getElem?_set_ne (by omega), List.getElem?_set_ne (by omega),
      List.getElem?_set_ne (by omega), List.getElem?_set_ne (by omega),
      List.getElem?_set_self (by omega)]
  · rw [List.getElem?_set_ne (by omega), List.getElem?_set_ne (by omega),
      List.getElem?_set_ne (by omega), List.getElem?_set_self (by simp; omega)]
  · rw [List.getElem?_set_ne (by omega), List.getElem?_set_ne (by omega),
      List.getElem?_set_self (by simp; omega)]

/-- A widening step inside the buffer ends with a zero fourth byte. -/
theorem widenPixel_alpha (src buf : List Byte) (o s : Nat) (hin : o + 3 < buf.length) :
    (widenPixel src buf o s)[o + 3]? = some 0 := by
  simp only [widenPixel]
  rw [List.getElem?_set_self (by simp; omega)]

/-- A loop of steps none of which touches position `i` leaves position `i` alone. -/
theorem foldl_frame {α : Type} (step : List Byte → α → List Byte) (i : Nat) (xs : List α)
    (hmiss : ∀ y ∈ xs, ∀ b, (step b y)[i]? = b[i]?) (buf : List Byte) :
    (xs.foldl step buf)[i]? = buf[i]? := by
  induction xs generalizing buf with
  | nil => rfl
  | cons y rest ih =>
    rw [List.foldl_cons, ih (fun z hz => hmiss z (List.mem_cons_of_mem _ hz)),
      hmiss y (List.mem_cons_self _ _)]

theorem foldl_length {α : Type} (step : List Byte → α → List Byte) (xs : List α)
    (hlen : ∀ b y, (step b y).length = b.length) (buf : List Byte) :
    (xs.foldl step buf).length = buf.length := by
  induction xs generalizing buf with
  | nil => rfl
  | cons y rest ih => rw [List.foldl_cons, ih, hlen]

/-- In a loop of length-preserving steps, if the step of `x` sets position `i` to `v` and
the steps of the other elements leave position `i` alone, the loop sets position `i` to
`v`. -/
theorem foldl_effect {α : Type} (step : List Byte → α → List Byte) (i n : Nat) (v : Byte)
    (x : α) (xs : List α) (hx : x ∈ xs)
    (hlen : ∀ b y, (step b y).length = b.length)
    (hset : ∀ b, b.length = n → (step b x)[i]? = some v)
    (hmiss : ∀ y ∈ xs, y ≠ x → ∀ b, (step b y)[i]? = b[i]?)
    (buf : List Byte) (hbuf : buf.length = n) :
    (xs.foldl step buf)[i]? = some v := by
  induction xs using List.reverseRecOn with
  | nil => simp at hx
  | append_singleton ys y ih =>
    rw [List.foldl_append, List.foldl_cons, List.foldl_nil]
    by_cases hy : y = x
    · subst hy
      exact hset _ (by rw [foldl_length step ys hlen, hbuf])
    · rw [hmiss y (by simp) hy]
      have hxys : x ∈ ys := by
        rcases List.mem_append.mp hx with h | h
        · exact h
        · simp at h; exact absurd h.symm hy
      exact ih hxys (fun z hz => hmiss z (List.mem_append_left _ hz))

theorem widenRow_length (src : List Byte) (pitch new_pitch Width : Nat) (data : List Byte)
    (row : Nat) : (widenRow src pitch new_pitch Width data row).length = data.length :=
  foldl_length _ _ (fun b _ => widenPixel_length src b _ _) data

/-- The loop over the columns of a row leaves every byte outside the `4 * Width` bytes of
the widened row alone. -/
theorem widenRow_frame (src : List Byte) (pitch new_pitch Width : Nat) (data : List Byte)
    (row i : Nat) (hout : i < row * new_pitch ∨ row * new_pitch + 4 * Width ≤ i) :
    (widenRow src pitch new_pitch Width data row)[i]? = data[i]? := by
  apply foldl_frame
  intro col hcol b
  have hlt : col < Width := List.mem_range.mp hcol
  exact widenPixel_frame src b _ _ i (by omega)

/-- What the step of pixel `(row, col)` puts in its window stays there to the end of the
loop over the columns of the row. -/
theorem widenRow_at (src : List Byte) (pitch new_pitch Width : Nat) (data : List Byte)
    (row col i : Nat) (v : Byte) (hcol : col < Width)
    (hwin : row * new_pitch + 4 * col ≤ i ∧ i < row * new_pitch + 4 * col + 4)
    (hpix : ∀ b : List Byte, b.length = data.length →
      (widenPixel src b (row * new_pitch + 4 * col) (row * pitch + 3 * col))[i]? = some v) :
    (widenRow src pitch new_pitch Width data row)[i]? = some v := by
  apply foldl_effect
    (fun buf c => widenPixel src buf (row * new_pitch + 4 * c) (row * pitch + 3 * c))
    i data.length v col (List.range Width) (List.mem_range.mpr hcol)
    (fun b _ => widenPixel_length src b _ _) hpix _ data rfl
  intro y _ hne b
  exact widenPixel_frame src b _ _ i (by omega)

/-- What the step of pixel `(row, col)` puts in its window stays there to the end of the
loop over the rows, when a widened row fits in the new pitch. -/
theorem widenRows_at (src : List Byte) (pitch new_pitch Width Height : Nat) (data : List Byte)
    (row col i : Nat) (v : Byte) (hrow : row < Height) (hcol : col < Width)
    (hfit : 4 * Width ≤ new_pitch)
    (hwin : row * new_pitch + 4 * col ≤ i ∧ i < row * new_pitch + 4 * col + 4)
    (hpix : ∀ b : List Byte, b.length = data.length →
      (widenPixel src b (row * new_pitch + 4 * col) (row * pitch + 3 * col))[i]? = some v) :
    ((List.range Height).foldl (widenRow src pitch new_pitch Width) data)[i]? = some v := by
  apply foldl_effect (widenRow src pitch new_pitch Width)
    i data.length v row (List.range Height) (List.mem_range.mpr hrow)
    (fun b y => widenRow_length src pitch new_pitch Width b y) _ _ data rfl
  · intro b hb
    exact widenRow_at src pitch new_pitch Width b row col i v hcol hwin
      (fun b' hb' => hpix b' (hb'.trans hb))
  · intro y _ hne b
    apply widenRow_frame
    rcases Nat.lt_or_gt_of_ne hne with hlt | hgt
    · right
      have h := Nat.mul_le_mul_right new_pitch (Nat.succ_le_of_lt hlt)
      rw [Nat.succ_mul] at h
      omega
    · left
      have h := Nat.mul_le_mul_right new_pitch (Nat.succ_le_of_lt hgt)
      rw [Nat.succ_mul] at h
      omega

/-- The bytes of pixel `(row, col)` in a widened image whose source pitch holds a row. -/
theorem widenImage_pixel (image : Image) (fresh : Nat → Byte)
    (hpitch : 3 * image.Width ≤ image.pitch) (row col : Nat)
    (hrow : row < image.Height) (hcol : col < image.Width) :
    (∀ j, j < 3 →
      (widenImage image fresh).data[row * (widenImage image fresh).pitch + 4 * col + j]?
        = some (image.data.getD (row * image.pitch + 3 * col + j) 0)) ∧
    (widenImage image fresh).data[row * (widenImage image fresh).pitch + 4 * col + 3]?
      = some 0 := by
  have hfit : 4 * image.Width ≤ image.pitch / 3 * 4 := by
    have : image.Width ≤ image.pitch / 3 :=
      (Nat.le_div_iff_mul_le (by decide)).mpr (by omega)
    omega
  have hrows : (row + 1) * (image.pitch / 3 * 4) ≤ image.pitch / 3 * 4 * image.Height := by
    rw [Nat.mul_comm (image.pitch / 3 * 4) image.Height]
    exact Nat.mul_le_mul_right _ (Nat.succ_le_of_lt hrow)
  rw [Nat.succ_mul] at hrows
  have hlen : ∀ b : List Byte,
      b.length = ((List.range (image.pitch / 3 * 4 * image.Height)).map fresh).length →
      row * (image.pitch / 3 * 4) + 4 * col + 3 < b.length := by
    intro b hb
    rw [hb, List.length_map, List.length_range]
    omega
  refine ⟨fun j hj => ?_, ?_⟩
  · simp only [widenImage]
    exact widenRows_at image.data image.pitch _ image.Width image.Height _ row col _ _
      hrow hcol hfit (by omega)
      (fun b hb => widenPixel_rgb image.data b _ _ j (hlen b hb) hj)
  · simp only [widenImage]
    exact widenRows_at image.data image.pitch _ image.Width image.Height _ row col _ _
      hrow hcol hfit (by omega)
      (fun b hb => widenPixel_alpha image.data b _ _ (hlen b hb))

/-- The texture and the command list after a successful `CreateTextureBuffer` of an
unregistered name: a 24-bit image is replaced by its widening, and the upload of the image
data with its pitch and slice pitch is recorded, followed by the transition barrier. -/
theorem CreateTextureBuffer_upload_of_new (k : Constants) (m : D3d12GraphicsManager)
    (texture : SceneObjectTexture) (a : TextureAnswers)
    (hnone : TextureIndex.find m.m_TextureIndex texture.name = none)
    (hgpu : FAILED a.gpu = false) (hupload : FAILED a.upload = false) :
    (CreateTextureBuffer k m texture a).2.2.image
      = (if texture.image.bitcount = 24 then widenImage texture.image a.fresh
          else texture.image) ∧
    (CreateTextureBuffer k m texture a).2.1.m_pCommandList
      = m.m_pCommandList ++
        [Cmd.UpdateSubresources (m.m_pDev.resources.length + 1) (m.m_pDev.resources.length + 2)
           (Payload.bytes (CreateTextureBuffer k m texture a).2.2.image.data)
           (CreateTextureBuffer k m texture a).2.2.image.pitch
           ((CreateTextureBuffer k m texture a).2.2.image.pitch
              * (CreateTextureBuffer k m texture a).2.2.image.Height),
         Cmd.ResourceBarrier (m.m_pDev.resources.length + 1) ResourceState.COPY_DEST
           ResourceState.GENERIC_READ] := by
  constructor
  · simp [CreateTextureBuffer, hnone, Device.CreateCommittedResource, hgpu, hupload]
  · by_cases h24 : texture.image.bitcount = 24 <;>
      simp [CreateTextureBuffer, hnone, Device.CreateCommittedResource, hgpu, hupload, h24,
        widenImage]

/-- C3: when `CreateTextureBuffer` widens a 24-bit image whose pitch holds a row
(`3 * Width ≤ pitch`), then for every row and column of the image the three bytes at
offset `row * newPitch + 4 * col + j` (`j < 3`) of the new buffer are the source bytes at
offset `row * pitch + 3 * col + j`, and the byte at offset `row * newPitch + 4 * col + 3`
is 0. -/
theorem CreateTextureBuffer_widened_pixels (k : Constants) (m : D3d12GraphicsManager)
    (texture : SceneObjectTexture) (a : TextureAnswers)
    (hnone : TextureIndex.find m.m_TextureIndex texture.name = none)
    (hgpu : FAILED a.gpu = false) (hupload : FAILED a.upload = false)
    (h24 : texture.image.bitcount = 24)
    (hpitch : 3 * texture.image.Width ≤ texture.image.pitch) (row col : Nat)
    (hrow : row < texture.image.Height) (hcol : col < texture.image.Width) :
    (∀ j, j < 3 →
      (CreateTextureBuffer k m texture a).2.2.image.data[
          row * (CreateTextureBuffer k m texture a).2.2.image.pitch + 4 * col + j]?
        = some (texture.image.data.getD (row * texture.image.pitch + 3 * col + j) 0)) ∧
    (CreateTextureBuffer k m texture a).2.2.image.data[
        row * (CreateTextureBuffer k m texture a).2.2.image.pitch + 4 * col + 3]? = some 0 := by
  rw [(CreateTextureBuffer_upload_of_new k m texture a hnone hgpu hupload).1, if_pos h24]
  exact widenImage_pixel texture.image a.fresh hpitch row col hrow hcol

/-- Witness of C3: the pixel of row 1, column 1 of the 2 x 2 sample image. -/
theorem CreateTextureBuffer_widened_pixels_witness :
    (∀ j, j < 3 →
      (CreateTextureBuffer sampleConstants D3d12GraphicsManager.empty ⟨"a", sampleImage⟩
          sampleTextureAnswers).2.2.image.data[
          1 * (CreateTextureBuffer sampleConstants D3d12GraphicsManager.empty ⟨"a", sampleImage⟩
            sampleTextureAnswers).2.2.image.pitch + 4 * 1 + j]?
        = some (sampleImage.data.getD (1 * sampleImage.pitch + 3 * 1 + j) 0)) ∧
    (CreateTextureBuffer sampleConstants D3d12GraphicsManager.empty ⟨"a", sampleImage⟩
        sampleTextureAnswers).2.2.image.data[
        1 * (CreateTextureBuffer sampleConstants D3d12GraphicsManager.empty ⟨"a", sampleImage⟩
          sampleTextureAnswers).2.2.image.pitch + 4 * 1 + 3]? = some 0 :=
  CreateTextureBuffer_widened_pixels sampleConstants D3d12GraphicsManager.empty
    ⟨"a", sampleImage⟩ sampleTextureAnswers rfl rfl rfl rfl (by decide) 1 1 (by decide)
    (by decide)

/-- Counterexample to C4: a 24-bit image of 3 x 1 pixels whose rows are padded to 12 bytes
(`12 ≥ 3 * 3`) is widened to pitch 16 and size 16, not to `3 * 4 = 12` and `3 * 4 * 1 = 12`,
and 16 and 16 are the pitches handed to the upload. -/
theorem CreateTextureBuffer_padded_pitch_counterexample :
    samplePaddedImage.bitcount = 24 ∧
    3 * samplePaddedImage.Width ≤ samplePaddedImage.pitch ∧
    (CreateTextureBuffer sampleConstants D3d12GraphicsManager.empty ⟨"a", samplePaddedImage⟩
      sampleTextureAnswers).2.2.image.pitch = 16 ∧
    (CreateTextureBuffer sampleConstants D3d12GraphicsManager.empty ⟨"a", samplePaddedImage⟩
      sampleTextureAnswers).2.2.image.data_size = 16 ∧
    (CreateTextureBuffer sampleConstants D3d12GraphicsManager.empty ⟨"a", samplePaddedImage⟩
      sampleTextureAnswers).2.1.m_pCommandList.head?
      = some (Cmd.UpdateSubresources 1 2
          (Payload.bytes [1, 2, 3, 0, 4, 5, 6, 0, 7, 8, 9, 0, 255, 255, 255, 255]) 16 16) ∧
    (CreateTextureBuffer sampleConstants D3d12GraphicsManager.empty ⟨"a", samplePaddedImage⟩
      sampleTextureAnswers).2.2.image.pitch ≠ samplePaddedImage.Width * 4 ∧
    (CreateTextureBuffer sampleConstants D3d12GraphicsManager.empty ⟨"a", samplePaddedImage⟩
      sampleTextureAnswers).2.2.image.data_size
      ≠ samplePaddedImage.Width * 4 * samplePaddedImage.Height := by
  decide

/-- C4, amended: when `CreateTextureBuffer` widens a 24-bit image of pitch `p` and height
`H`, the new pitch is `p / 3 * 4` (integer division) and the new data size is
`p / 3 * 4 * H`, and these are the row pitch and the slice pitch handed to the upload.
They are `Width * 4` and `Width * 4 * H` when `p / 3 = Width`, that is when
`3 * Width ≤ p < 3 * Width + 3`, in particular for rows without padding. -/
theorem CreateTextureBuffer_widened_pitch (k : Constants) (m : D3d12GraphicsManager)
    (texture : SceneObjectTexture) (a : TextureAnswers)
    (hnone : TextureIndex.find m.m_TextureIndex texture.name = none)
    (hgpu : FAILED a.gpu = false) (hupload : FAILED a.upload = false)
    (h24 : texture.image.bitcount = 24) :
    (CreateTextureBuffer k m texture a).2.2.image.pitch = texture.image.pitch / 3 * 4 ∧
    (CreateTextureBuffer k m texture a).2.2.image.data_size
      = texture.image.pitch / 3 * 4 * texture.image.Height ∧
    (∃ dst upload data,
      (CreateTextureBuffer k m texture a).2.1.m_pCommandList
        = m.m_pCommandList ++
          [Cmd.UpdateSubresources dst upload data (texture.image.pitch / 3 * 4)
             (texture.image.pitch / 3 * 4 * texture.image.Height),
           Cmd.ResourceBarrier dst ResourceState.COPY_DEST ResourceState.GENERIC_READ]) ∧
    (3 * texture.image.Width ≤ texture.image.pitch →
      texture.image.pitch < 3 * texture.image.Width + 3 →
      texture.image.pitch / 3 * 4 = texture.image.Width * 4 ∧
      texture.image.pitch / 3 * 4 * texture.image.Height
        = texture.image.Width * 4 * texture.image.Height) := by
  obtain ⟨himage, hcmds⟩ := CreateTextureBuffer_upload_of_new k m texture a hnone hgpu hupload
  rw [himage, if_pos h24] at hcmds
  rw [himage, if_pos h24]
  refine ⟨rfl, rfl, ⟨_, _, _, hcmds⟩, ?_⟩
  intro hlo hhi
  have hdiv : texture.image.pitch / 3 = texture.image.Width := by omega
  rw [hdiv]
  exact ⟨rfl, rfl⟩

/-- Witness of amended C4: the 2 x 2 sample image, of pitch 6, gets pitch 8 and size 16. -/
theorem CreateTextureBuffer_widened_pitch_witness :
    (CreateTextureBuffer sampleConstants D3d12GraphicsManager.empty ⟨"a", sampleImage⟩
      sampleTextureAnswers).2.2.image.pitch = 8 ∧
    (CreateTextureBuffer sampleConstants D3d12GraphicsManager.empty ⟨"a", sampleImage⟩
      sampleTextureAnswers).2.2.image.data_size = 16 :=
  ⟨(CreateTextureBuffer_widened_pitch sampleConstants D3d12GraphicsManager.empty
      ⟨"a", sampleImage⟩ sampleTextureAnswers rfl rfl rfl rfl).1,
   (CreateTextureBuffer_widened_pitch sampleConstants D3d12GraphicsManager.empty
      ⟨"a", sampleImage⟩ sampleTextureAnswers rfl rfl rfl rfl).2.1⟩

/-! ## Draw-batch ranges -/

theorem CreateVertexBuffer_batches (k : Constants) (m : D3d12GraphicsManager)
    (vertex_array : List VertexBasicAttribs) (a : BufferAnswers) :
    (CreateVertexBuffer k m vertex_array a).2.m_DrawBatchContext = m.m_DrawBatchContext := by
  simp only [CreateVertexBuffer, Device.CreateCommittedResource]
  by_cases h1 : FAILED a.gpu = true <;> by_cases h2 : FAILED a.upload = true <;> simp [h1, h2]

theorem CreateIndexBuffer_batches (m : D3d12GraphicsManager) (index_array : List Nat)
    (a : BufferAnswers) :
    (CreateIndexBuffer m index_array a).2.m_DrawBatchContext = m.m_DrawBatchContext := by
  simp only [CreateIndexBuffer, Device.CreateCommittedResource]
  by_cases h1 : FAILED a.gpu = true <;> by_cases h2 : FAILED a.upload = true <;> simp [h1, h2]

/-- The loop over the primitives of a mesh adds no batch and returns the running counts
increased, modulo `2^32`, by the totals of the primitives. -/
theorem createPrimitiveBuffers_counts (k : Constants) (prims : List SceneObjectPrimitive)
    (m : D3d12GraphicsManager) (IndexCount vertexCount : Nat) (script : List BufferAnswers)
    (hi : IndexCount < 2 ^ 32) (hv : vertexCount < 2 ^ 32) :
    (createPrimitiveBuffers k m IndexCount vertexCount script prims).1.m_DrawBatchContext
      = m.m_DrawBatchContext ∧
    (createPrimitiveBuffers k m IndexCount vertexCount script prims).2.1
      = UINT32 (IndexCount + (prims.map fun p => p.indexCount).sum) ∧
    (createPrimitiveBuffers k m IndexCount vertexCount script prims).2.2.1
      = UINT32 (vertexCount + (prims.map fun p => p.vertexCount).sum) := by
  induction prims generalizing m IndexCount vertexCount script with
  | nil =>
    simp only [createPrimitiveBuffers, List.map_nil, List.sum_nil, Nat.add_zero, UINT32]
    exact ⟨trivial, (Nat.mod_eq_of_lt hi).symm, (Nat.mod_eq_of_lt hv).symm⟩
  | cons p rest ih =>
    simp only [createPrimitiveBuffers, nextAnswers, List.map_cons, List.sum_cons]
    obtain ⟨h1, h2, h3⟩ := ih
      (CreateIndexBuffer (CreateVertexBuffer k m p.vertexData
        (script.headD { gpu := S_OK, upload := S_OK })).2 p.indexData
        (script.tail.headD { gpu := S_OK, upload := S_OK })).2
      (UINT32 (IndexCount + UINT32 p.indexCount)) (UINT32 (vertexCount + UINT32 p.vertexCount))
      script.tail.tail (Nat.mod_lt _ (by decide)) (Nat.mod_lt _ (by decide))
    refine ⟨?_, ?_, ?_⟩
    · rw [h1, CreateIndexBuffer_batches, CreateVertexBuffer_batches]
    · rw [h2]; simp only [UINT32]; omega
    · rw [h3]; simp only [UINT32]; omega

/-- The draw-batch loop appends to the batch list the chained batches of the live nodes. -/
theorem buildDrawBatches_eq (k : Constants) (scene : Scene)
    (nodes : List (String × Option SceneGeometryNode)) (m : D3d12GraphicsManager)
    (startIndex startVertex : Nat) (script : List BufferAnswers) :
    (buildDrawBatches k scene m startIndex startVertex script nodes).1.m_DrawBatchContext
      = m.m_DrawBatchContext
        ++ chainedBatches scene startIndex startVertex (nodes.filterMap fun n => n.2) := by
  induction nodes generalizing m startIndex startVertex script with
  | nil => simp [buildDrawBatches, chainedBatches]
  | cons n rest ih =>
    obtain ⟨name, node⟩ := n
    cases node with
    | none => simp only [buildDrawBatches, List.filterMap_cons_none, ih]
    | some pGeometryNode =>
      obtain ⟨h1, h2, h3⟩ := createPrimitiveBuffers_counts k pGeometryNode.pMesh.primitives m
        0 0 script (by decide) (by decide)
      simp only [Nat.zero_add] at h2 h3
      simp only [buildDrawBatches, List.filterMap_cons_some, ih, chainedBatches, h1, h2, h3,
        indexTotal, vertexTotal, batchMaterial, List.append_assoc, List.singleton_append]

theorem chainedBatches_nodes (scene : Scene) (nodes : List SceneGeometryNode)
    (startIndex startVertex : Nat) :
    (chainedBatches scene startIndex startVertex nodes).map (fun b => b.node) = nodes := by
  induction nodes generalizing startIndex startVertex with
  | nil => rfl
  | cons n rest ih => simp [chainedBatches, ih]

theorem chainedBatches_counts (scene : Scene) (nodes : List SceneGeometryNode)
    (startIndex startVertex : Nat) (b : DrawBatchContext)
    (hb : b ∈ chainedBatches scene startIndex startVertex nodes) :
    b.IndexCount = indexTotal b.node.pMesh := by
  induction nodes generalizing startIndex startVertex with
  | nil => simp [chainedBatches] at hb
  | cons n rest ih =>
    simp only [chainedBatches, List.mem_cons] at hb
    rcases hb with rfl | hb
    · rfl
    · exact ih _ _ hb

theorem chainedBatches_head (scene : Scene) (nodes : List SceneGeometryNode)
    (startIndex startVertex : Nat) (b : DrawBatchContext)
    (hb : (chainedBatches scene startIndex startVertex nodes)[0]? = some b) :
    b.StartIndexLocation = startIndex ∧ b.BaseVertexLocation = startVertex := by
  cases nodes with
  | nil => simp [chainedBatches] at hb
  | cons n rest =>
    simp only [chainedBatches, List.getElem?_cons_zero, Option.some.injEq] at hb
    subst hb
    exact ⟨rfl, rfl⟩

theorem chainedBatches_step (scene : Scene) (nodes : List SceneGeometryNode)
    (startIndex startVertex i : Nat) (b b' : DrawBatchContext)
    (hb : (chainedBatches scene startIndex startVertex nodes)[i]? = some b)
    (hb' : (chainedBatches scene startIndex startVertex nodes)[i + 1]? = some b') :
    b'.StartIndexLocation = UINT32 (b.StartIndexLocation + b.IndexCount) ∧
    b'.BaseVertexLocation = UINT32 (b.BaseVertexLocation + vertexTotal b.node.pMesh) := by
  induction nodes generalizing startIndex startVertex i with
  | nil => simp [chainedBatches] at hb
  | cons n rest ih =>
    simp only [chainedBatches, List.getElem?_cons_succ] at hb'
    cases i with
    | zero =>
      simp only [chainedBatches, List.getElem?_cons_zero, Option.some.injEq] at hb
      subst hb
      exact chainedBatches_head scene rest _ _ b' hb'
    | succ j =>
      simp only [chainedBatches, List.getElem?_cons_succ] at hb
      exact ih _ _ j hb hb'

/-- C5: after the draw-batch loop of `InitializeBuffers`, started with an empty batch list,
there is one batch per live geometry node, in scene order (expired nodes give none); the
first batch has `StartIndexLocation = 0` and `BaseVertexLocation = 0`; `IndexCount` of a
batch is the `uint32_t` total of the index counts of its primitives; and each next batch
starts at the `StartIndexLocation + IndexCount` of the previous one, and at its
`BaseVertexLocation` plus the total of the vertex counts of its primitives (in `uint32_t`
arithmetic). -/
theorem initializeDrawBatches_ranges (k : Constants) (scene : Scene)
    (m : D3d12GraphicsManager) (script : List BufferAnswers)
    (hempty : m.m_DrawBatchContext = []) :
    (initializeDrawBatches k scene m script).m_DrawBatchContext.map (fun b => b.node)
      = scene.GeometryNodes.filterMap (fun n => n.2) ∧
    (∀ b, (initializeDrawBatches k scene m script).m_DrawBatchContext[0]? = some b →
      b.StartIndexLocation = 0 ∧ b.BaseVertexLocation = 0) ∧
    (∀ b ∈ (initializeDrawBatches k scene m script).m_DrawBatchContext,
      b.IndexCount = UINT32 ((b.node.pMesh.primitives.map fun p => p.indexCount).sum)) ∧
    (∀ i b b', (initializeDrawBatches k scene m script).m_DrawBatchContext[i]? = some b →
      (initializeDrawBatches k scene m script).m_DrawBatchContext[i + 1]? = some b' →
      b'.StartIndexLocation = UINT32 (b.StartIndexLocation + b.IndexCount) ∧
      b'.BaseVertexLocation = UINT32 (b.BaseVertexLocation
        + UINT32 ((b.node.pMesh.primitives.map fun p => p.vertexCount).sum))) := by
  have heq : (initializeDrawBatches k scene m script).m_DrawBatchContext
      = chainedBatches scene 0 0 (scene.GeometryNodes.filterMap fun n => n.2) := by
    rw [initializeDrawBatches, buildDrawBatches_eq, hempty, List.nil_append]
  rw [heq]
  exact ⟨chainedBatches_nodes scene _ 0 0,
    fun b hb => chainedBatches_head scene _ 0 0 b hb,
    fun b hb => chainedBatches_counts scene _ 0 0 b hb,
    fun i b b' hb hb' => chainedBatches_step scene _ 0 0 i b b' hb hb'⟩

/-- Witness of C5: two live nodes with one primitive of 6 indices and 4 vertices each give
the batches `(0, 0)` and `(6, 4)`. -/
theorem initializeDrawBatches_ranges_witness :
    (initializeDrawBatches sampleConstants sampleScene D3d12GraphicsManager.empty
        []).m_DrawBatchContext.map (fun b => (b.StartIndexLocation, b.BaseVertexLocation))
      = [(0, 0), (6, 4)] ∧
    (initializeDrawBatches sampleConstants sampleScene D3d12GraphicsManager.empty
        []).m_DrawBatchContext.map (fun b => b.node)
      = sampleScene.GeometryNodes.filterMap (fun n => n.2) :=
  ⟨by decide,
   (initializeDrawBatches_ranges sampleConstants sampleScene D3d12GraphicsManager.empty []
      rfl).1⟩

/-! ## Layout of the constant buffer -/

/-- The per-frame block of a frame lies in the stride of that frame. -/
theorem perFrameRange_in_stride (k : Constants) (f : Nat) :
    f * k.kSizeConstantBufferPerFrame ≤ (perFrameRange k f).1 ∧
    (perFrameRange k f).1 + (perFrameRange k f).2
      ≤ f * k.kSizeConstantBufferPerFrame + k.kSizePerFrameConstantBuffer := by
  simp only [perFrameRange, perFrameOffset]
  omega

/-- The per-batch block of a batch below `kMaxSceneObjectCount` lies in the stride of its
frame, after the per-frame block. -/
theorem perBatchRange_in_stride (k : Constants) (f b : Nat) (hb : b < k.kMaxSceneObjectCount) :
    f * k.kSizeConstantBufferPerFrame + k.kSizePerFrameConstantBuffer
        + b * k.kSizePerBatchConstantBuffer = (perBatchRange k f b).1 ∧
    (perBatchRange k f b).1 + (perBatchRange k f b).2
      ≤ f * k.kSizeConstantBufferPerFrame + k.kSizeConstantBufferPerFrame := by
  have h := Nat.mul_le_mul_right k.kSizePerBatchConstantBuffer (Nat.succ_le_of_lt hb)
  rw [Nat.succ_mul] at h
  refine ⟨rfl, ?_⟩
  show f * k.kSizeConstantBufferPerFrame + k.kSizePerFrameConstantBuffer
      + b * k.kSizePerBatchConstantBuffer + k.kSizePerBatchConstantBuffer
    ≤ f * k.kSizeConstantBufferPerFrame + k.kSizeConstantBufferPerFrame
  have hs : k.kSizeConstantBufferPerFrame = k.kSizePerFrameConstantBuffer
      + k.kMaxSceneObjectCount * k.kSizePerBatchConstantBuffer := rfl
  omega

/-- The stride of a frame ends where the stride of any later frame starts. -/
theorem stride_le_of_lt (k : Constants) (f f' : Nat) (h : f < f') :
    f * k.kSizeConstantBufferPerFrame + k.kSizeConstantBufferPerFrame
      ≤ f' * k.kSizeConstantBufferPerFrame := by
  have := Nat.mul_le_mul_right k.kSizeConstantBufferPerFrame (Nat.succ_le_of_lt h)
  rwa [Nat.succ_mul] at this

/-- C6: the constant upload buffer that `CreateConstantBuffer` creates has exactly
`kFrameCount * (perFrameSize + kMaxSceneObjectCount * perBatchSize)` bytes;
`SetPerFrameShaderParameters` writes at offset `frame * stride` and
`SetPerBatchShaderParameters(b)` at offset `frame * stride + perFrameSize + b * perBatchSize`;
and the blocks at these offsets, of length `perFrameSize` and `perBatchSize`, for frames
below `kFrameCount` and batches below `kMaxSceneObjectCount`, lie inside the buffer and are
pairwise disjoint. -/
theorem constantBuffer_layout (k : Constants) :
    (∀ (m : D3d12GraphicsManager) (create map : HRESULT), FAILED create = false →
      (CreateConstantBuffer k m create map).2.m_pDev.resources.getLast?.map (fun r => r.Width)
        = some (k.kFrameCount * (k.kSizePerFrameConstantBuffer
            + k.kMaxSceneObjectCount * k.kSizePerBatchConstantBuffer))) ∧
    (∀ m : D3d12GraphicsManager,
      (SetPerFrameShaderParameters k m).2.m_pCbvDataBegin.getLast?.map (fun w => w.offset)
        = some (perFrameRange k m.m_nFrameIndex).1) ∧
    (∀ (m : D3d12GraphicsManager) (b : Nat), b < m.m_DrawBatchContext.length →
      (SetPerBatchShaderParameters k m b).2.m_pCbvDataBegin.getLast?.map (fun w => w.offset)
        = some (perBatchRange k m.m_nFrameIndex b).1) ∧
    (∀ f, f < k.kFrameCount →
      (perFrameRange k f).1 + (perFrameRange k f).2
        ≤ k.kFrameCount * k.kSizeConstantBufferPerFrame) ∧
    (∀ f b, f < k.kFrameCount → b < k.kMaxSceneObjectCount →
      (perBatchRange k f b).1 + (perBatchRange k f b).2
        ≤ k.kFrameCount * k.kSizeConstantBufferPerFrame) ∧
    (∀ f f', f ≠ f' → rangesDisjoint (perFrameRange k f) (perFrameRange k f')) ∧
    (∀ f f' b, b < k.kMaxSceneObjectCount →
      rangesDisjoint (perFrameRange k f) (perBatchRange k f' b)) ∧
    (∀ f b f' b', b < k.kMaxSceneObjectCount → b' < k.kMaxSceneObjectCount →
      (f, b) ≠ (f', b') → rangesDisjoint (perBatchRange k f b) (perBatchRange k f' b')) := by
  refine ⟨?_, ?_, ?_, ?_, ?_, ?_, ?_, ?_⟩
  · intro m create map hcreate
    simp [CreateConstantBuffer, Device.CreateCommittedResource, hcreate,
      Constants.kSizeConstantBufferPerFrame, Nat.mul_comm]
  · intro m
    simp [SetPerFrameShaderParameters, perFrameRange]
  · intro m b hb
    obtain ⟨dbc, hdbc⟩ : ∃ dbc, m.m_DrawBatchContext[b]? = some dbc :=
      ⟨_, List.getElem?_eq_getElem hb⟩
    simp [SetPerBatchShaderParameters, hdbc, perBatchRange]
  · intro f hf
    have h1 := perFrameRange_in_stride k f
    have h2 := Nat.mul_le_mul_right k.kSizeConstantBufferPerFrame (Nat.succ_le_of_lt hf)
    rw [Nat.succ_mul] at h2
    have h3 : k.kSizePerFrameConstantBuffer ≤ k.kSizeConstantBufferPerFrame := by
      simp only [Constants.kSizeConstantBufferPerFrame]; omega
    omega
  · intro f b hf hb
    have h1 := perBatchRange_in_stride k f b hb
    have h2 := Nat.mul_le_mul_right k.kSizeConstantBufferPerFrame (Nat.succ_le_of_lt hf)
    rw [Nat.succ_mul] at h2
    omega
  · intro f f' hne
    have h1 := perFrameRange_in_stride k f
    have h2 := perFrameRange_in_stride k f'
    have h3 : k.kSizePerFrameConstantBuffer ≤ k.kSizeConstantBufferPerFrame := by
      simp only [Constants.kSizeConstantBufferPerFrame]; omega
    simp only [rangesDisjoint]
    rcases Nat.lt_or_gt_of_ne hne with h | h
    · have := stride_le_of_lt k f f' h
      omega
    · have := stride_le_of_lt k f' f h
      omega
  · intro f f' b hb
    have h1 := perFrameRange_in_stride k f
    have h2 := perBatchRange_in_stride k f' b hb
    have h3 : k.kSizePerFrameConstantBuffer ≤ k.kSizeConstantBufferPerFrame := by
      simp only [Constants.kSizeConstantBufferPerFrame]; omega
    simp only [rangesDisjoint]
    rcases Nat.lt_trichotomy f f' with h | h | h
    · have := stride_le_of_lt k f f' h
      omega
    · subst h
      omega
    · have := stride_le_of_lt k f' f h
      omega
  · intro f b f' b' hb hb' hne
    have h1 := perBatchRange_in_stride k f b hb
    have h2 := perBatchRange_in_stride k f' b' hb'
    simp only [rangesDisjoint]
    rcases Nat.lt_trichotomy f f' with h | h | h
    · have := stride_le_of_lt k f f' h
      omega
    · subst h
      have hbb : b ≠ b' := fun h => hne (by rw [h])
      have h3 : (perBatchRange k f b).2 = k.kSizePerBatchConstantBuffer := rfl
      have h4 : (perBatchRange k f b').2 = k.kSizePerBatchConstantBuffer := rfl
      rcases Nat.lt_or_gt_of_ne hbb with h | h
      · have := Nat.mul_le_mul_right k.kSizePerBatchConstantBuffer (Nat.succ_le_of_lt h)
        rw [Nat.succ_mul] at this
        omega
      · have := Nat.mul_le_mul_right k.kSizePerBatchConstantBuffer (Nat.succ_le_of_lt h)
        rw [Nat.succ_mul] at this
        omega
    · have := stride_le_of_lt k f' f h
      omega

/-- Witness of C6: with the sample constants the buffer has `2 * (256 + 4 * 256)` bytes, the
block of batch 3 of frame 1 ends inside it, and the blocks of batch 3 of frame 0 and of
frame 1 do not overlap. -/
theorem constantBuffer_layout_witness :
    (CreateConstantBuffer sampleConstants D3d12GraphicsManager.empty S_OK
        S_OK).2.m_pDev.resources.getLast?.map (fun r => r.Width)
      = some (sampleConstants.kFrameCount * (sampleConstants.kSizePerFrameConstantBuffer
          + sampleConstants.kMaxSceneObjectCount * sampleConstants.kSizePerBatchConstantBuffer)) ∧
    (perBatchRange sampleConstants 1 3).1 + (perBatchRange sampleConstants 1 3).2
      ≤ sampleConstants.kFrameCount * sampleConstants.kSizeConstantBufferPerFrame ∧
    rangesDisjoint (perFrameRange sampleConstants 0) (perBatchRange sampleConstants 1 3) :=
  ⟨(constantBuffer_layout sampleConstants).1 D3d12GraphicsManager.empty S_OK S_OK rfl,
   (constantBuffer_layout sampleConstants).2.2.2.2.1 1 3 (by decide) (by decide),
   (constantBuffer_layout sampleConstants).2.2.2.2.2.2.1 0 1 3 (by decide)⟩

/-! ## Frame synchronisation -/

/-- Counterexample to C7: the swap chain reports back buffer 1, the manager is at frame
index 0 and the queue `Signal` fails; `WaitForPreviousFrame` returns the failure with the
frame index still 0. -/
theorem WaitForPreviousFrame_stale_index_counterexample :
    (WaitForPreviousFrame { D3d12GraphicsManager.empty with m_pSwapChain := 1 }
        { signal := E_FAIL, completed := 0, setEvent := S_OK }).1 = E_FAIL ∧
    (WaitForPreviousFrame { D3d12GraphicsManager.empty with m_pSwapChain := 1 }
        { signal := E_FAIL, completed := 0, setEvent := S_OK }).2.m_nFrameIndex = 0 ∧
    (WaitForPreviousFrame { D3d12GraphicsManager.empty with m_pSwapChain := 1 }
        { signal := E_FAIL, completed := 0, setEvent := S_OK }).2.m_pSwapChain = 1 ∧
    (WaitForPreviousFrame { D3d12GraphicsManager.empty with m_pSwapChain := 1 }
        { signal := E_FAIL, completed := 0, setEvent := S_OK }).2.m_nFrameIndex
      ≠ (WaitForPreviousFrame { D3d12GraphicsManager.empty with m_pSwapChain := 1 }
        { signal := E_FAIL, completed := 0, setEvent := S_OK }).2.m_pSwapChain := by
  decide

/-- C7, amended: after a call to `WaitForPreviousFrame` that returns a success status, the
frame index of the manager is the back-buffer index the swap chain reports; a call that
returns a failure status (the `Signal` or the `SetEventOnCompletion` failed) leaves the
frame index as it was. -/
theorem WaitForPreviousFrame_frame_index (m : D3d12GraphicsManager) (a : FenceAnswers) :
    (FAILED (WaitForPreviousFrame m a).1 = false →
      (WaitForPreviousFrame m a).2.m_nFrameIndex = (WaitForPreviousFrame m a).2.m_pSwapChain) ∧
    (FAILED (WaitForPreviousFrame m a).1 = true →
      (WaitForPreviousFrame m a).2.m_nFrameIndex = m.m_nFrameIndex) := by
  unfold WaitForPreviousFrame
  by_cases hs : FAILED a.signal = true
  · simp [hs]
  · by_cases hc : a.completed < m.m_nFenceValue
    · by_cases he : FAILED a.setEvent = true
      · simp [hs, hc, he]
      · simp [hs, hc, he]
    · simp [hs, hc]

/-- Witness of amended C7: a successful call refreshes the frame index from 0 to 1. -/
theorem WaitForPreviousFrame_frame_index_witness :
    (WaitForPreviousFrame { D3d12GraphicsManager.empty with m_pSwapChain := 1 }
        { signal := S_OK, completed := 0, setEvent := S_OK }).2.m_nFrameIndex
      = (WaitForPreviousFrame { D3d12GraphicsManager.empty with m_pSwapChain := 1 }
        { signal := S_OK, completed := 0, setEvent := S_OK }).2.m_pSwapChain :=
  (WaitForPreviousFrame_frame_index { D3d12GraphicsManager.empty with m_pSwapChain := 1 }
    { signal := S_OK, completed := 0, setEvent := S_OK }).1 (by decide)

theorem signalledValues_append (q : List QueueCall) (v : Nat) :
    signalledValues (q ++ [QueueCall.Signal v]) = signalledValues q ++ [v] := by
  induction q with
  | nil => rfl
  | cons c rest ih => cases c <;> simp [signalledValues, ih]

/-- One call of `WaitForPreviousFrame`: either the `Signal` fails and the state is
unchanged, or the fence value on entry is signalled and the counter is one more. -/
theorem WaitForPreviousFrame_step (m : D3d12GraphicsManager) (a : FenceAnswers) :
    (FAILED a.signal = true → (WaitForPreviousFrame m a).2 = m) ∧
    (FAILED a.signal = false →
      (WaitForPreviousFrame m a).2.m_pCommandQueue
        = m.m_pCommandQueue ++ [QueueCall.Signal m.m_nFenceValue] ∧
      (WaitForPreviousFrame m a).2.m_nFenceValue = m.m_nFenceValue + 1) := by
  unfold WaitForPreviousFrame
  by_cases hs : FAILED a.signal = true
  · simp [hs]
  · by_cases hc : a.completed < m.m_nFenceValue
    · by_cases he : FAILED a.setEvent = true <;> simp [hs, hc, he]
    · simp [hs, hc]

/-- Over a run of `WaitForPreviousFrame` calls the counter does not decrease, and the
values signalled during the run are strictly increasing, at least the counter at the
start and below the counter at the end. -/
theorem waitForPreviousFrames_signalled (answers : List FenceAnswers)
    (m : D3d12GraphicsManager) :
    m.m_nFenceValue ≤ (waitForPreviousFrames m answers).m_nFenceValue ∧
    ∃ vs : List Nat,
      signalledValues (waitForPreviousFrames m answers).m_pCommandQueue
        = signalledValues m.m_pCommandQueue ++ vs ∧
      vs.Pairwise (fun v w => v < w) ∧
      ∀ v ∈ vs, m.m_nFenceValue ≤ v ∧ v < (waitForPreviousFrames m answers).m_nFenceValue := by
  induction answers generalizing m with
  | nil => exact ⟨Nat.le_refl _, [], by simp [waitForPreviousFrames], List.Pairwise.nil, by simp⟩
  | cons a rest ih =>
    obtain ⟨hle, vs, hvs, hpair, hbound⟩ := ih (WaitForPreviousFrame m a).2
    obtain ⟨hfail, hsucc⟩ := WaitForPreviousFrame_step m a
    simp only [waitForPreviousFrames]
    by_cases hs : FAILED a.signal = true
    · rw [hfail hs] at hle hvs hbound ⊢
      exact ⟨hle, vs, hvs, hpair, hbound⟩
    · have hs' : FAILED a.signal = false := by simpa using hs
      obtain ⟨hq, hv⟩ := hsucc hs'
      rw [hv] at hle hbound
      rw [hq, signalledValues_append, List.append_assoc] at hvs
      refine ⟨by omega, [m.m_nFenceValue] ++ vs, hvs, ?_, ?_⟩
      · rw [List.singleton_append, List.pairwise_cons]
        exact ⟨fun w hw => by have := (hbound w hw).1; omega, hpair⟩
      · intro v hv'
        rw [List.singleton_append, List.mem_cons] at hv'
        rcases hv' with rfl | hv'
        · exact ⟨Nat.le_refl _, by omega⟩
        · have := hbound v hv'
          omega

/-- Counterexample to C8: with fence value 1 on entry the `Signal` succeeds and the
completed value 0 is less than 1, but `SetEventOnCompletion` fails: the call returns that
failure and has not blocked on the fence event. -/
theorem WaitForPreviousFrame_no_block_counterexample :
    FAILED S_OK = false ∧ (0 : Nat) < 1 ∧
    (WaitForPreviousFrame { D3d12GraphicsManager.empty with m_nFenceValue := 1 }
        { signal := S_OK, completed := 0, setEvent := E_FAIL }).1 = E_FAIL ∧
    (WaitForPreviousFrame { D3d12GraphicsManager.empty with m_nFenceValue := 1 }
        { signal := S_OK, completed := 0, setEvent := E_FAIL }).2.m_hFenceEvent = [] ∧
    ¬ ((WaitForPreviousFrame { D3d12GraphicsManager.empty with m_nFenceValue := 1 }
          { signal := S_OK, completed := 0, setEvent := E_FAIL }).2.m_hFenceEvent = [1]
        ↔ (0 : Nat) < 1) := by
  decide

/-- C8, amended: in a call of `WaitForPreviousFrame` with fence value `v` on entry whose
`Signal` succeeds, the value signalled is `v`, the counter on exit is `v + 1`, and the call
blocks on the fence event if and only if the completed value is less than `v` and
`SetEventOnCompletion` succeeds; if the `Signal` fails the counter stays `v`.  Over any
run of calls the counter never decreases and the signalled values are strictly
increasing. -/
theorem WaitForPreviousFrame_fence (m : D3d12GraphicsManager) (a : FenceAnswers)
    (answers : List FenceAnswers) :
    (FAILED a.signal = false →
      (WaitForPreviousFrame m a).2.m_pCommandQueue
        = m.m_pCommandQueue ++ [QueueCall.Signal m.m_nFenceValue] ∧
      (WaitForPreviousFrame m a).2.m_nFenceValue = m.m_nFenceValue + 1 ∧
      ((WaitForPreviousFrame m a).2.m_hFenceEvent = m.m_hFenceEvent ++ [m.m_nFenceValue]
        ↔ (a.completed < m.m_nFenceValue ∧ FAILED a.setEvent = false)) ∧
      ((WaitForPreviousFrame m a).2.m_hFenceEvent = m.m_hFenceEvent
        ↔ ¬ (a.completed < m.m_nFenceValue ∧ FAILED a.setEvent = false))) ∧
    (FAILED a.signal = true →
      (WaitForPreviousFrame m a).2.m_nFenceValue = m.m_nFenceValue ∧
      (WaitForPreviousFrame m a).2.m_pCommandQueue = m.m_pCommandQueue) ∧
    m.m_nFenceValue ≤ (waitForPreviousFrames m answers).m_nFenceValue ∧
    (∃ vs : List Nat,
      signalledValues (waitForPreviousFrames m answers).m_pCommandQueue
        = signalledValues m.m_pCommandQueue ++ vs ∧
      vs.Pairwise (fun v w => v < w)) := by
  obtain ⟨hfail, hsucc⟩ := WaitForPreviousFrame_step m a
  obtain ⟨hle, vs, hvs, hpair, _⟩ := waitForPreviousFrames_signalled answers m
  refine ⟨fun hs => ⟨(hsucc hs).1, (hsucc hs).2, ?_, ?_⟩,
    fun hs => by rw [hfail hs]; exact ⟨rfl, rfl⟩, hle, vs, hvs, hpair⟩
  · unfold WaitForPreviousFrame
    by_cases hc : a.completed < m.m_nFenceValue
    · by_cases he : FAILED a.setEvent = true <;> simp [hs, hc, he]
    · simp [hs, hc]
  · unfold WaitForPreviousFrame
    by_cases hc : a.completed < m.m_nFenceValue
    · by_cases he : FAILED a.setEvent = true <;> simp [hs, hc, he]
    · simp [hs, hc]

/-- Witness of amended C8: a call with fence value 1 whose `Signal` succeeds signals 1 and
leaves the counter at 2. -/
theorem WaitForPreviousFrame_fence_witness :
    (WaitForPreviousFrame { D3d12GraphicsManager.empty with m_nFenceValue := 1 }
        { signal := S_OK, completed := 0, setEvent := S_OK }).2.m_pCommandQueue
      = [QueueCall.Signal 1] ∧
    (WaitForPreviousFrame { D3d12GraphicsManager.empty with m_nFenceValue := 1 }
        { signal := S_OK, completed := 0, setEvent := S_OK }).2.m_nFenceValue = 2 :=
  ⟨((WaitForPreviousFrame_fence { D3d12GraphicsManager.empty with m_nFenceValue := 1 }
      { signal := S_OK, completed := 0, setEvent := S_OK } []).1 rfl).1,
   ((WaitForPreviousFrame_fence { D3d12GraphicsManager.empty with m_nFenceValue := 1 }
      { signal := S_OK, completed := 0, setEvent := S_OK } []).1 rfl).2.1⟩

/-! ## Command recording -/

/-- C9: with an empty batch list, in a non-debug build and when both resets succeed,
`PopulateCommandList` records the render-target clear and the depth clear to 1, no indexed
draw, exactly one `ResolveSubresource`, into the current back buffer, ends the command
list with `Close`, and returns the status of that `Close`. -/
theorem PopulateCommandList_no_batches (k : Constants) (m : D3d12GraphicsManager)
    (a : RecordAnswers) (hbatches : m.m_DrawBatchContext = [])
    (halloc : FAILED a.allocatorReset = false) (hlist : FAILED a.listReset = false) :
    (PopulateCommandList k false m a).1 = a.close ∧
    Cmd.ClearRenderTargetView k.kFrameCount clearColor
      ∈ (PopulateCommandList k false m a).2.m_pCommandList ∧
    Cmd.ClearDepthStencilView 1 ∈ (PopulateCommandList k false m a).2.m_pCommandList ∧
    (∀ c ∈ (PopulateCommandList k false m a).2.m_pCommandList, c.isDraw = false) ∧
    (PopulateCommandList k false m a).2.m_pCommandList.filter Cmd.isResolve
      = [Cmd.ResolveSubresource (currentBackBuffer m) m.m_pMsaaRenderTarget] ∧
    (PopulateCommandList k false m a).2.m_pCommandList.getLast? = some Cmd.Close := by
  simp [PopulateCommandList, halloc, hlist, hbatches, recordBatches, recordFrameSetup,
    recordResolve, Cmd.isDraw, Cmd.isResolve, List.filter]

/-- Witness of C9: the sample manager, which has no batch. -/
theorem PopulateCommandList_no_batches_witness :
    (PopulateCommandList sampleConstants false sampleManager sampleRecordAnswers).1 = S_OK ∧
    (PopulateCommandList sampleConstants false sampleManager
        sampleRecordAnswers).2.m_pCommandList.filter Cmd.isResolve
      = [Cmd.ResolveSubresource 2 3] ∧
    (PopulateCommandList sampleConstants false sampleManager
        sampleRecordAnswers).2.m_pCommandList.getLast? = some Cmd.Close :=
  ⟨(PopulateCommandList_no_batches sampleConstants sampleManager sampleRecordAnswers
      rfl rfl rfl).1,
   (PopulateCommandList_no_batches sampleConstants sampleManager sampleRecordAnswers
      rfl rfl rfl).2.2.2.2.1,
   (PopulateCommandList_no_batches sampleConstants sampleManager sampleRecordAnswers
      rfl rfl rfl).2.2.2.2.2⟩

/-! ## Resource states through a recorded frame -/

theorem trackCmds_append (st : StateMap) (l₁ l₂ : List Cmd) :
    trackCmds st (l₁ ++ l₂) = (trackCmds st l₁).bind fun st' => trackCmds st' l₂ := by
  induction l₁ generalizing st with
  | nil => rfl
  | cons c rest ih =>
    simp only [List.cons_append, trackCmds]
    cases trackCmd st c with
    | none => rfl
    | some st' => exact ih st'

/-- Calls that are neither barriers nor resolves leave the tracked states alone. -/
theorem trackCmds_of_neutral (st : StateMap) (l : List Cmd)
    (h : ∀ c ∈ l, c.isBarrier = false ∧ c.isResolve = false) : trackCmds st l = some st := by
  induction l with
  | nil => rfl
  | cons c rest ih =>
    have hc := h c (List.mem_cons_self _ _)
    have hrest := ih fun d hd => h d (List.mem_cons_of_mem _ hd)
    cases c <;> simp_all [trackCmds, trackCmd, Cmd.isBarrier, Cmd.isResolve]

/-- A texture block records at most one descriptor-table bind. -/
theorem bindTexture_appends (k : Constants) (slot : Nat) (texture : Option SceneObjectTexture)
    (s : List Cmd × TextureIndex) :
    ∃ extra, (bindTexture k slot texture s).1 = s.1 ++ extra ∧
      ∀ c ∈ extra, c.isBarrier = false ∧ c.isResolve = false := by
  cases texture with
  | none => exact ⟨[], by simp [bindTexture], by simp⟩
  | some t =>
    refine ⟨[Cmd.SetGraphicsRootDescriptorTable slot HeapKind.CbvSrvUav
      ((k.kTextureDescStartIndex : Int) + (TextureIndex.subscript s.2 t.name).1)], ?_, ?_⟩
    · simp [bindTexture]
    · simp [Cmd.isBarrier, Cmd.isResolve]

/-- The body of the per-batch loop records neither a barrier nor a resolve. -/
theorem recordBatch_appends (k : Constants) (m : D3d12GraphicsManager) (i : Nat)
    (dbc : DrawBatchContext) (s : List Cmd × TextureIndex) :
    ∃ extra, (recordBatch k m i dbc s).1 = s.1 ++ extra ∧
      ∀ c ∈ extra, c.isBarrier = false ∧ c.isResolve = false := by
  cases hmat : dbc.material with
  | none =>
    refine ⟨_, by simp only [recordBatch, hmat, List.append_assoc]; rfl, ?_⟩
    simp [Cmd.isBarrier, Cmd.isResolve]
  | some material =>
    simp only [recordBatch, hmat]
    generalize hs0 : ((s.1 ++
      [Cmd.SetGraphicsRootDescriptorTable 0 HeapKind.CbvSrvUav
         ((m.m_nFrameIndex * (2 * k.kMaxSceneObjectCount) + i * 2 : Nat) : Int),
       Cmd.IASetVertexBuffers m.m_VertexBufferView[i]?,
       Cmd.IASetIndexBuffer m.m_IndexBufferView[i]?], s.2) : List Cmd × TextureIndex) = s0
    have h0 : s0.1 = s.1 ++
      [Cmd.SetGraphicsRootDescriptorTable 0 HeapKind.CbvSrvUav
         ((m.m_nFrameIndex * (2 * k.kMaxSceneObjectCount) + i * 2 : Nat) : Int),
       Cmd.IASetVertexBuffers m.m_VertexBufferView[i]?,
       Cmd.IASetIndexBuffer m.m_IndexBufferView[i]?] := by rw [← hs0]
    obtain ⟨e1, h1, n1⟩ := bindTexture_appends k 2 material.ColorMap s0
    obtain ⟨e2, h2, n2⟩ := bindTexture_appends k 3 material.PhysicsDescriptorMap
      (bindTexture k 2 material.ColorMap s0)
    obtain ⟨e3, h3, n3⟩ := bindTexture_appends k 4 material.NormalMap
      (bindTexture k 3 material.PhysicsDescriptorMap (bindTexture k 2 material.ColorMap s0))
    obtain ⟨e4, h4, n4⟩ := bindTexture_appends k 5 material.AOMap
      (bindTexture k 4 material.NormalMap
        (bindTexture k 3 material.PhysicsDescriptorMap (bindTexture k 2 material.ColorMap s0)))
    obtain ⟨e5, h5, n5⟩ := bindTexture_appends k 6 material.EmissiveMap
      (bindTexture k 5 material.AOMap (bindTexture k 4 material.NormalMap
        (bindTexture k 3 material.PhysicsDescriptorMap (bindTexture k 2 material.ColorMap s0))))
    refine ⟨[Cmd.SetGraphicsRootDescriptorTable 0 HeapKind.CbvSrvUav
         ((m.m_nFrameIndex * (2 * k.kMaxSceneObjectCount) + i * 2 : Nat) : Int),
       Cmd.IASetVertexBuffers m.m_VertexBufferView[i]?,
       Cmd.IASetIndexBuffer m.m_IndexBufferView[i]?] ++ e1 ++ e2 ++ e3 ++ e4 ++ e5
       ++ [Cmd.DrawIndexedInstanced dbc.IndexCount 1 0 0 0], ?_, ?_⟩
    · rw [h5, h4, h3, h2, h1, h0]
      simp only [List.append_assoc]
    · intro c hc
      simp only [List.mem_append, List.mem_cons, List.mem_singleton, List.not_mem_nil,
        or_false] at hc
      rcases hc with ((((((rfl | rfl | rfl) | hc) | hc) | hc) | hc) | hc) | rfl
      · exact ⟨rfl, rfl⟩
      · exact ⟨rfl, rfl⟩
      · exact ⟨rfl, rfl⟩
      · exact n1 c hc
      · exact n2 c hc
      · exact n3 c hc
      · exact n4 c hc
      · exact n5 c hc
      · exact ⟨rfl, rfl⟩

/-- The per-batch loop records neither a barrier nor a resolve. -/
theorem recordBatches_appends (k : Constants) (m : D3d12GraphicsManager)
    (batches : List DrawBatchContext) (i : Nat) (s : List Cmd × TextureIndex) :
    ∃ extra, (recordBatches k m i batches s).1 = s.1 ++ extra ∧
      ∀ c ∈ extra, c.isBarrier = false ∧ c.isResolve = false := by
  induction batches generalizing i s with
  | nil => exact ⟨[], by simp [recordBatches], by simp⟩
  | cons dbc rest ih =>
    obtain ⟨e1, h1, n1⟩ := recordBatch_appends k m i dbc s
    obtain ⟨e2, h2, n2⟩ := ih (i + 1) (recordBatch k m i dbc s)
    refine ⟨e1 ++ e2, ?_, ?_⟩
    · simp only [recordBatches, h2, h1, List.append_assoc]
    · intro c hc
      rcases List.mem_append.mp hc with h | h
      · exact n1 c h
      · exact n2 c h

/-- The debug pass records neither a barrier nor a resolve. -/
theorem recordDebugPass_appends (k : Constants) (m : D3d12GraphicsManager) (cmds : List Cmd) :
    ∃ extra, recordDebugPass k m cmds = cmds ++ extra ∧
      ∀ c ∈ extra, c.isBarrier = false ∧ c.isResolve = false := by
  refine ⟨_, by
    simp only [recordDebugPass, recordDebugDraw, List.range, List.range.loop, List.foldl,
      List.append_assoc]
    rfl, ?_⟩
  simp [Cmd.isBarrier, Cmd.isResolve]

/-- The shape of a recorded frame: the frame setup, then calls that are neither barriers
nor resolves (the batches and, in a debug build, the debug pass), then the resolve block
and `Close`. -/
theorem PopulateCommandList_shape (k : Constants) (debug : Bool) (m : D3d12GraphicsManager)
    (a : RecordAnswers)
    (halloc : FAILED a.allocatorReset = false) (hlist : FAILED a.listReset = false) :
    ∃ extra, (PopulateCommandList k debug m a).2.m_pCommandList
        = recordFrameSetup k m ++ (extra ++ (recordResolve m [] ++ [Cmd.Close])) ∧
      ∀ c ∈ extra, c.isBarrier = false ∧ c.isResolve = false := by
  obtain ⟨eB, hB, nB⟩ := recordBatches_appends k m m.m_DrawBatchContext 0
    (recordFrameSetup k m, m.m_TextureIndex)
  cases debug with
  | false =>
    refine ⟨eB, ?_, nB⟩
    simp only [PopulateCommandList, halloc, hlist, hB, recordResolve]
    simp
  | true =>
    have hB' : (recordBatches k m 0 m.m_DrawBatchContext
        (recordFrameSetup k m, m.m_TextureIndex)).1 = recordFrameSetup k m ++ eB := hB
    obtain ⟨eD, hD, nD⟩ := recordDebugPass_appends k m (recordFrameSetup k m ++ eB)
    refine ⟨eB ++ eD, ?_, ?_⟩
    · simp only [PopulateCommandList, halloc, hlist, recordResolve]
      simp only [Bool.false_eq_true, if_false, if_true, hB', hD]
      simp
    · intro c hc
      rcases List.mem_append.mp hc with h | h
      · exact nB c h
      · exact nD c h

/-- C10: when `PopulateCommandList` records a frame (both resets succeed), with the
multisampled render target tracked as pixel-shader resource and the current back buffer,
a different resource, tracked as present on entry, then the recorded list is consistent
with the tracked states (every transition barrier starts from the tracked state of its
resource, and the resolve is recorded while the multisampled target is resolve-source and
the back buffer resolve-destination); there is exactly one `ResolveSubresource`, from the
multisampled target into `m_pRenderTargets[m_nFrameIndex]`; and on exit every resource is
tracked in its entry state.  This holds for every batch list, in release and debug
builds. -/
theorem PopulateCommandList_barriers (k : Constants) (debug : Bool) (m : D3d12GraphicsManager)
    (a : RecordAnswers) (st : StateMap)
    (halloc : FAILED a.allocatorReset = false) (hlist : FAILED a.listReset = false)
    (hdistinct : m.m_pMsaaRenderTarget ≠ currentBackBuffer m)
    (hmsaa : st m.m_pMsaaRenderTarget = ResourceState.PIXEL_SHADER_RESOURCE)
    (hback : st (currentBackBuffer m) = ResourceState.PRESENT) :
    (∃ st', trackCmds st (PopulateCommandList k debug m a).2.m_pCommandList = some st' ∧
      ∀ r, st' r = st r) ∧
    (PopulateCommandList k debug m a).2.m_pCommandList.filter Cmd.isResolve
      = [Cmd.ResolveSubresource (currentBackBuffer m) m.m_pMsaaRenderTarget] := by
  obtain ⟨extra, hshape, hneutral⟩ := PopulateCommandList_shape k debug m a halloc hlist
  rw [hshape]
  have hne : currentBackBuffer m ≠ m.m_pMsaaRenderTarget := fun h => hdistinct h.symm
  constructor
  · have hsetup : trackCmds st (recordFrameSetup k m)
        = some (fun x => if x = m.m_pMsaaRenderTarget then ResourceState.RENDER_TARGET
            else st x) := by
      simp only [recordFrameSetup, trackCmds, trackCmd, hmsaa, if_true]
    rw [trackCmds_append, hsetup, Option.some_bind, trackCmds_append,
      trackCmds_of_neutral _ extra hneutral]
    simp only [Option.some_bind, recordResolve, List.nil_append, List.cons_append, trackCmds,
      trackCmd, if_true, hne, if_false, hback, and_self, hdistinct]
    refine ⟨_, rfl, ?_⟩
    intro r
    by_cases h1 : r = currentBackBuffer m
    · simp [h1, hback]
    · by_cases h2 : r = m.m_pMsaaRenderTarget
      · simp [h1, h2, hmsaa, hdistinct]
      · simp [h1, h2]
  · have hfilter : extra.filter Cmd.isResolve = [] := by
      rw [List.filter_eq_nil_iff]
      intro c hc
      simp [(hneutral c hc).2]
    simp [recordFrameSetup, recordResolve, List.filter_append, hfilter, Cmd.isResolve,
      List.filter]

/-- Witness of C10: the sample manager, whose multisampled target is resource 3 and whose
current back buffer is resource 2, with resource 3 tracked as pixel-shader resource. -/
theorem PopulateCommandList_barriers_witness :
    (PopulateCommandList sampleConstants true sampleManager
        sampleRecordAnswers).2.m_pCommandList.filter Cmd.isResolve
      = [Cmd.ResolveSubresource 2 3] :=
  (PopulateCommandList_barriers sampleConstants true sampleManager sampleRecordAnswers
    sampleStates rfl rfl (by decide) rfl rfl).2

/-! ## The calls of a recorded frame, batch by batch -/

theorem TextureIndex.Extends.refl (r : TextureIndex) : TextureIndex.Extends r r :=
  fun _ _ h => h

theorem TextureIndex.Extends.trans {r₁ r₂ r₃ : TextureIndex}
    (h₁ : TextureIndex.Extends r₁ r₂) (h₂ : TextureIndex.Extends r₂ r₃) :
    TextureIndex.Extends r₁ r₃ :=
  fun name v h => h₂ name v (h₁ name v h)

theorem TextureIndex.find_append_of_some (r : TextureIndex) (e : String × Int) (name : String)
    (v : Int) (h : TextureIndex.find r name = some v) :
    TextureIndex.find (r ++ [e]) name = some v := by
  induction r with
  | nil => simp [TextureIndex.find] at h
  | cons x rest ih =>
    obtain ⟨key, w⟩ := x
    simp only [TextureIndex.find, List.cons_append] at h ⊢
    by_cases hk : key = name
    · simpa [hk] using h
    · simp only [hk, if_false] at h ⊢
      exact ih h

theorem TextureIndex.find_append_self_of_none (r : TextureIndex) (name : String) (v : Int)
    (h : TextureIndex.find r name = none) :
    TextureIndex.find (r ++ [(name, v)]) name = some v := by
  induction r with
  | nil => simp [TextureIndex.find]
  | cons x rest ih =>
    obtain ⟨key, w⟩ := x
    simp only [TextureIndex.find, List.cons_append] at h ⊢
    by_cases hk : key = name
    · simp [hk] at h
    · simp only [hk, if_false] at h ⊢
      exact ih h

/-- The read `m_TextureIndex[name]` keeps every registered slot, and afterwards `name` is
registered with the slot the read returned. -/
theorem TextureIndex.subscript_spec (r : TextureIndex) (name : String) :
    TextureIndex.Extends r (TextureIndex.subscript r name).2 ∧
    TextureIndex.find (TextureIndex.subscript r name).2 name
      = some (TextureIndex.subscript r name).1 := by
  unfold TextureIndex.subscript
  cases hfind : TextureIndex.find r name with
  | some v => exact ⟨TextureIndex.Extends.refl r, hfind⟩
  | none =>
    exact ⟨fun n v h => TextureIndex.find_append_of_some r _ n v h,
      TextureIndex.find_append_self_of_none r name 0 hfind⟩

/-- One texture block, described with the slots of any registry that extends the registry
after the block. -/
theorem bindTexture_spec (k : Constants) (slot : Nat) (texture : Option SceneObjectTexture)
    (s : List Cmd × TextureIndex) (R : TextureIndex)
    (hR : TextureIndex.Extends (bindTexture k slot texture s).2 R) :
    (bindTexture k slot texture s).1
      = s.1 ++ (texture.map fun t =>
          Cmd.SetGraphicsRootDescriptorTable slot HeapKind.CbvSrvUav
            ((k.kTextureDescStartIndex : Int) + (TextureIndex.find R t.name).getD 0)).toList ∧
    TextureIndex.Extends s.2 (bindTexture k slot texture s).2 := by
  cases texture with
  | none => exact ⟨by simp [bindTexture], TextureIndex.Extends.refl _⟩
  | some t =>
    obtain ⟨hext, hfind⟩ := TextureIndex.subscript_spec s.2 t.name
    simp only [bindTexture] at hR ⊢
    refine ⟨?_, hext⟩
    have hslot := hR t.name _ hfind
    simp [hslot]

/-- The body of the per-batch loop, described with the slots of any registry that extends
the registry after the batch. -/
theorem recordBatch_spec (k : Constants) (m : D3d12GraphicsManager) (i : Nat)
    (dbc : DrawBatchContext) (s : List Cmd × TextureIndex) (R : TextureIndex)
    (hR : TextureIndex.Extends (recordBatch k m i dbc s).2 R) :
    (recordBatch k m i dbc s).1 = s.1 ++ batchCalls k m R i dbc ∧
    TextureIndex.Extends s.2 (recordBatch k m i dbc s).2 := by
  cases hmat : dbc.material with
  | none =>
    simp only [recordBatch, hmat, batchCalls, textureBinds, List.append_nil, List.append_assoc]
    exact ⟨trivial, TextureIndex.Extends.refl _⟩
  | some material =>
    simp only [recordBatch, hmat] at hR ⊢
    generalize hs0 : ((s.1 ++
      [Cmd.SetGraphicsRootDescriptorTable 0 HeapKind.CbvSrvUav
         ((m.m_nFrameIndex * (2 * k.kMaxSceneObjectCount) + i * 2 : Nat) : Int),
       Cmd.IASetVertexBuffers m.m_VertexBufferView[i]?,
       Cmd.IASetIndexBuffer m.m_IndexBufferView[i]?], s.2) : List Cmd × TextureIndex) = s0
      at hR ⊢
    have h01 : s0.1 = s.1 ++
      [Cmd.SetGraphicsRootDescriptorTable 0 HeapKind.CbvSrvUav
         ((m.m_nFrameIndex * (2 * k.kMaxSceneObjectCount) + i * 2 : Nat) : Int),
       Cmd.IASetVertexBuffers m.m_VertexBufferView[i]?,
       Cmd.IASetIndexBuffer m.m_IndexBufferView[i]?] := by rw [← hs0]
    have h02 : s0.2 = s.2 := by rw [← hs0]
    obtain ⟨c5, e5⟩ := bindTexture_spec k 6 material.EmissiveMap _ R hR
    have hR4 := e5.trans hR
    obtain ⟨c4, e4⟩ := bindTexture_spec k 5 material.AOMap _ R hR4
    have hR3 := e4.trans hR4
    obtain ⟨c3, e3⟩ := bindTexture_spec k 4 material.NormalMap _ R hR3
    have hR2 := e3.trans hR3
    obtain ⟨c2, e2⟩ := bindTexture_spec k 3 material.PhysicsDescriptorMap _ R hR2
    have hR1 := e2.trans hR2
    obtain ⟨c1, e1⟩ := bindTexture_spec k 2 material.ColorMap s0 R hR1
    refine ⟨?_, ?_⟩
    · rw [c5, c4, c3, c2, c1, h01]
      simp only [batchCalls, textureBinds, hmat, textureSlots, List.append_assoc]
      cases material.ColorMap <;> cases material.PhysicsDescriptorMap <;>
        cases material.NormalMap <;> cases material.AOMap <;>
        cases material.EmissiveMap <;> simp
    · rw [← h02]
      exact e1.trans (e2.trans (e3.trans (e4.trans e5)))

/-- The per-batch loop, described with the slots of any registry that extends the
registry after the loop: the calls of the batches, one after the other. -/
theorem recordBatches_spec (k : Constants) (m : D3d12GraphicsManager)
    (batches : List DrawBatchContext) (i : Nat) (s : List Cmd × TextureIndex)
    (R : TextureIndex) (hR : TextureIndex.Extends (recordBatches k m i batches s).2 R) :
    (recordBatches k m i batches s).1
      = s.1 ++ ((batches.enumFrom i).map fun p => batchCalls k m R p.1 p.2).flatten ∧
    TextureIndex.Extends s.2 (recordBatches k m i batches s).2 := by
  induction batches generalizing i s with
  | nil => exact ⟨by simp [recordBatches], TextureIndex.Extends.refl _⟩
  | cons dbc rest ih =>
    simp only [recordBatches] at hR ⊢
    obtain ⟨hcalls, hext⟩ := ih (i + 1) (recordBatch k m i dbc s) hR
    obtain ⟨hcall, hext'⟩ := recordBatch_spec k m i dbc s R (hext.trans hR)
    refine ⟨?_, hext'.trans hext⟩
    rw [hcalls, hcall]
    simp [List.enumFrom_cons]

/-- The calls of a recorded frame in a non-debug build, with the texture slots read off
the registry after the recording (which extends the registry before it): the frame setup,
the calls of the batches in list order, the resolve block and `Close`. -/
theorem PopulateCommandList_calls (k : Constants) (m : D3d12GraphicsManager)
    (a : RecordAnswers)
    (halloc : FAILED a.allocatorReset = false) (hlist : FAILED a.listReset = false) :
    (PopulateCommandList k false m a).2.m_pCommandList
      = recordFrameSetup k m
        ++ ((m.m_DrawBatchContext.enumFrom 0).map fun p =>
            batchCalls k m (PopulateCommandList k false m a).2.m_TextureIndex p.1 p.2).flatten
        ++ recordResolve m [] ++ [Cmd.Close] ∧
    TextureIndex.Extends m.m_TextureIndex (PopulateCommandList k false m a).2.m_TextureIndex := by
  have hreg : (PopulateCommandList k false m a).2.m_TextureIndex
      = (recordBatches k m 0 m.m_DrawBatchContext (recordFrameSetup k m, m.m_TextureIndex)).2 := by
    simp [PopulateCommandList, halloc, hlist]
  obtain ⟨hcalls, hext⟩ := recordBatches_spec k m m.m_DrawBatchContext 0
    (recordFrameSetup k m, m.m_TextureIndex) _ (TextureIndex.Extends.refl _)
  rw [hreg]
  refine ⟨?_, hext⟩
  simp only [PopulateCommandList, halloc, hlist, Bool.false_eq_true, if_false, hcalls,
    recordResolve, List.append_assoc, List.nil_append, List.cons_append]

/-- The texture binds of a batch bind root slots 2 to 6 only. -/
theorem textureBinds_slots (k : Constants) (registry : TextureIndex)
    (material : Option SceneObjectMaterial) (c : Cmd)
    (hc : c ∈ textureBinds k registry material) :
    ∃ slot index, c = Cmd.SetGraphicsRootDescriptorTable slot HeapKind.CbvSrvUav index ∧
      2 ≤ slot ∧ slot ≤ 6 := by
  cases material with
  | none => simp [textureBinds] at hc
  | some mat =>
    simp only [textureBinds, textureSlots, List.mem_filterMap, List.mem_cons,
      List.mem_singleton, List.not_mem_nil, or_false, Option.map_eq_some'] at hc
    obtain ⟨p, hp, t, _, rfl⟩ := hc
    rcases hp with rfl | rfl | rfl | rfl | rfl <;>
      exact ⟨_, _, rfl, by simp, by simp⟩

/-- The only indexed draw among the calls of a batch is its last call. -/
theorem batchCalls_draws (k : Constants) (m : D3d12GraphicsManager) (registry : TextureIndex)
    (i : Nat) (dbc : DrawBatchContext) :
    (batchCalls k m registry i dbc).filter Cmd.isDraw
      = [Cmd.DrawIndexedInstanced dbc.IndexCount 1 0 0 0] := by
  have hnone : (textureBinds k registry dbc.material).filter Cmd.isDraw = [] := by
    rw [List.filter_eq_nil_iff]
    intro c hc
    obtain ⟨slot, index, rfl, _⟩ := textureBinds_slots k registry dbc.material c hc
    simp [Cmd.isDraw]
  simp [batchCalls, List.filter_append, hnone, Cmd.isDraw, List.filter]

/-- The indexed draws among the calls of a list of batches are the draws of the batches,
in list order. -/
theorem batchCalls_flatten_draws (k : Constants) (m : D3d12GraphicsManager)
    (registry : TextureIndex) (batches : List DrawBatchContext) (i : Nat) :
    (((batches.enumFrom i).map fun p => batchCalls k m registry p.1 p.2).flatten).filter
        Cmd.isDraw
      = batches.map fun dbc => Cmd.DrawIndexedInstanced dbc.IndexCount 1 0 0 0 := by
  induction batches generalizing i with
  | nil => rfl
  | cons dbc rest ih =>
    simp only [List.enumFrom_cons, List.map_cons, List.flatten_cons, List.filter_append,
      batchCalls_draws, ih, List.singleton_append]

/-- C11: in a non-debug build, when both resets succeed, `PopulateCommandList` records
exactly one indexed draw per batch, in list order; the recorded list is the frame setup,
one segment of calls per batch, the resolve block and `Close` (setup and resolve block
hold no draw), and the segment of batch number `i` (from 0) is the bind of root slot 0 to
the CBV-heap descriptor `m_nFrameIndex * (2 * kMaxSceneObjectCount) + i * 2`, the binds of
vertex and index buffer views number `i`, some calls that are not draws, and the indexed
draw of that batch's `IndexCount` indices. -/
theorem PopulateCommandList_draws (k : Constants) (m : D3d12GraphicsManager)
    (a : RecordAnswers)
    (halloc : FAILED a.allocatorReset = false) (hlist : FAILED a.listReset = false) :
    (PopulateCommandList k false m a).2.m_pCommandList.filter Cmd.isDraw
      = (m.m_DrawBatchContext.map fun dbc => Cmd.DrawIndexedInstanced dbc.IndexCount 1 0 0 0) ∧
    ∃ segments : List (List Cmd),
      (PopulateCommandList k false m a).2.m_pCommandList
        = recordFrameSetup k m ++ segments.flatten ++ recordResolve m [] ++ [Cmd.Close] ∧
      segments.length = m.m_DrawBatchContext.length ∧
      (∀ c ∈ recordFrameSetup k m ++ recordResolve m [] ++ [Cmd.Close], c.isDraw = false) ∧
      ∀ (i : Nat) (dbc : DrawBatchContext) (segment : List Cmd),
        m.m_DrawBatchContext[i]? = some dbc → segments[i]? = some segment →
        ∃ binds, segment
            = [Cmd.SetGraphicsRootDescriptorTable 0 HeapKind.CbvSrvUav
                 ((m.m_nFrameIndex * (2 * k.kMaxSceneObjectCount) + i * 2 : Nat) : Int),
               Cmd.IASetVertexBuffers m.m_VertexBufferView[i]?,
               Cmd.IASetIndexBuffer m.m_IndexBufferView[i]?]
              ++ binds ++ [Cmd.DrawIndexedInstanced dbc.IndexCount 1 0 0 0] ∧
          ∀ c ∈ binds, c.isDraw = false := by
  obtain ⟨hcalls, _⟩ := PopulateCommandList_calls k m a halloc hlist
  have hfixed : ∀ c ∈ recordFrameSetup k m ++ recordResolve m [] ++ [Cmd.Close],
      c.isDraw = false := by
    intro c hc
    simp only [recordFrameSetup, recordResolve, List.nil_append, List.cons_append,
      List.mem_cons, List.mem_singleton, List.not_mem_nil, or_false] at hc
    rcases hc with rfl | rfl | rfl | rfl | rfl | rfl | rfl | rfl | rfl | rfl | rfl | rfl | rfl
      | rfl | rfl | rfl | rfl <;> rfl
  refine ⟨?_, _, hcalls, by simp, hfixed, ?_⟩
  · rw [hcalls]
    have h1 : (recordFrameSetup k m).filter Cmd.isDraw = [] := by
      simp [recordFrameSetup, Cmd.isDraw, List.filter]
    have h2 : (recordResolve m []).filter Cmd.isDraw = [] := by
      simp [recordResolve, Cmd.isDraw, List.filter]
    simp only [List.filter_append, batchCalls_flatten_draws, h1, h2, List.nil_append,
      List.append_nil]
    simp [Cmd.isDraw, List.filter]
  · intro i dbc segment hdbc hseg
    rw [List.getElem?_map, List.getElem?_enumFrom, hdbc] at hseg
    simp only [Option.map_some', Option.some.injEq, Nat.zero_add] at hseg
    subst hseg
    refine ⟨textureBinds k _ dbc.material, rfl, ?_⟩
    intro c hc
    obtain ⟨slot, index, rfl, _⟩ := textureBinds_slots k _ dbc.material c hc
    rfl

/-- Witness of C11: the sample manager with two batches records two draws of 6 indices. -/
theorem PopulateCommandList_draws_witness :
    (PopulateCommandList sampleConstants false sampleBatchManager
        sampleRecordAnswers).2.m_pCommandList.filter Cmd.isDraw
      = [Cmd.DrawIndexedInstanced 6 1 0 0 0, Cmd.DrawIndexedInstanced 6 1 0 0 0] :=
  (PopulateCommandList_draws sampleConstants sampleBatchManager sampleRecordAnswers
    rfl rfl).1

/-! ## Texture binds of a batch -/

/-- After a texture block whose weak reference resolves, the texture name is registered. -/
theorem bindTexture_registered (k : Constants) (slot : Nat) (t : SceneObjectTexture)
    (s : List Cmd × TextureIndex) :
    ∃ v, TextureIndex.find (bindTexture k slot (some t) s).2 t.name = some v :=
  ⟨_, (TextureIndex.subscript_spec s.2 t.name).2⟩

/-- After the body of the per-batch loop, the name of every texture of the batch that
resolves is registered. -/
theorem recordBatch_registered (k : Constants) (m : D3d12GraphicsManager) (i : Nat)
    (dbc : DrawBatchContext) (s : List Cmd × TextureIndex) (material : SceneObjectMaterial)
    (hmat : dbc.material = some material) (p : Nat × Option SceneObjectTexture)
    (hp : p ∈ textureSlots material) (t : SceneObjectTexture) (ht : p.2 = some t) :
    ∃ v, TextureIndex.find (recordBatch k m i dbc s).2 t.name = some v := by
  simp only [recordBatch, hmat]
  generalize ((s.1 ++
      [Cmd.SetGraphicsRootDescriptorTable 0 HeapKind.CbvSrvUav
         ((m.m_nFrameIndex * (2 * k.kMaxSceneObjectCount) + i * 2 : Nat) : Int),
       Cmd.IASetVertexBuffers m.m_VertexBufferView[i]?,
       Cmd.IASetIndexBuffer m.m_IndexBufferView[i]?], s.2) : List Cmd × TextureIndex) = s0
  have e2 := fun s => (bindTexture_spec k 3 material.PhysicsDescriptorMap s _
    (TextureIndex.Extends.refl _)).2
  have e3 := fun s => (bindTexture_spec k 4 material.NormalMap s _
    (TextureIndex.Extends.refl _)).2
  have e4 := fun s => (bindTexture_spec k 5 material.AOMap s _
    (TextureIndex.Extends.refl _)).2
  have e5 := fun s => (bindTexture_spec k 6 material.EmissiveMap s _
    (TextureIndex.Extends.refl _)).2
  simp only [textureSlots, List.mem_cons, List.mem_singleton, List.not_mem_nil,
    or_false] at hp
  rcases hp with rfl | rfl | rfl | rfl | rfl <;> simp only at ht <;> rw [ht]
  · obtain ⟨v, hv⟩ := bindTexture_registered k 2 t s0
    exact ⟨v, e5 _ _ _ (e4 _ _ _ (e3 _ _ _ (e2 _ _ _ hv)))⟩
  · obtain ⟨v, hv⟩ := bindTexture_registered k 3 t (bindTexture k 2 material.ColorMap s0)
    exact ⟨v, e5 _ _ _ (e4 _ _ _ (e3 _ _ _ hv))⟩
  · obtain ⟨v, hv⟩ := bindTexture_registered k 4 t
      (bindTexture k 3 material.PhysicsDescriptorMap (bindTexture k 2 material.ColorMap s0))
    exact ⟨v, e5 _ _ _ (e4 _ _ _ hv)⟩
  · obtain ⟨v, hv⟩ := bindTexture_registered k 5 t
      (bindTexture k 4 material.NormalMap
        (bindTexture k 3 material.PhysicsDescriptorMap (bindTexture k 2 material.ColorMap s0)))
    exact ⟨v, e5 _ _ _ hv⟩
  · exact bindTexture_registered k 6 t _

/-- After the per-batch loop, the name of every texture of every batch that resolves is
registered. -/
theorem recordBatches_registered (k : Constants) (m : D3d12GraphicsManager)
    (batches : List DrawBatchContext) (i : Nat) (s : List Cmd × TextureIndex)
    (dbc : DrawBatchContext) (hdbc : dbc ∈ batches) (material : SceneObjectMaterial)
    (hmat : dbc.material = some material) (p : Nat × Option SceneObjectTexture)
    (hp : p ∈ textureSlots material) (t : SceneObjectTexture) (ht : p.2 = some t) :
    ∃ v, TextureIndex.find (recordBatches k m i batches s).2 t.name = some v := by
  induction batches generalizing i s with
  | nil => simp at hdbc
  | cons head rest ih =>
    simp only [recordBatches]
    rcases List.mem_cons.mp hdbc with rfl | hrest
    · obtain ⟨v, hv⟩ := recordBatch_registered k m i dbc s material hmat p hp t ht
      exact ⟨v, (recordBatches_spec k m rest (i + 1) (recordBatch k m i dbc s) _
        (TextureIndex.Extends.refl _)).2 _ _ hv⟩
    · exact ih (i + 1) (recordBatch k m i head s) hrest

/-- Among the calls of a batch with a material, the binds of the root slot of a texture
map are the one bind of that map when it resolves, and none when it has expired. -/
theorem batchCalls_slot (k : Constants) (m : D3d12GraphicsManager) (registry : TextureIndex)
    (i : Nat) (dbc : DrawBatchContext) (material : SceneObjectMaterial)
    (hmat : dbc.material = some material) (p : Nat × Option SceneObjectTexture)
    (hp : p ∈ textureSlots material) :
    (batchCalls k m registry i dbc).filter (Cmd.bindsSlot p.1)
      = (p.2.map fun t =>
          Cmd.SetGraphicsRootDescriptorTable p.1 HeapKind.CbvSrvUav
            ((k.kTextureDescStartIndex : Int)
              + (TextureIndex.find registry t.name).getD 0)).toList := by
  simp only [textureSlots, List.mem_cons, List.mem_singleton, List.not_mem_nil,
    or_false] at hp
  simp only [batchCalls, textureBinds, hmat, textureSlots]
  rcases hp with rfl | rfl | rfl | rfl | rfl <;>
    cases material.ColorMap <;> cases material.PhysicsDescriptorMap <;>
    cases material.NormalMap <;> cases material.AOMap <;> cases material.EmissiveMap <;>
    simp [Cmd.bindsSlot, List.filter]

/-- The calls of a batch without material bind no root slot other than slot 0. -/
theorem batchCalls_no_material (k : Constants) (m : D3d12GraphicsManager)
    (registry : TextureIndex) (i : Nat) (dbc : DrawBatchContext)
    (hmat : dbc.material = none) (slot : Nat) (hslot : slot ≠ 0) :
    (batchCalls k m registry i dbc).filter (Cmd.bindsSlot slot) = [] := by
  have h0 : ¬ (0 = slot) := fun h => hslot h.symm
  simp [batchCalls, textureBinds, hmat, Cmd.bindsSlot, List.filter, h0]

/-- C12: in a non-debug build, when both resets succeed, the segment of calls that
`PopulateCommandList` records for a batch holds the indexed draw of the batch in every
case; for a batch without material it binds no root slot other than slot 0; for a batch
with a material and each of the five maps (ColorMap at slot 2, PhysicsDescriptorMap at 3,
NormalMap at 4, AOMap at 5, EmissiveMap at 6) it holds no bind of that slot when the weak
reference has expired and exactly one when it resolves, which binds the descriptor
`kTextureDescStartIndex + v`, `v` being the slot of the texture name in the registry (as
`m_TextureIndex[...]` leaves it: names registered before the call keep their slots).  No
call of the recorded list binds a root slot above 6. -/
theorem PopulateCommandList_texture_binds (k : Constants) (m : D3d12GraphicsManager)
    (a : RecordAnswers)
    (halloc : FAILED a.allocatorReset = false) (hlist : FAILED a.listReset = false) :
    (∀ c ∈ (PopulateCommandList k false m a).2.m_pCommandList, ∀ slot heap index,
      c = Cmd.SetGraphicsRootDescriptorTable slot heap index → slot ≤ 6) ∧
    (∀ name v, TextureIndex.find m.m_TextureIndex name = some v →
      TextureIndex.find (PopulateCommandList k false m a).2.m_TextureIndex name = some v) ∧
    ∃ segments : List (List Cmd),
      (PopulateCommandList k false m a).2.m_pCommandList
        = recordFrameSetup k m ++ segments.flatten ++ recordResolve m [] ++ [Cmd.Close] ∧
      segments.length = m.m_DrawBatchContext.length ∧
      ∀ (i : Nat) (dbc : DrawBatchContext) (segment : List Cmd),
        m.m_DrawBatchContext[i]? = some dbc → segments[i]? = some segment →
        Cmd.DrawIndexedInstanced dbc.IndexCount 1 0 0 0 ∈ segment ∧
        (dbc.material = none → ∀ slot, slot ≠ 0 →
          segment.filter (Cmd.bindsSlot slot) = []) ∧
        (∀ material, dbc.material = some material → ∀ p ∈ textureSlots material,
          (p.2 = none → segment.filter (Cmd.bindsSlot p.1) = []) ∧
          (∀ texture, p.2 = some texture →
            ∃ v, TextureIndex.find (PopulateCommandList k false m a).2.m_TextureIndex
                texture.name = some v ∧
              segment.filter (Cmd.bindsSlot p.1)
                = [Cmd.SetGraphicsRootDescriptorTable p.1 HeapKind.CbvSrvUav
                    ((k.kTextureDescStartIndex : Int) + v)])) := by
  obtain ⟨hcalls, hext⟩ := PopulateCommandList_calls k m a halloc hlist
  have hreg : (PopulateCommandList k false m a).2.m_TextureIndex
      = (recordBatches k m 0 m.m_DrawBatchContext (recordFrameSetup k m, m.m_TextureIndex)).2 := by
    simp [PopulateCommandList, halloc, hlist]
  refine ⟨?_, hext, _, hcalls, by simp, ?_⟩
  · intro c hc slot heap index hbind
    rw [hcalls] at hc
    simp only [List.mem_append, List.mem_flatten, List.mem_map] at hc
    rcases hc with ((hc | ⟨seg, ⟨p, _, rfl⟩, hc⟩) | hc) | hc
    · subst hbind
      simp [recordFrameSetup] at hc
      omega
    · simp only [batchCalls, List.mem_append, List.mem_cons, List.mem_singleton,
        List.not_mem_nil, or_false] at hc
      rcases hc with ((h | h | h) | h) | h
      · rw [hbind] at h; injection h with h1; omega
      · rw [hbind] at h; cases h
      · rw [hbind] at h; cases h
      · obtain ⟨s, ix, hs, _, hle⟩ := textureBinds_slots k _ _ c h
        rw [hbind] at hs; injection hs with h1; omega
      · rw [hbind] at h; cases h
    · subst hbind
      simp [recordResolve] at hc
    · subst hbind
      simp at hc
  · intro i dbc segment hdbc hseg
    rw [List.getElem?_map, List.getElem?_enumFrom, hdbc] at hseg
    simp only [Option.map_some', Option.some.injEq, Nat.zero_add] at hseg
    subst hseg
    refine ⟨by simp [batchCalls], ?_, ?_⟩
    · intro hmat slot hslot
      exact batchCalls_no_material k m _ i dbc hmat slot hslot
    · intro material hmat p hp
      have hfilter := batchCalls_slot k m (PopulateCommandList k false m a).2.m_TextureIndex
        i dbc material hmat p hp
      refine ⟨fun hnone => by rw [hfilter, hnone]; rfl, fun texture hsome => ?_⟩
      obtain ⟨v, hv⟩ := recordBatches_registered k m m.m_DrawBatchContext 0
        (recordFrameSetup k m, m.m_TextureIndex) dbc (List.getElem?_mem hdbc)
        material hmat p hp texture hsome
      rw [← hreg] at hv
      refine ⟨v, hv, ?_⟩
      rw [hfilter, hsome]
      simp [hv]

/-- Witness of C12: in the sample manager the first batch has a material whose colour map
resolves to texture "color", registered at slot 1: root slot 2 is bound once, to
descriptor `2 * (2 * 4) + 1 = 17`, and "color" keeps slot 1. -/
theorem PopulateCommandList_texture_binds_witness :
    (PopulateCommandList sampleConstants false sampleBatchManager
        sampleRecordAnswers).2.m_pCommandList.filter (Cmd.bindsSlot 2)
      = [Cmd.SetGraphicsRootDescriptorTable 2 HeapKind.CbvSrvUav 17] ∧
    TextureIndex.find (PopulateCommandList sampleConstants false sampleBatchManager
        sampleRecordAnswers).2.m_TextureIndex "color" = some 1 :=
  ⟨by decide,
   (PopulateCommandList_texture_binds sampleConstants sampleBatchManager sampleRecordAnswers
      rfl rfl).2.1 "color" 1 (by decide)⟩

/-! ## The upload contract of the resource-creation calls -/

/-- C13: when both resource creations succeed, each of `CreateVertexBuffer`,
`CreateIndexBuffer` and `CreateTextureBuffer` (of an unregistered name) creates the
GPU-local resource in the copy-destination state and the upload resource, appends to the
command list exactly one copy from the upload resource to the GPU-local resource followed
by exactly one transition barrier of that resource from copy-destination to its usage
state (vertex-and-constant-buffer, index-buffer, generic-read), makes no call on the
command queue (so neither closes nor submits the list), and keeps the upload resource in
the owned buffer list. -/
theorem upload_contract (k : Constants) (m : D3d12GraphicsManager) :
    (∀ (vertex_array : List VertexBasicAttribs) (a : BufferAnswers),
      FAILED a.gpu = false → FAILED a.upload = false →
      (CreateVertexBuffer k m vertex_array a).2.m_pDev.resources
        = m.m_pDev.resources ++
          [{ heap := HeapType.DEFAULT, Width := vertex_array.length * k.sizeofVertexBasicAttribs,
             Height := 1, SampleCount := 1, InitialState := ResourceState.COPY_DEST },
           { heap := HeapType.UPLOAD, Width := vertex_array.length * k.sizeofVertexBasicAttribs,
             Height := 1, SampleCount := 1, InitialState := ResourceState.GENERIC_READ }] ∧
      (CreateVertexBuffer k m vertex_array a).2.m_pCommandList
        = m.m_pCommandList ++
          [Cmd.UpdateSubresources (m.m_pDev.resources.length + 1)
             (m.m_pDev.resources.length + 2) (Payload.vertices vertex_array) 0 0,
           Cmd.ResourceBarrier (m.m_pDev.resources.length + 1) ResourceState.COPY_DEST
             ResourceState.VERTEX_AND_CONSTANT_BUFFER] ∧
      (CreateVertexBuffer k m vertex_array a).2.m_pCommandQueue = m.m_pCommandQueue ∧
      m.m_pDev.resources.length + 2 ∈ (CreateVertexBuffer k m vertex_array a).2.m_Buffers) ∧
    (∀ (index_array : List Nat) (a : BufferAnswers),
      FAILED a.gpu = false → FAILED a.upload = false →
      (CreateIndexBuffer m index_array a).2.m_pDev.resources
        = m.m_pDev.resources ++
          [{ heap := HeapType.DEFAULT, Width := index_array.length * 4,
             Height := 1, SampleCount := 1, InitialState := ResourceState.COPY_DEST },
           { heap := HeapType.UPLOAD, Width := index_array.length * 4,
             Height := 1, SampleCount := 1, InitialState := ResourceState.GENERIC_READ }] ∧
      (CreateIndexBuffer m index_array a).2.m_pCommandList
        = m.m_pCommandList ++
          [Cmd.UpdateSubresources (m.m_pDev.resources.length + 1)
             (m.m_pDev.resources.length + 2) (Payload.indices index_array) 0 0,
           Cmd.ResourceBarrier (m.m_pDev.resources.length + 1) ResourceState.COPY_DEST
             ResourceState.INDEX_BUFFER] ∧
      (CreateIndexBuffer m index_array a).2.m_pCommandQueue = m.m_pCommandQueue ∧
      m.m_pDev.resources.length + 2 ∈ (CreateIndexBuffer m index_array a).2.m_Buffers) ∧
    (∀ (texture : SceneObjectTexture) (a : TextureAnswers),
      TextureIndex.find m.m_TextureIndex texture.name = none →
      FAILED a.gpu = false → FAILED a.upload = false →
      (CreateTextureBuffer k m texture a).2.1.m_pDev.resources
        = m.m_pDev.resources ++
          [{ heap := HeapType.DEFAULT, Width := texture.image.Width,
             Height := texture.image.Height, SampleCount := 1,
             InitialState := ResourceState.COPY_DEST },
           { heap := HeapType.UPLOAD, Width := a.uploadBufferSize,
             Height := 1, SampleCount := 1, InitialState := ResourceState.GENERIC_READ }] ∧
      (∃ pData RowPitch SlicePitch,
        (CreateTextureBuffer k m texture a).2.1.m_pCommandList
          = m.m_pCommandList ++
            [Cmd.UpdateSubresources (m.m_pDev.resources.length + 1)
               (m.m_pDev.resources.length + 2) pData RowPitch SlicePitch,
             Cmd.ResourceBarrier (m.m_pDev.resources.length + 1) ResourceState.COPY_DEST
               ResourceState.GENERIC_READ]) ∧
      (CreateTextureBuffer k m texture a).2.1.m_pCommandQueue = m.m_pCommandQueue ∧
      m.m_pDev.resources.length + 2 ∈ (CreateTextureBuffer k m texture a).2.1.m_Buffers) := by
  refine ⟨?_, ?_, ?_⟩
  · intro vertex_array a hgpu hupload
    simp [CreateVertexBuffer, Device.CreateCommittedResource, hgpu, hupload]
  · intro index_array a hgpu hupload
    simp [CreateIndexBuffer, Device.CreateCommittedResource, hgpu, hupload]
  · intro texture a hnone hgpu hupload
    refine ⟨?_, ⟨_, _, _, (CreateTextureBuffer_upload_of_new k m texture a hnone hgpu hupload).2⟩,
      ?_, ?_⟩ <;>
    simp [CreateTextureBuffer, hnone, Device.CreateCommittedResource, hgpu, hupload]

/-- Witness of C13: a vertex buffer of four vertices created in the empty manager. -/
theorem upload_contract_witness :
    (CreateVertexBuffer sampleConstants D3d12GraphicsManager.empty [⟨0⟩, ⟨1⟩, ⟨2⟩, ⟨3⟩]
        { gpu := S_OK, upload := S_OK }).2.m_pCommandList
      = [Cmd.UpdateSubresources 1 2 (Payload.vertices [⟨0⟩, ⟨1⟩, ⟨2⟩, ⟨3⟩]) 0 0,
         Cmd.ResourceBarrier 1 ResourceState.COPY_DEST
           ResourceState.VERTEX_AND_CONSTANT_BUFFER] :=
  ((upload_contract sampleConstants D3d12GraphicsManager.empty).1 [⟨0⟩, ⟨1⟩, ⟨2⟩, ⟨3⟩]
    { gpu := S_OK, upload := S_OK } rfl rfl).2.1

/-! ## Descriptor indices and heap capacities -/

/-- A recording whose allocator reset or command-list reset fails returns that status and
leaves the manager, its command list included, as it was. -/
theorem PopulateCommandList_of_failed_reset (k : Constants) (debug : Bool)
    (m : D3d12GraphicsManager) (a : RecordAnswers)
    (hfail : FAILED a.allocatorReset = true ∨ FAILED a.listReset = true) :
    FAILED (PopulateCommandList k debug m a).1 = true ∧
    (PopulateCommandList k debug m a).2 = m := by
  unfold PopulateCommandList
  by_cases halloc : FAILED a.allocatorReset = true
  · simp [halloc]
  · rcases hfail with h | h
    · exact absurd h halloc
    · simp [halloc, h]

/-- `Draw` does not look at the status of `PopulateCommandList`: whatever the recording
returned, `Draw` goes on to the submit and present step and then to the fence wait.  When
the allocator reset or the command-list reset failed, the manager that reaches the submit
step is the one `Draw` started with, with the command list as the earlier recording left
it. -/
theorem Draw_ignores_recording_status (k : Constants) (debug : Bool)
    (baseDraw : D3d12GraphicsManager → D3d12GraphicsManager) (m : D3d12GraphicsManager)
    (record : RecordAnswers) (fence : FenceAnswers) :
    Draw k debug baseDraw m record fence
      = (WaitForPreviousFrame (baseDraw (PopulateCommandList k debug m record).2) fence).2 ∧
    (FAILED record.allocatorReset = true ∨ FAILED record.listReset = true →
      FAILED (PopulateCommandList k debug m record).1 = true ∧
      Draw k debug baseDraw m record fence = (WaitForPreviousFrame (baseDraw m) fence).2) := by
  refine ⟨rfl, fun hfail => ?_⟩
  obtain ⟨hstatus, hsame⟩ := PopulateCommandList_of_failed_reset k debug m record hfail
  exact ⟨hstatus, by simp only [Draw, hsame]⟩

/-- The sample frame with a failing allocator reset: `Draw` is the submit step and the
fence wait on the manager it started with. -/
theorem Draw_ignores_recording_status_witness :
    FAILED (PopulateCommandList sampleConstants false sampleFrameManager
        sampleFailedRecordAnswers).1 = true ∧
    Draw sampleConstants false sampleBaseDraw sampleFrameManager sampleFailedRecordAnswers
        sampleFenceAnswers
      = (WaitForPreviousFrame (sampleBaseDraw sampleFrameManager) sampleFenceAnswers).2 :=
  (Draw_ignores_recording_status sampleConstants false sampleBaseDraw sampleFrameManager
    sampleFailedRecordAnswers sampleFenceAnswers).2 (Or.inl rfl)

/-- C15, the code at the failing input: when the allocator reset fails,
`PopulateCommandList` returns `E_FAIL` and records nothing, and `Draw` nevertheless
submits the command list left by the earlier recording and signals the fence; when `Close`
fails, `PopulateCommandList` returns `E_FAIL` and `Draw` nevertheless submits the list just
recorded and signals the fence.  In `InitializeBuffers` the same failing recording is
reported: the function returns the converted status `true`. -/
theorem Draw_submits_after_failed_recording :
    (PopulateCommandList sampleConstants false sampleFrameManager
        sampleFailedRecordAnswers).1 = E_FAIL ∧
    (Draw sampleConstants false sampleBaseDraw sampleFrameManager sampleFailedRecordAnswers
        sampleFenceAnswers).m_pCommandQueue
      = [QueueCall.ExecuteCommandLists [Cmd.Close], QueueCall.Signal 1] ∧
    (PopulateCommandList sampleConstants false sampleFrameManager
        sampleFailedCloseAnswers).1 = E_FAIL ∧
    (Draw sampleConstants false sampleBaseDraw sampleFrameManager sampleFailedCloseAnswers
        sampleFenceAnswers).m_pCommandQueue
      = [QueueCall.ExecuteCommandLists
           (PopulateCommandList sampleConstants false sampleFrameManager
             sampleFailedCloseAnswers).2.m_pCommandList,
         QueueCall.Signal 1] ∧
    (InitializeBuffers sampleConstants false sampleTextureScene sampleInitialized
        { sampleBuffersAnswers with record := sampleFailedRecordAnswers }).1 = true := by
  decide

/-! ## Status of the initialisation steps -/

/-- C16, the code at the failing input: with the "opaque" pipeline state created and no
command list yet, a failing `CreateCommandList` makes `InitializeShaders` return `false`,
the same boolean it returns when all three creations answer `S_OK`; a failing creation of
a pipeline state makes it return `true`. -/
theorem InitializeShaders_failure_like_success :
    (InitializeShaders D3d12GraphicsManager.empty
        { pipelineState := S_OK, commandList := E_FAIL, debugPipelineState := S_OK }).1
      = false ∧
    (InitializeShaders D3d12GraphicsManager.empty
        { pipelineState := S_OK, commandList := S_OK, debugPipelineState := S_OK }).1
      = false ∧
    (InitializeShaders D3d12GraphicsManager.empty
        { pipelineState := E_FAIL, commandList := S_OK, debugPipelineState := S_OK }).1
      = true ∧
    (InitializeShaders D3d12GraphicsManager.empty
        { pipelineState := S_OK, commandList := S_OK, debugPipelineState := E_FAIL }).1
      = true := by
  decide

/-- The status `CreateRenderTarget` returns is that of the creation of the multisampled
render target, whatever `GetBuffer` answered. -/
theorem CreateRenderTarget_status (k : Constants) (m : D3d12GraphicsManager)
    (a : RenderTargetAnswers) : (CreateRenderTarget k m a).1 = a.msaa := by
  unfold CreateRenderTarget
  by_cases hfail : FAILED a.msaa = true <;>
    simp [Device.CreateCommittedResource, hfail]

/-- C17, the code at the failing input: `GetBuffer` fails for back buffer 0 and the
creation of the multisampled render target succeeds; `CreateRenderTarget` returns `S_OK`,
with no back buffer obtained. -/
theorem CreateRenderTarget_loses_GetBuffer_failure :
    (CreateRenderTarget sampleConstants D3d12GraphicsManager.empty
        { getBuffer := fun _ => E_FAIL, backBuffer := fun i => i + 1,
          screenWidth := 960, screenHeight := 540, msaa := S_OK }).1 = S_OK ∧
    (CreateRenderTarget sampleConstants D3d12GraphicsManager.empty
        { getBuffer := fun _ => E_FAIL, backBuffer := fun i => i + 1,
          screenWidth := 960, screenHeight := 540, msaa := S_OK }).2.m_pRenderTargets = [] := by
  decide

/-! ## Adapter selection -/

theorem SafeRelease_msaa (member : ComMember) (m : D3d12GraphicsManager) :
    (SafeRelease member m).m_pMsaaRenderTarget = m.m_pMsaaRenderTarget ∧
    (ReleasedObject.resource m.m_pMsaaRenderTarget ∈ (SafeRelease member m).m_Released
      ↔ ReleasedObject.resource m.m_pMsaaRenderTarget ∈ m.m_Released) := by
  unfold SafeRelease
  by_cases h : member ∈ m.m_nonNull <;> simp [h]

/-- `Finalize` never touches the multisampled render target: if the base-class `Finalize`
leaves its handle alone, the handle after `Finalize` is the handle before. -/
theorem Finalize_keeps_msaa_handle (k : Constants)
    (baseFinalize : D3d12GraphicsManager → D3d12GraphicsManager)
    (hbase : ∀ x, (baseFinalize x).m_pMsaaRenderTarget = x.m_pMsaaRenderTarget)
    (m : D3d12GraphicsManager) (fence : FenceAnswers) :
    (Finalize k baseFinalize m fence).m_pMsaaRenderTarget = m.m_pMsaaRenderTarget := by
  have hloop : ∀ (frames : List Nat) (x : D3d12GraphicsManager),
      (releaseRenderTargets x frames).m_pMsaaRenderTarget = x.m_pMsaaRenderTarget := by
    intro frames
    induction frames with
    | nil => intro x; rfl
    | cons i rest ih =>
      intro x
      simp only [releaseRenderTargets]
      rw [ih]
      split <;> rfl
  have hwait : (WaitForPreviousFrame m fence).2.m_pMsaaRenderTarget = m.m_pMsaaRenderTarget := by
    unfold WaitForPreviousFrame
    by_cases hs : FAILED fence.signal = true
    · simp [hs]
    · by_cases hc : fence.completed < m.m_nFenceValue
      · by_cases he : FAILED fence.setEvent = true <;> simp [hs, hc, he]
      · simp [hs, hc]
  simp only [Finalize, (SafeRelease_msaa _ _).1, hloop, hbase, hwait]

/-- C19, the code at the failing input: `Finalize` on a manager whose pointer members are
all non-null, with back buffers 1 and 2, multisampled render target 3 and depth-stencil
buffer 4, releases and nulls every pointer member, the depth-stencil buffer and both back
buffers, but the multisampled render target keeps its handle 3 and is never released. -/
theorem Finalize_leaves_msaa_render_target :
    (Finalize sampleConstants sampleBaseFinalize sampleLiveManager
        sampleFenceAnswers).m_pMsaaRenderTarget = 3 ∧
    ReleasedObject.resource 3 ∉ (Finalize sampleConstants sampleBaseFinalize sampleLiveManager
        sampleFenceAnswers).m_Released ∧
    (Finalize sampleConstants sampleBaseFinalize sampleLiveManager
        sampleFenceAnswers).m_nonNull = [] ∧
    (Finalize sampleConstants sampleBaseFinalize sampleLiveManager
        sampleFenceAnswers).m_pRenderTargets = [0, 0] ∧
    (Finalize sampleConstants sampleBaseFinalize sampleLiveManager
        sampleFenceAnswers).m_pDepthStencilBuffer = 0 := by
  decide

/-! ## The debug pass -/

/-- The debug pass records three indexed draws of three indices each, at start indices 0,
3 and 6, whatever the state of the manager. -/
theorem recordDebugPass_draws (k : Constants) (m : D3d12GraphicsManager) (cmds : List Cmd) :
    (recordDebugPass k m cmds).filter Cmd.isDraw
      = cmds.filter Cmd.isDraw ++
        [Cmd.DrawIndexedInstanced 3 1 0 0 0, Cmd.DrawIndexedInstanced 3 1 3 0 0,
         Cmd.DrawIndexedInstanced 3 1 6 0 0] := by
  simp [recordDebugPass, recordDebugDraw, List.range, List.range.loop, List.filter_append,
    Cmd.isDraw, List.filter]

/-- C20, the code at the failing input: four lines are accumulated through `DrawLine`, so
that 12 indices (48 bytes) are uploaded at buffer initialisation; the debug pass of
`PopulateCommandList` records three draws of three indices at start indices 0, 3 and 6,
which cover the indices 0 to 8 and leave out the indices 9 to 11 of the fourth line. -/
theorem debug_pass_draws_three_lines :
    sampleDebugManager.m_DebugIndexBufferView.map (fun v => v.SizeInBytes) = [4 * (3 * 4)] ∧
    (PopulateCommandList sampleConstants true sampleDebugManager
        sampleRecordAnswers).2.m_pCommandList.filter Cmd.isDraw
      = [Cmd.DrawIndexedInstanced 3 1 0 0 0, Cmd.DrawIndexedInstanced 3 1 3 0 0,
         Cmd.DrawIndexedInstanced 3 1 6 0 0] := by
  decide

/-! ## Accumulation of debug lines -/

/-- A run of `DrawLine` calls appends the three vertices of each line, in call order, and
the next `3 * n` indices. -/
theorem drawLines_eq (lines : List (Point × Point × Vector3f)) (m : D3d12GraphicsManager) :
    (drawLines m lines).m_DebugVertice
      = m.m_DebugVertice ++ (lines.map lineVertices).flatten ∧
    (drawLines m lines).m_DebugIndices
      = m.m_DebugIndices ++ List.range' m.m_DebugIndices.length (3 * lines.length) := by
  induction lines generalizing m with
  | nil => simp [drawLines]
  | cons line rest ih =>
    obtain ⟨start, finish, color⟩ := line
    obtain ⟨hv, hi⟩ := ih (DrawLine m start finish color)
    simp only [drawLines]
    rw [hv, hi]
    refine ⟨by simp [DrawLine, lineVertices], ?_⟩
    have hlen : 3 * (rest.length + 1) = 3 * rest.length + 3 := by ring
    simp only [DrawLine, List.length_append, List.length_singleton, List.length_cons, hlen,
      List.append_assoc, List.singleton_append, List.cons_append, List.nil_append]
    rw [show 3 * rest.length + 3 = 3 * rest.length + 1 + 1 + 1 from rfl]
    simp only [List.range'_succ, List.append_cancel_left_eq, List.cons.injEq, true_and]
    simp [Nat.add_assoc]

/-- The vertices of line number `n` sit at positions `3 * n`, `3 * n + 1`, `3 * n + 2` of
the concatenation of the vertices of the lines. -/
theorem lineVertices_flatten_getElem (lines : List (Point × Point × Vector3f)) (n : Nat)
    (line : Point × Point × Vector3f) (hline : lines[n]? = some line) (j : Nat) (hj : j < 3) :
    (lines.map lineVertices).flatten[3 * n + j]? = (lineVertices line)[j]? := by
  induction lines generalizing n with
  | nil => simp at hline
  | cons first rest ih =>
    cases n with
    | zero =>
      simp only [List.getElem?_cons_zero, Option.some.injEq] at hline
      subst hline
      simp only [List.map_cons, List.flatten_cons, Nat.mul_zero, Nat.zero_add]
      exact List.getElem?_append_left (by simpa [lineVertices] using hj)
    | succ n =>
      simp only [List.getElem?_cons_succ] at hline
      simp only [List.map_cons, List.flatten_cons]
      rw [List.getElem?_append_right (by simp [lineVertices]; omega)]
      have hidx : 3 * (n + 1) + j - (lineVertices first).length = 3 * n + j := by
        simp [lineVertices]; omega
      rw [hidx]
      exact ih n hline

/-- C21: starting from empty debug accumulation buffers, after `n` calls of `DrawLine` the
vertex list has `3 * n` entries, the index list is `[0, 1, ..., 3 * n - 1]`, and call
number `i` (from 0) has put at positions `3 * i`, `3 * i + 1`, `3 * i + 2` the vertices
`(from, color)`, `(to, color)` and `(middle, color)`, where `middle` is `from + to`
multiplied component by component by one half. -/
theorem drawLines_accumulates (m : D3d12GraphicsManager)
    (lines : List (Point × Point × Vector3f))
    (hvertice : m.m_DebugVertice = []) (hindices : m.m_DebugIndices = []) :
    (drawLines m lines).m_DebugVertice.length = 3 * lines.length ∧
    (drawLines m lines).m_DebugIndices = List.range (3 * lines.length) ∧
    ∀ (i : Nat) (start finish : Point) (color : Vector3f),
      lines[i]? = some (start, finish, color) →
      (drawLines m lines).m_DebugVertice[3 * i]? = some { pos := start, color := color } ∧
      (drawLines m lines).m_DebugVertice[3 * i + 1]?
        = some { pos := finish, color := color } ∧
      (drawLines m lines).m_DebugVertice[3 * i + 2]?
        = some { pos := MulByElement (Point.add start finish)
                          { x := 1 / 2, y := 1 / 2, z := 1 / 2 },
                 color := color } := by
  obtain ⟨hv, hi⟩ := drawLines_eq lines m
  rw [hvertice, List.nil_append] at hv
  rw [hindices, List.nil_append, List.length_nil] at hi
  refine ⟨?_, ?_, ?_⟩
  · rw [hv]
    have hlen : ∀ (ls : List (Point × Point × Vector3f)),
        (ls.map lineVertices).flatten.length = 3 * ls.length := by
      intro ls
      induction ls with
      | nil => rfl
      | cons first rest ih =>
        simp only [List.map_cons, List.flatten_cons, List.length_append, ih, List.length_cons]
        simp [lineVertices]; omega
    exact hlen lines
  · rw [hi, List.range_eq_range']
  · intro i start finish color hline
    rw [hv]
    have h0 := lineVertices_flatten_getElem lines i _ hline 0 (by decide)
    have h1 := lineVertices_flatten_getElem lines i _ hline 1 (by decide)
    have h2 := lineVertices_flatten_getElem lines i _ hline 2 (by decide)
    exact ⟨by simpa [lineVertices] using h0, by simpa [lineVertices] using h1,
      by simpa [lineVertices] using h2⟩

/-- Witness of C21: two lines drawn into the empty manager. -/
theorem drawLines_accumulates_witness :
    (drawLines D3d12GraphicsManager.empty sampleLines).m_DebugVertice.length = 3 * 2 ∧
    (drawLines D3d12GraphicsManager.empty sampleLines).m_DebugIndices = [0, 1, 2, 3, 4, 5] ∧
    (drawLines D3d12GraphicsManager.empty sampleLines).m_DebugVertice[3 * 1 + 2]?
      = some { pos := MulByElement (Point.add ⟨1, 1, 1⟩ ⟨2, 3, 4⟩)
                        { x := 1 / 2, y := 1 / 2, z := 1 / 2 },
               color := ⟨1, 1, 1⟩ } :=
  ⟨(drawLines_accumulates D3d12GraphicsManager.empty sampleLines rfl rfl).1,
   (drawLines_accumulates D3d12GraphicsManager.empty sampleLines rfl rfl).2.1,
   ((drawLines_accumulates D3d12GraphicsManager.empty sampleLines rfl rfl).2.2 1
      ⟨1, 1, 1⟩ ⟨2, 3, 4⟩ ⟨1, 1, 1⟩ rfl).2.2⟩

/-! ## Updating the constants -/

/-- Entry `(r, c)` of the transpose is entry `(c, r)` of the matrix. -/
theorem Transpose_entry (t : Matrix4X4f) (r c : Nat) (hr : r < 4) (hc : c < 4) :
    entry (Transpose t) r c = entry t c r := by
  simp [entry, Transpose, List.getD_eq_getElem?_getD, List.getElem?_map, List.getElem?_range,
    hr, hc]

/-- `SetPerBatchShaderParameters` on a batch of the list appends one write and changes
nothing else. -/
theorem SetPerBatchShaderParameters_eq (k : Constants) (m : D3d12GraphicsManager) (b : Nat)
    (dbc : DrawBatchContext) (hb : m.m_DrawBatchContext[b]? = some dbc) :
    (SetPerBatchShaderParameters k m b).2
      = { m with m_pCbvDataBegin := m.m_pCbvDataBegin ++
          [{ offset := m.m_nFrameIndex * k.kSizeConstantBufferPerFrame
               + k.kSizePerFrameConstantBuffer + b * k.kSizePerBatchConstantBuffer,
             content := ConstantData.batch (Transpose dbc.node.matrix) }] } := by
  simp [SetPerBatchShaderParameters, hb, perBatchOffset]

/-- The loop of `UpdateConstants` over a tail of the batch list appends the per-batch
writes of that tail and changes nothing else. -/
theorem updateBatchConstants_eq (k : Constants) (rest : List DrawBatchContext)
    (m : D3d12GraphicsManager) (i : Nat)
    (hrest : m.m_DrawBatchContext.drop i = rest) :
    updateBatchConstants k m i rest
      = { m with m_pCbvDataBegin := m.m_pCbvDataBegin
            ++ batchWrites k m.m_nFrameIndex i rest } := by
  induction rest generalizing m i with
  | nil => simp [updateBatchConstants, batchWrites]
  | cons dbc rest ih =>
    have hb : m.m_DrawBatchContext[i]? = some dbc := by
      have := congrArg (fun l => l[0]?) hrest
      simpa [List.getElem?_drop] using this
    have hdrop : m.m_DrawBatchContext.drop (i + 1) = rest := by
      have := congrArg List.tail hrest
      simpa [List.tail_drop] using this
    simp only [updateBatchConstants]
    rw [ih (SetPerBatchShaderParameters k m i).2 (i + 1)
      (by rw [SetPerBatchShaderParameters_eq k m i dbc hb]; exact hdrop)]
    rw [SetPerBatchShaderParameters_eq k m i dbc hb]
    simp [batchWrites, List.enumFrom_cons]

/-- C22: for a batch index `b` within the batch list, `SetPerBatchShaderParameters(b)`
appends to the mapped constant buffer exactly one write, at byte offset
`f * kSizeConstantBufferPerFrame + kSizePerFrameConstantBuffer + b *
kSizePerBatchConstantBuffer` (`f` the frame index), of a record that is zero except for its
`objectMatrix`, whose entry `(r, c)` is entry `(c, r)` of the world transform of the node
of batch `b`; the batch list, and with it the matrix of the node, is left as it was.
`UpdateConstants` writes, after the base-class update, the frame context at offset
`f * kSizeConstantBufferPerFrame` and then does this for every batch in list order. -/
theorem UpdateConstants_writes (k : Constants) :
    (∀ (m : D3d12GraphicsManager) (b : Nat) (dbc : DrawBatchContext),
      m.m_DrawBatchContext[b]? = some dbc →
      ∃ objectMatrix : Matrix4X4f,
        (SetPerBatchShaderParameters k m b).2.m_pCbvDataBegin
          = m.m_pCbvDataBegin ++
            [{ offset := m.m_nFrameIndex * k.kSizeConstantBufferPerFrame
                 + k.kSizePerFrameConstantBuffer + b * k.kSizePerBatchConstantBuffer,
               content := ConstantData.batch objectMatrix }] ∧
        (∀ r c, r < 4 → c < 4 → entry objectMatrix r c = entry dbc.node.matrix c r) ∧
        (SetPerBatchShaderParameters k m b).2.m_DrawBatchContext = m.m_DrawBatchContext) ∧
    (∀ (baseUpdateConstants : D3d12GraphicsManager → D3d12GraphicsManager)
      (m : D3d12GraphicsManager),
      (UpdateConstants k baseUpdateConstants m).m_pCbvDataBegin
        = (baseUpdateConstants m).m_pCbvDataBegin ++
          [{ offset := (baseUpdateConstants m).m_nFrameIndex * k.kSizeConstantBufferPerFrame,
             content := ConstantData.frame (baseUpdateConstants m).m_DrawFrameContext }] ++
          batchWrites k (baseUpdateConstants m).m_nFrameIndex 0
            (baseUpdateConstants m).m_DrawBatchContext ∧
      (UpdateConstants k baseUpdateConstants m).m_DrawBatchContext
        = (baseUpdateConstants m).m_DrawBatchContext) := by
  refine ⟨fun m b dbc hb => ⟨Transpose dbc.node.matrix, ?_, ?_, ?_⟩, fun base m => ?_⟩
  · rw [SetPerBatchShaderParameters_eq k m b dbc hb]
  · exact fun r c hr hc => Transpose_entry _ r c hr hc
  · rw [SetPerBatchShaderParameters_eq k m b dbc hb]
  · simp only [UpdateConstants]
    rw [updateBatchConstants_eq k _ _ 0 (by simp)]
    simp [SetPerFrameShaderParameters, perFrameOffset]

/-- Witness of C22: the second batch of the sample manager, at frame index 1, whose node
has the world transform with entries 1 to 16: the record goes to offset
`1 * 1280 + 256 + 1 * 256` with the transposed matrix. -/
theorem UpdateConstants_writes_witness :
    ∃ objectMatrix : Matrix4X4f,
      (SetPerBatchShaderParameters sampleConstants sampleConstantsManager 1).2.m_pCbvDataBegin
        = [{ offset := 1792, content := ConstantData.batch objectMatrix }] ∧
      (∀ r c, r < 4 → c < 4 → entry objectMatrix r c = entry sampleMovedNode.matrix c r) ∧
      (SetPerBatchShaderParameters sampleConstants sampleConstantsManager 1).2.m_DrawBatchContext
        = sampleConstantsManager.m_DrawBatchContext :=
  (UpdateConstants_writes sampleConstants).1 sampleConstantsManager 1
    { IndexCount := 6, StartIndexLocation := 6, BaseVertexLocation := 4,
      material := none, node := sampleMovedNode } rfl

/-! ## Failure of the resource-creation calls -/

/-- C23: when `CreateVertexBuffer`, `CreateIndexBuffer` or `CreateTextureBuffer` returns a
failure status, the status is that of the resource creation that failed (the GPU-local
one, or the upload one after a successful GPU-local one), and every member of the manager
is as before the call (command list, buffer-view lists, owned buffer and texture lists,
texture registry, ...), the device apart, which holds whatever was created before the
failure; the texture and its image are as before the call. -/
theorem creation_failure_atomic (k : Constants) (m : D3d12GraphicsManager) :
    (∀ (vertex_array : List VertexBasicAttribs) (a : BufferAnswers),
      FAILED (CreateVertexBuffer k m vertex_array a).1 = true →
      (CreateVertexBuffer k m vertex_array a).2
        = { m with m_pDev := (CreateVertexBuffer k m vertex_array a).2.m_pDev } ∧
      ((FAILED a.gpu = true ∧ (CreateVertexBuffer k m vertex_array a).1 = a.gpu) ∨
       (FAILED a.gpu = false ∧ FAILED a.upload = true ∧
        (CreateVertexBuffer k m vertex_array a).1 = a.upload))) ∧
    (∀ (index_array : List Nat) (a : BufferAnswers),
      FAILED (CreateIndexBuffer m index_array a).1 = true →
      (CreateIndexBuffer m index_array a).2
        = { m with m_pDev := (CreateIndexBuffer m index_array a).2.m_pDev } ∧
      ((FAILED a.gpu = true ∧ (CreateIndexBuffer m index_array a).1 = a.gpu) ∨
       (FAILED a.gpu = false ∧ FAILED a.upload = true ∧
        (CreateIndexBuffer m index_array a).1 = a.upload))) ∧
    (∀ (texture : SceneObjectTexture) (a : TextureAnswers),
      FAILED (CreateTextureBuffer k m texture a).1 = true →
      (CreateTextureBuffer k m texture a).2.1
        = { m with m_pDev := (CreateTextureBuffer k m texture a).2.1.m_pDev } ∧
      (CreateTextureBuffer k m texture a).2.2 = texture ∧
      ((FAILED a.gpu = true ∧ (CreateTextureBuffer k m texture a).1 = a.gpu) ∨
       (FAILED a.gpu = false ∧ FAILED a.upload = true ∧
        (CreateTextureBuffer k m texture a).1 = a.upload))) := by
  refine ⟨?_, ?_, ?_⟩
  · intro vertex_array a
    unfold CreateVertexBuffer Device.CreateCommittedResource
    by_cases hgpu : FAILED a.gpu = true
    · simp [hgpu]
    · by_cases hupload : FAILED a.upload = true
      · simp [hgpu, hupload]
      · simp [hgpu, hupload]
  · intro index_array a
    unfold CreateIndexBuffer Device.CreateCommittedResource
    by_cases hgpu : FAILED a.gpu = true
    · simp [hgpu]
    · by_cases hupload : FAILED a.upload = true
      · simp [hgpu, hupload]
      · simp [hgpu, hupload]
  · intro texture a
    unfold CreateTextureBuffer Device.CreateCommittedResource
    cases hfind : TextureIndex.find m.m_TextureIndex texture.name with
    | some v => simp [FAILED, S_OK]
    | none =>
      by_cases hgpu : FAILED a.gpu = true
      · simp [hgpu]
      · by_cases hupload : FAILED a.upload = true
        · simp [hgpu, hupload]
        · simp [hgpu, hupload]

/-- Witness of C23: the creation of the texture of a 24-bit image whose upload resource
cannot be created returns `E_FAIL`, leaves the command list and the registry empty and the
image unwidened. -/
theorem creation_failure_atomic_witness :
    (CreateTextureBuffer sampleConstants D3d12GraphicsManager.empty ⟨"color", sampleImage⟩
        sampleFailedTextureAnswers).2.1
      = { D3d12GraphicsManager.empty with
          m_pDev := (CreateTextureBuffer sampleConstants D3d12GraphicsManager.empty
            ⟨"color", sampleImage⟩ sampleFailedTextureAnswers).2.1.m_pDev } ∧
    (CreateTextureBuffer sampleConstants D3d12GraphicsManager.empty ⟨"color", sampleImage⟩
        sampleFailedTextureAnswers).2.2 = ⟨"color", sampleImage⟩ ∧
    ((FAILED sampleFailedTextureAnswers.gpu = true ∧
      (CreateTextureBuffer sampleConstants D3d12GraphicsManager.empty ⟨"color", sampleImage⟩
        sampleFailedTextureAnswers).1 = sampleFailedTextureAnswers.gpu) ∨
     (FAILED sampleFailedTextureAnswers.gpu = false ∧
      FAILED sampleFailedTextureAnswers.upload = true ∧
      (CreateTextureBuffer sampleConstants D3d12GraphicsManager.empty ⟨"color", sampleImage⟩
        sampleFailedTextureAnswers).1 = sampleFailedTextureAnswers.upload)) :=
  (creation_failure_atomic sampleConstants D3d12GraphicsManager.empty).2.2
    ⟨"color", sampleImage⟩ sampleFailedTextureAnswers (by decide)

/-! ## The descriptor table of the constant buffer -/

/-- Looking up a heap after one more write. -/
theorem DescriptorHeap.lookup_append_single (heap : DescriptorHeap) (write : Int × Descriptor)
    (index : Int) :
    DescriptorHeap.lookup (heap ++ [write]) index
      = if write.1 = index then some write.2 else DescriptorHeap.lookup heap index := by
  simp [DescriptorHeap.lookup, List.foldl_append]

/-- The inner loop of `CreateConstantBuffer`, started at handle `cbvHandle`: it leaves the
descriptors below `cbvHandle` alone, and for the batch at position `n` of the list it
leaves at `cbvHandle + 2 * n` the view of the per-frame block of frame `i` and at the next
index the view of the per-batch block of that batch. -/
theorem constantBufferBatchLoop_lookup (k : Constants) (res : Resource) (i : Nat)
    (batches : List Nat) (heap : DescriptorHeap) (cbvHandle : Int) :
    (∀ index : Int, index < cbvHandle →
      DescriptorHeap.lookup (constantBufferBatchLoop k res i (heap, cbvHandle) batches).1 index
        = DescriptorHeap.lookup heap index) ∧
    (∀ (n j : Nat), batches[n]? = some j →
      DescriptorHeap.lookup (constantBufferBatchLoop k res i (heap, cbvHandle) batches).1
          (cbvHandle + 2 * n)
        = some (Descriptor.CBV res (i * k.kSizeConstantBufferPerFrame)
            k.kSizePerFrameConstantBuffer) ∧
      DescriptorHeap.lookup (constantBufferBatchLoop k res i (heap, cbvHandle) batches).1
          (cbvHandle + 2 * n + 1)
        = some (Descriptor.CBV res
            (i * k.kSizeConstantBufferPerFrame
              + (k.kSizePerFrameConstantBuffer + j * k.kSizePerBatchConstantBuffer))
            k.kSizePerBatchConstantBuffer)) := by
  induction batches generalizing heap cbvHandle with
  | nil => exact ⟨fun _ _ => rfl, fun n j h => by simp at h⟩
  | cons j0 rest ih =>
    simp only [constantBufferBatchLoop]
    obtain ⟨hbelow, hat⟩ := ih
      (heap ++ [(cbvHandle, Descriptor.CBV res (i * k.kSizeConstantBufferPerFrame)
          k.kSizePerFrameConstantBuffer)]
        ++ [(cbvHandle + 1, Descriptor.CBV res
          (i * k.kSizeConstantBufferPerFrame
            + (k.kSizePerFrameConstantBuffer + j0 * k.kSizePerBatchConstantBuffer))
          k.kSizePerBatchConstantBuffer)]) (cbvHandle + 1 + 1)
    refine ⟨fun index hindex => ?_, fun n j hn => ?_⟩
    · rw [hbelow index (by omega), DescriptorHeap.lookup_append_single,
        DescriptorHeap.lookup_append_single]
      have h1 : ¬ cbvHandle + 1 = index := by omega
      have h2 : ¬ cbvHandle = index := by omega
      simp [h1, h2]
    · cases n with
      | zero =>
        simp only [List.getElem?_cons_zero, Option.some.injEq] at hn
        subst hn
        refine ⟨?_, ?_⟩
        · rw [show cbvHandle + 2 * ((0 : Nat) : Int) = cbvHandle by simp,
            hbelow cbvHandle (by omega), DescriptorHeap.lookup_append_single,
            DescriptorHeap.lookup_append_single]
          simp
        · rw [show cbvHandle + 2 * ((0 : Nat) : Int) + 1 = cbvHandle + 1 by simp,
            hbelow (cbvHandle + 1) (by omega), DescriptorHeap.lookup_append_single]
          simp
      | succ n =>
        simp only [List.getElem?_cons_succ] at hn
        obtain ⟨hframe, hbatch⟩ := hat n j hn
        have hidx : cbvHandle + 2 * ((n + 1 : Nat) : Int) = cbvHandle + 1 + 1 + 2 * (n : Int) := by
          push_cast; ring
        rw [hidx]
        exact ⟨hframe, hbatch⟩

/-- The handle after the inner loop of `CreateConstantBuffer`. -/
theorem constantBufferBatchLoop_handle (k : Constants) (res : Resource) (i : Nat)
    (batches : List Nat) (heap : DescriptorHeap) (cbvHandle : Int) :
    (constantBufferBatchLoop k res i (heap, cbvHandle) batches).2
      = cbvHandle + 2 * batches.length := by
  induction batches generalizing heap cbvHandle with
  | nil => simp [constantBufferBatchLoop]
  | cons j0 rest ih =>
    simp only [constantBufferBatchLoop, ih, List.length_cons]
    push_cast; ring

/-- The outer loop of `CreateConstantBuffer`, started at handle `cbvHandle`: it leaves the
descriptors below `cbvHandle` alone, and for the frame `i` at position `x` of the list and
the batch `b` it leaves at `cbvHandle + x * 2 * kMaxSceneObjectCount + 2 * b` and at the
next index the views of the per-frame block of `i` and of the per-batch block of `b`. -/
theorem constantBufferFrameLoop_lookup (k : Constants) (res : Resource)
    (frames : List Nat) (heap : DescriptorHeap) (cbvHandle : Int) :
    (∀ index : Int, index < cbvHandle →
      DescriptorHeap.lookup (constantBufferFrameLoop k res (heap, cbvHandle) frames).1 index
        = DescriptorHeap.lookup heap index) ∧
    (∀ (x i b : Nat), frames[x]? = some i → b < k.kMaxSceneObjectCount →
      DescriptorHeap.lookup (constantBufferFrameLoop k res (heap, cbvHandle) frames).1
          (cbvHandle + x * (2 * k.kMaxSceneObjectCount) + 2 * b)
        = some (Descriptor.CBV res (i * k.kSizeConstantBufferPerFrame)
            k.kSizePerFrameConstantBuffer) ∧
      DescriptorHeap.lookup (constantBufferFrameLoop k res (heap, cbvHandle) frames).1
          (cbvHandle + x * (2 * k.kMaxSceneObjectCount) + 2 * b + 1)
        = some (Descriptor.CBV res
            (i * k.kSizeConstantBufferPerFrame
              + (k.kSizePerFrameConstantBuffer + b * k.kSizePerBatchConstantBuffer))
            k.kSizePerBatchConstantBuffer)) := by
  induction frames generalizing heap cbvHandle with
  | nil => exact ⟨fun _ _ => rfl, fun x i b h => by simp at h⟩
  | cons i0 rest ih =>
    simp only [constantBufferFrameLoop]
    have hpair : constantBufferBatchLoop k res i0 (heap, cbvHandle)
          (List.range k.kMaxSceneObjectCount)
        = ((constantBufferBatchLoop k res i0 (heap, cbvHandle)
              (List.range k.kMaxSceneObjectCount)).1,
           cbvHandle + 2 * (k.kMaxSceneObjectCount : Int)) := by
      have := constantBufferBatchLoop_handle k res i0 (List.range k.kMaxSceneObjectCount)
        heap cbvHandle
      rw [List.length_range] at this
      rw [← this]
    rw [hpair]
    obtain ⟨hbelow, hat⟩ := ih
      (constantBufferBatchLoop k res i0 (heap, cbvHandle)
        (List.range k.kMaxSceneObjectCount)).1
      (cbvHandle + 2 * (k.kMaxSceneObjectCount : Int))
    obtain ⟨hbelow0, hat0⟩ := constantBufferBatchLoop_lookup k res i0
      (List.range k.kMaxSceneObjectCount) heap cbvHandle
    refine ⟨fun index hindex => ?_, fun x i b hx hb => ?_⟩
    · rw [hbelow index (by omega), hbelow0 index hindex]
    · cases x with
      | zero =>
        simp only [List.getElem?_cons_zero, Option.some.injEq] at hx
        subst hx
        have hrange : (List.range k.kMaxSceneObjectCount)[b]? = some b := by
          simp [List.getElem?_range, hb]
        obtain ⟨hframe, hbatch⟩ := hat0 b b hrange
        have hlt : (b : Int) < k.kMaxSceneObjectCount := by exact_mod_cast hb
        refine ⟨?_, ?_⟩
        · rw [show cbvHandle + ((0 : Nat) : Int) * (2 * (k.kMaxSceneObjectCount : Int))
              + 2 * (b : Int) = cbvHandle + 2 * (b : Int) by simp,
            hbelow _ (by omega), hframe]
        · rw [show cbvHandle + ((0 : Nat) : Int) * (2 * (k.kMaxSceneObjectCount : Int))
              + 2 * (b : Int) + 1 = cbvHandle + 2 * (b : Int) + 1 by simp,
            hbelow _ (by omega), hbatch]
      | succ x =>
        simp only [List.getElem?_cons_succ] at hx
        obtain ⟨hframe, hbatch⟩ := hat x i b hx hb
        have hidx : cbvHandle + ((x + 1 : Nat) : Int) * (2 * (k.kMaxSceneObjectCount : Int))
            = cbvHandle + 2 * (k.kMaxSceneObjectCount : Int)
              + (x : Int) * (2 * (k.kMaxSceneObjectCount : Int)) := by
          push_cast; ring
        rw [hidx]
        exact ⟨hframe, hbatch⟩

/-- The one bind of root slot 0 among the calls of batch number `i` is the bind of the
descriptor `m_nFrameIndex * 2 * kMaxSceneObjectCount + 2 * i`. -/
theorem recordBatch_slot_zero (k : Constants) (m : D3d12GraphicsManager) (i : Nat)
    (dbc : DrawBatchContext) (s : List Cmd × TextureIndex) :
    (recordBatch k m i dbc s).1.filter (Cmd.bindsSlot 0)
      = s.1.filter (Cmd.bindsSlot 0) ++
        [Cmd.SetGraphicsRootDescriptorTable 0 HeapKind.CbvSrvUav
          ((m.m_nFrameIndex * (2 * k.kMaxSceneObjectCount) + i * 2 : Nat) : Int)] := by
  obtain ⟨hcalls, _⟩ := recordBatch_spec k m i dbc s _ (TextureIndex.Extends.refl _)
  rw [hcalls]
  have htex : (textureBinds k (recordBatch k m i dbc s).2 dbc.material).filter
      (Cmd.bindsSlot 0) = [] := by
    rw [List.filter_eq_nil_iff]
    intro c hc
    obtain ⟨slot, index, rfl, hlow, _⟩ := textureBinds_slots k _ _ c hc
    simp only [Cmd.bindsSlot, decide_eq_true_eq]
    omega
  simp [batchCalls, List.filter_append, htex, Cmd.bindsSlot, List.filter]

/-- C24: after a `CreateConstantBuffer` whose resource creation succeeds, for every frame
`f < kFrameCount` and batch `b < kMaxSceneObjectCount` the descriptor at index
`f * 2 * kMaxSceneObjectCount + 2 * b` of the CBV heap views the range of the constant
buffer that starts at `f * kSizeConstantBufferPerFrame` and has length
`kSizePerFrameConstantBuffer`, and the next descriptor views the range that starts at
`f * kSizeConstantBufferPerFrame + kSizePerFrameConstantBuffer + b *
kSizePerBatchConstantBuffer` and has length `kSizePerBatchConstantBuffer`.  That index is
the one `PopulateCommandList` binds to root slot 0 for batch `b` when the frame index is
`f`, and the two range starts are the offsets at which `SetPerFrameShaderParameters` and
`SetPerBatchShaderParameters(b)` write when the frame index is `f`. -/
theorem constant_descriptor_table_agrees (k : Constants) (m : D3d12GraphicsManager)
    (create map : HRESULT) (hcreate : FAILED create = false)
    (f b : Nat) (hf : f < k.kFrameCount) (hb : b < k.kMaxSceneObjectCount) :
    DescriptorHeap.lookup (CreateConstantBuffer k m create map).2.m_pCbvHeap
        ((f * (2 * k.kMaxSceneObjectCount) + b * 2 : Nat) : Int)
      = some (Descriptor.CBV (m.m_pDev.resources.length + 1)
          (f * k.kSizeConstantBufferPerFrame) k.kSizePerFrameConstantBuffer) ∧
    DescriptorHeap.lookup (CreateConstantBuffer k m create map).2.m_pCbvHeap
        ((f * (2 * k.kMaxSceneObjectCount) + b * 2 : Nat) + 1 : Int)
      = some (Descriptor.CBV (m.m_pDev.resources.length + 1)
          (f * k.kSizeConstantBufferPerFrame + k.kSizePerFrameConstantBuffer
            + b * k.kSizePerBatchConstantBuffer) k.kSizePerBatchConstantBuffer) ∧
    (∀ (frame : D3d12GraphicsManager) (dbc : DrawBatchContext) (s : List Cmd × TextureIndex),
      frame.m_nFrameIndex = f →
      (recordBatch k frame b dbc s).1.filter (Cmd.bindsSlot 0)
        = s.1.filter (Cmd.bindsSlot 0) ++
          [Cmd.SetGraphicsRootDescriptorTable 0 HeapKind.CbvSrvUav
            ((f * (2 * k.kMaxSceneObjectCount) + b * 2 : Nat) : Int)]) ∧
    (∀ (frame : D3d12GraphicsManager), frame.m_nFrameIndex = f →
      (SetPerFrameShaderParameters k frame).2.m_pCbvDataBegin
        = frame.m_pCbvDataBegin ++
          [{ offset := f * k.kSizeConstantBufferPerFrame,
             content := ConstantData.frame frame.m_DrawFrameContext }]) ∧
    (∀ (frame : D3d12GraphicsManager) (dbc : DrawBatchContext), frame.m_nFrameIndex = f →
      frame.m_DrawBatchContext[b]? = some dbc →
      (SetPerBatchShaderParameters k frame b).2.m_pCbvDataBegin
        = frame.m_pCbvDataBegin ++
          [{ offset := f * k.kSizeConstantBufferPerFrame + k.kSizePerFrameConstantBuffer
               + b * k.kSizePerBatchConstantBuffer,
             content := ConstantData.batch (Transpose dbc.node.matrix) }]) := by
  have hheap : (CreateConstantBuffer k m create map).2.m_pCbvHeap
      = (constantBufferFrameLoop k (m.m_pDev.resources.length + 1) (m.m_pCbvHeap, 0)
          (List.range k.kFrameCount)).1 := by
    simp [CreateConstantBuffer, Device.CreateCommittedResource, hcreate]
  have hrange : (List.range k.kFrameCount)[f]? = some f := by
    simp [List.getElem?_range, hf]
  obtain ⟨hframe, hbatch⟩ := (constantBufferFrameLoop_lookup k (m.m_pDev.resources.length + 1)
    (List.range k.kFrameCount) m.m_pCbvHeap 0).2 f f b hrange hb
  have hidx : ((f * (2 * k.kMaxSceneObjectCount) + b * 2 : Nat) : Int)
      = 0 + (f : Int) * (2 * (k.kMaxSceneObjectCount : Int)) + 2 * (b : Int) := by
    push_cast; ring
  refine ⟨?_, ?_, ?_, ?_, ?_⟩
  · rw [hheap, hidx, hframe]
  · rw [hheap, hidx, hbatch, Nat.add_assoc]
  · intro frame dbc s hindex
    rw [← hindex]
    exact recordBatch_slot_zero k frame b dbc s
  · intro frame hindex
    simp [SetPerFrameShaderParameters, perFrameOffset, hindex]
  · intro frame dbc hindex hdbc
    rw [SetPerBatchShaderParameters_eq k frame b dbc hdbc, hindex]

/-- Witness of C24: with the sample constants, frame 1 and batch 2: the descriptors at
indices 12 and 13 view the ranges that start at 1280 and at 2048. -/
theorem constant_descriptor_table_agrees_witness :
    DescriptorHeap.lookup
        (CreateConstantBuffer sampleConstants D3d12GraphicsManager.empty S_OK S_OK).2.m_pCbvHeap
        12
      = some (Descriptor.CBV 1 1280 256) ∧
    DescriptorHeap.lookup
        (CreateConstantBuffer sampleConstants D3d12GraphicsManager.empty S_OK S_OK).2.m_pCbvHeap
        13
      = some (Descriptor.CBV 1 2048 256) :=
  ⟨(constant_descriptor_table_agrees sampleConstants D3d12GraphicsManager.empty S_OK S_OK rfl
      1 2 (by decide) (by decide)).1,
   (constant_descriptor_table_agrees sampleConstants D3d12GraphicsManager.empty S_OK S_OK rfl
      1 2 (by decide) (by decide)).2.1⟩

/-! ## The texture registry during a frame and across scene loads -/

/-- A read `m_TextureIndex[name]` of a name that is not registered adds the name to the
registry with slot 0. -/
theorem TextureIndex.subscript_of_find_none (r : TextureIndex) (name : String)
    (hnone : TextureIndex.find r name = none) :
    TextureIndex.subscript r name = (0, r ++ [(name, 0)]) := by
  simp [TextureIndex.subscript, hnone]

/-- C25, the code at the failing input: the registry holds "MSAA" at slot 0 and the one
batch has a material whose colour and normal maps resolve to the textures "color" and
"normal", which are not registered.  `PopulateCommandList` adds both names to the
registry, each with slot 0, so that three names share slot 0, and binds descriptor
`kTextureDescStartIndex + 0` to the root slots 2 and 4. -/
theorem PopulateCommandList_registers_textures :
    sampleUnregisteredManager.m_TextureIndex = [("MSAA", 0)] ∧
    (PopulateCommandList sampleConstants false sampleUnregisteredManager
        sampleRecordAnswers).2.m_TextureIndex
      = [("MSAA", 0), ("color", 0), ("normal", 0)] ∧
    (PopulateCommandList sampleConstants false sampleUnregisteredManager
        sampleRecordAnswers).2.m_pCommandList.filter (Cmd.bindsSlot 2)
      = [Cmd.SetGraphicsRootDescriptorTable 2 HeapKind.CbvSrvUav 16] ∧
    (PopulateCommandList sampleConstants false sampleUnregisteredManager
        sampleRecordAnswers).2.m_pCommandList.filter (Cmd.bindsSlot 4)
      = [Cmd.SetGraphicsRootDescriptorTable 4 HeapKind.CbvSrvUav 16] := by
  decide

/-- C26, the code at the failing input: `Initialize` puts the view of the multisampled
render target (resource 1) at slot 0 of the texture region (descriptor 16) and registers
"MSAA" there; the first `InitializeBuffers` gives the texture "color" slot 1; after
`ClearBuffers`, which empties the registry, the second `InitializeBuffers` gives "color"
slot 0 and writes the view of its resource (resource 14) over descriptor 16, while the
multisampled render target is still resource 1. -/
theorem texture_view_over_msaa_view :
    TextureIndex.find sampleInitialized.m_TextureIndex "MSAA" = some 0 ∧
    sampleInitialized.m_pMsaaRenderTarget = 1 ∧
    DescriptorHeap.lookup sampleInitialized.m_pCbvHeap 16 = some (Descriptor.SRV 1) ∧
    TextureIndex.find sampleLoaded.m_TextureIndex "color" = some 1 ∧
    DescriptorHeap.lookup sampleLoaded.m_pCbvHeap 16 = some (Descriptor.SRV 1) ∧
    TextureIndex.find (ClearBuffers sampleLoaded).m_TextureIndex "MSAA" = none ∧
    TextureIndex.find sampleReloaded.m_TextureIndex "color" = some 0 ∧
    sampleReloaded.m_pMsaaRenderTarget = 1 ∧
    sampleReloaded.m_Textures = [14, 16] ∧
    DescriptorHeap.lookup sampleReloaded.m_pCbvHeap 16 = some (Descriptor.SRV 14) := by
  decide

/-! ## Creating a texture again after the registry was cleared -/

/-- The widening leaves `bitcount`, `Width` and `Height` of the image as they are. -/
theorem widenImage_bitcount (image : Image) (fresh : Nat → Byte) :
    (widenImage image fresh).bitcount = image.bitcount ∧
    (widenImage image fresh).Width = image.Width ∧
    (widenImage image fresh).Height = image.Height ∧
    (widenImage image fresh).pitch = image.pitch / 3 * 4 := by
  simp [widenImage]

/-- C27, the code at the failing input: the texture "row" has a 24-bit image of 3 x 1
pixels (pitch 9).  The first `CreateTextureBuffer` widens it to pitch 12 and leaves
`bitcount` at 24; after `ClearBuffers` the second `CreateTextureBuffer` on the same
texture widens the widened image again: pitch 16 and data size 16 instead of 12, and
pixel bytes in which the second and third pixel are shifted, which it uploads. -/
theorem CreateTextureBuffer_widens_again :
    sampleFirstCreation.2.2.image
      = { Width := 3, Height := 1, bitcount := 24, pitch := 12, data_size := 12,
          data := [1, 2, 3, 0, 4, 5, 6, 0, 7, 8, 9, 0] } ∧
    TextureIndex.find (ClearBuffers sampleFirstCreation.2.1).m_TextureIndex "row" = none ∧
    sampleSecondCreation.1 = S_OK ∧
    sampleSecondCreation.2.2.image
      = { Width := 3, Height := 1, bitcount := 24, pitch := 16, data_size := 16,
          data := [1, 2, 3, 0, 0, 4, 5, 0, 6, 0, 7, 0, 255, 255, 255, 255] } ∧
    sampleSecondCreation.2.1.m_pCommandList.getLast?
      = some (Cmd.ResourceBarrier 3 ResourceState.COPY_DEST ResourceState.GENERIC_READ) ∧
    Cmd.UpdateSubresources 3 4
        (Payload.bytes [1, 2, 3, 0, 0, 4, 5, 0, 6, 0, 7, 0, 255, 255, 255, 255]) 16 16
      ∈ sampleSecondCreation.2.1.m_pCommandList := by
  decide

/-! ## Byte offsets touched by the widening -/

/-- The offsets read by the widening: the four bytes from `row * pitch + 3 * col` on, for
every row and column of the image. -/
theorem mem_widenReads (pitch Width Height x : Nat) :
    x ∈ widenReads pitch Width Height ↔
      ∃ row col j, row < Height ∧ col < Width ∧ j < 4 ∧ x = row * pitch + 3 * col + j := by
  simp only [widenReads, List.mem_flatten, List.mem_map, List.mem_range]
  constructor
  · rintro ⟨l, ⟨row, hrow, rfl⟩, hx⟩
    simp only [List.mem_flatten, List.mem_map, List.mem_range] at hx
    obtain ⟨l', ⟨col, hcol, rfl⟩, hx⟩ := hx
    simp only [List.mem_cons, List.mem_singleton, List.not_mem_nil, or_false] at hx
    rcases hx with rfl | rfl | rfl | rfl
    · exact ⟨row, col, 0, hrow, hcol, by omega, by omega⟩
    · exact ⟨row, col, 1, hrow, hcol, by omega, by omega⟩
    · exact ⟨row, col, 2, hrow, hcol, by omega, by omega⟩
    · exact ⟨row, col, 3, hrow, hcol, by omega, by omega⟩
  · rintro ⟨row, col, j, hrow, hcol, hj, rfl⟩
    refine ⟨_, ⟨row, hrow, rfl⟩, ?_⟩
    simp only [List.mem_flatten, List.mem_map, List.mem_range]
    refine ⟨_, ⟨col, hcol, rfl⟩, ?_⟩
    simp only [List.mem_cons, List.mem_singleton, List.not_mem_nil, or_false]
    omega

/-- The offsets written by the widening: the four bytes from `row * new_pitch + 4 * col`
on, for every row and column of the image. -/
theorem mem_widenWrites (new_pitch Width Height x : Nat) :
    x ∈ widenWrites new_pitch Width Height ↔
      ∃ row col j, row < Height ∧ col < Width ∧ j < 4 ∧ x = row * new_pitch + 4 * col + j := by
  simp only [widenWrites, List.mem_flatten, List.mem_map, List.mem_range]
  constructor
  · rintro ⟨l, ⟨row, hrow, rfl⟩, hx⟩
    simp only [List.mem_flatten, List.mem_map, List.mem_range] at hx
    obtain ⟨l', ⟨col, hcol, rfl⟩, hx⟩ := hx
    simp only [List.mem_cons, List.mem_singleton, List.not_mem_nil, or_false] at hx
    rcases hx with rfl | rfl | rfl | rfl
    · exact ⟨row, col, 0, hrow, hcol, by omega, by omega⟩
    · exact ⟨row, col, 1, hrow, hcol, by omega, by omega⟩
    · exact ⟨row, col, 2, hrow, hcol, by omega, by omega⟩
    · exact ⟨row, col, 3, hrow, hcol, by omega, by omega⟩
  · rintro ⟨row, col, j, hrow, hcol, hj, rfl⟩
    refine ⟨_, ⟨row, hrow, rfl⟩, ?_⟩
    simp only [List.mem_flatten, List.mem_map, List.mem_range]
    refine ⟨_, ⟨col, hcol, rfl⟩, ?_⟩
    simp only [List.mem_cons, List.mem_singleton, List.not_mem_nil, or_false]
    omega

/-- With a pitch of at least three bytes per pixel, every offset the widening writes is
inside the new buffer of `new_pitch * Height` bytes. -/
theorem widenWrites_in_bounds (pitch Width Height : Nat) (hpitch : 3 * Width ≤ pitch)
    (x : Nat) (hx : x ∈ widenWrites (pitch / 3 * 4) Width Height) :
    x < pitch / 3 * 4 * Height := by
  obtain ⟨row, col, j, hrow, hcol, hj, rfl⟩ := (mem_widenWrites _ _ _ _).1 hx
  have hw : Width ≤ pitch / 3 := by omega
  have hmul : (row + 1) * (pitch / 3 * 4) ≤ Height * (pitch / 3 * 4) :=
    Nat.mul_le_mul_right _ hrow
  rw [Nat.succ_mul] at hmul
  rw [Nat.mul_comm (pitch / 3 * 4) Height]
  omega

/-- When the rows are padded by at least one byte, every offset the widening reads is
inside the source of `pitch * Height` bytes. -/
theorem widenReads_in_bounds_of_padded (pitch Width Height : Nat) (hpitch : 3 * Width < pitch)
    (x : Nat) (hx : x ∈ widenReads pitch Width Height) :
    x < pitch * Height := by
  obtain ⟨row, col, j, hrow, hcol, hj, rfl⟩ := (mem_widenReads _ _ _ _).1 hx
  have hmul : (row + 1) * pitch ≤ Height * pitch := Nat.mul_le_mul_right _ hrow
  rw [Nat.succ_mul] at hmul
  rw [Nat.mul_comm pitch Height]
  omega

/-- When the rows are not padded (`pitch = 3 * Width`), the read of the last pixel of the
last row reaches the offset `pitch * Height`, one byte past the end of the source. -/
theorem widenReads_past_end_of_unpadded (Width Height : Nat) (hWidth : 1 ≤ Width)
    (hHeight : 1 ≤ Height) :
    3 * Width * Height ∈ widenReads (3 * Width) Width Height := by
  rw [mem_widenReads]
  refine ⟨Height - 1, Width - 1, 3, by omega, by omega, by omega, ?_⟩
  obtain ⟨h, rfl⟩ : ∃ h, Height = h + 1 := ⟨Height - 1, by omega⟩
  obtain ⟨w, rfl⟩ : ∃ w, Width = w + 1 := ⟨Width - 1, by omega⟩
  simp only [Nat.add_sub_cancel]
  ring

/-- C28, the code at the failing input: for the 24-bit image of 3 x 1 pixels with pitch 9,
whose source holds 9 bytes, the widening reads the source at offset 9 (the fourth byte
fetched for the last pixel, which starts at offset 6), which is not below `9 * 1`; what
it writes stays inside the new buffer of 12 bytes. -/
theorem widening_reads_past_source :
    sampleRowImage.data.length = sampleRowImage.pitch * sampleRowImage.Height ∧
    3 * sampleRowImage.Width ≤ sampleRowImage.pitch ∧
    widenReads sampleRowImage.pitch sampleRowImage.Width sampleRowImage.Height
      = [0, 1, 2, 3, 3, 4, 5, 6, 6, 7, 8, 9] ∧
    sampleRowImage.pitch * sampleRowImage.Height
      ∈ widenReads sampleRowImage.pitch sampleRowImage.Width sampleRowImage.Height ∧
    widenWrites (sampleRowImage.pitch / 3 * 4) sampleRowImage.Width sampleRowImage.Height
      = [0, 1, 2, 3, 4, 5, 6, 7, 8, 9, 10, 11] := by
  decide

/-! ## Buffer views and draw batches -/

/-- C29, the code at the failing input: after `InitializeBuffers` on a scene whose first
mesh has two primitives and whose second mesh has one, there are two draw batches but
three vertex-buffer views and three index-buffer views, and the views at position 1, which
`PopulateCommandList` binds for the second batch, are those of the second primitive of the
first mesh (3 vertices, 3 indices), not those of the second mesh (5 vertices, 9 indices);
on a scene whose only mesh has no primitive there is one draw batch and no view, and the
lookups for that batch are out of range. -/
theorem InitializeBuffers_views_per_primitive :
    (InitializeBuffers sampleConstants false sampleTwoPrimitiveScene sampleInitialized
        sampleBuffersAnswers).2.m_DrawBatchContext.length = 2 ∧
    (InitializeBuffers sampleConstants false sampleTwoPrimitiveScene sampleInitialized
        sampleBuffersAnswers).2.m_VertexBufferView
      = [{ BufferLocation := 4, StrideInBytes := 44, SizeInBytes := 4 * 44 },
         { BufferLocation := 8, StrideInBytes := 44, SizeInBytes := 3 * 44 },
         { BufferLocation := 12, StrideInBytes := 44, SizeInBytes := 5 * 44 }] ∧
    (InitializeBuffers sampleConstants false sampleTwoPrimitiveScene sampleInitialized
        sampleBuffersAnswers).2.m_IndexBufferView
      = [{ BufferLocation := 6, SizeInBytes := 6 * 4 },
         { BufferLocation := 10, SizeInBytes := 3 * 4 },
         { BufferLocation := 14, SizeInBytes := 9 * 4 }] ∧
    (InitializeBuffers sampleConstants false sampleEmptyMeshScene sampleInitialized
        sampleBuffersAnswers).2.m_DrawBatchContext.length = 1 ∧
    (InitializeBuffers sampleConstants false sampleEmptyMeshScene sampleInitialized
        sampleBuffersAnswers).2.m_VertexBufferView = [] ∧
    (InitializeBuffers sampleConstants false sampleEmptyMeshScene sampleInitialized
        sampleBuffersAnswers).2.m_IndexBufferView = [] ∧
    Cmd.IASetVertexBuffers none
      ∈ (InitializeBuffers sampleConstants false sampleEmptyMeshScene sampleInitialized
          sampleBuffersAnswers).2.m_pCommandList := by
  decide

/-! ## The state of the multisampled render target on the first frame -/

/-- `CreateRenderTarget` creates the multisampled render target in the render-target
state. -/
theorem CreateRenderTarget_msaa_state (k : Constants) (m : D3d12GraphicsManager)
    (a : RenderTargetAnswers) (hmsaa : FAILED a.msaa = false) :
    createdStates (CreateRenderTarget k m a).2.m_pDev
        (CreateRenderTarget k m a).2.m_pMsaaRenderTarget
      = ResourceState.RENDER_TARGET := by
  have hdev : ∀ (frames : List Nat) (x : D3d12GraphicsManager) (h : Int) (hr : HRESULT),
      (renderTargetLoop a x h hr frames).1.m_pDev = x.m_pDev := by
    intro frames
    induction frames with
    | nil => intro x h hr; rfl
    | cons i rest ih =>
      intro x h hr
      simp only [renderTargetLoop]
      split
      · rfl
      · rw [ih]
  simp [CreateRenderTarget, Device.CreateCommittedResource, hmsaa, createdStates, hdev]

/-- The first transition barrier that `PopulateCommandList` records is the one of the
multisampled render target, from the pixel-shader-resource state. -/
theorem PopulateCommandList_first_barrier (k : Constants) (debug : Bool)
    (m : D3d12GraphicsManager) (a : RecordAnswers)
    (halloc : FAILED a.allocatorReset = false) (hlist : FAILED a.listReset = false) :
    ∃ rest, (PopulateCommandList k debug m a).2.m_pCommandList
      = Cmd.Reset "opaque" ::
        Cmd.ResourceBarrier m.m_pMsaaRenderTarget ResourceState.PIXEL_SHADER_RESOURCE
          ResourceState.RENDER_TARGET :: rest := by
  obtain ⟨extra, hshape, _⟩ := PopulateCommandList_shape k debug m a halloc hlist
  rw [hshape]
  exact ⟨_, rfl⟩

/-- C30, the code at the failing input: `Initialize` creates the multisampled render
target (resource 1) in the render-target state; the first frame recorded after it, at the
end of the first `InitializeBuffers`, starts with the transition barrier of resource 1
from the pixel-shader-resource state to the render-target state, so that replaying the
frame over the states the resources were created in fails. -/
theorem first_barrier_mismatches_creation_state :
    sampleInitialized.m_pMsaaRenderTarget = 1 ∧
    sampleInitialized.m_pDev.resources
      = [{ heap := HeapType.DEFAULT, Width := 960, Height := 540, SampleCount := 4,
           InitialState := ResourceState.RENDER_TARGET }] ∧
    createdStates sampleLoaded.m_pDev 1 = ResourceState.RENDER_TARGET ∧
    (sampleLoaded.m_pCommandList.filter Cmd.isBarrier).head?
      = some (Cmd.ResourceBarrier 1 ResourceState.PIXEL_SHADER_RESOURCE
          ResourceState.RENDER_TARGET) ∧
    (trackCmds (createdStates sampleLoaded.m_pDev) sampleLoaded.m_pCommandList).isSome
      = false := by
  decide

end Corona
